import Mathlib

/-!
# HISE sample components

A shallow embedding of `hi_components/audio_components/SampleComponents.cpp`:
the timeline text of `SamplerDisplayWithTimeline::getText`, the region
arithmetic, mouse handling, timer and sound selection of `SamplerSoundWaveform`,
and the display path of `WaveformComponent::rebuildPath`.

Numeric conventions of the embedding.  A C++ `int` is an integer (`ℤ`) kept in
32 bits: what `juce::roundToInt` returns and every sum or difference of two
`int`s is reduced by `toInt32`.  A `double` or `float` is the rational (`ℚ`) it
denotes, and every arithmetic operation of the source on them is followed by
the rounding of its type, `toDouble` or `toFloat` (to nearest, ties to even,
with gradual underflow).  Infinities and NaN are outside the embedding; a
division by zero, which the source never guards, yields `0` here as it does in
`ℚ`.  The `int`s a function receives (a pixel column, a width, a property of a
sound) are integers; a theorem that needs one of them, or a sum of them,
inside the `int` range says so with `IsInt32` or the two bounds.
-/

namespace hise

/-! ## Library helpers used by the source -/

/-- The values of the C++ type `int`. -/
def IsInt32 (n : ℤ) : Prop :=
  -2147483648 ≤ n ∧ n < 2147483648

instance (n : ℤ) : Decidable (IsInt32 n) :=
  inferInstanceAs (Decidable (-2147483648 ≤ n ∧ n < 2147483648))

/-- Modelled from the spec: `juce::roundToInt` is not under `src/`.  It rounds
a floating point value to the nearest integer; a value exactly half way
between two integers goes to the even one.  The `int` it returns is
`toInt32` of this integer. -/
def roundToInt (value : ℚ) : ℤ :=
  if value - (⌊value⌋ : ℤ) < 1 / 2 then ⌊value⌋
  else if 1 / 2 < value - (⌊value⌋ : ℤ) then ⌊value⌋ + 1
  else if ⌊value⌋ % 2 = 0 then ⌊value⌋
  else ⌊value⌋ + 1

/-- The C++ conversion `(int) value` / `(int64) value` of a floating point
value: the fractional part is discarded (rounding towards zero). -/
def truncToInt (value : ℚ) : ℤ :=
  if 0 ≤ value then ⌊value⌋ else ⌈value⌉

/-- The value an `int` holds of an integer: reduced modulo `2 ^ 32` into the
range from `-2 ^ 31` to `2 ^ 31 - 1`. -/
def toInt32 (n : ℤ) : ℤ :=
  (n + 2147483648) % 4294967296 - 2147483648

/-- The exponent of the unit in the last place at `q`, in a binary floating
point format with `precision` significand bits and least exponent `emin`. -/
def ulpExponent (precision : ℕ) (emin : ℤ) (q : ℚ) : ℤ :=
  max (Int.log 2 |q| - ((precision : ℤ) - 1)) emin

/-- The rounding of `q` to the nearest number of a binary floating point
format, ties to the even significand. -/
def roundToFormat (precision : ℕ) (emin : ℤ) (q : ℚ) : ℚ :=
  (roundToInt (q / (2 : ℚ) ^ ulpExponent precision emin q) : ℚ)
    * (2 : ℚ) ^ ulpExponent precision emin q

/-- The rounding of the result of an operation on `double`s (IEEE binary64). -/
def toDouble (q : ℚ) : ℚ :=
  roundToFormat 53 (-1074) q

/-- The rounding of the result of an operation on `float`s, and of the
conversion `(float) n` (IEEE binary32). -/
def toFloat (q : ℚ) : ℚ :=
  roundToFormat 24 (-149) q

/-- A number of the binary floating point format: an integer significand below
`2 ^ precision` in absolute value, times a power of two not below `emin`. -/
def Representable (precision : ℕ) (emin : ℤ) (y : ℚ) : Prop :=
  ∃ m k : ℤ, |m| < 2 ^ precision ∧ emin ≤ k ∧ y = (m : ℚ) * (2 : ℚ) ^ k

/-- Modelled from the spec: `juce::String (int)` is not under `src/`.  It is
the decimal representation of the number, with a leading minus sign when it is
negative. -/
def intToString (value : ℤ) : String :=
  toString value

/-- A two-digit decimal field as `strftime` prints `%M` and `%S`. -/
def twoDigits (value : ℤ) : String :=
  if value < 10 then "0" ++ intToString value else intToString value

/-- Modelled from the spec: `juce::Time (ms).formatted ("%M:%S:")` is not under
`src/`.  It prints the minute of the hour and the second of the minute of the
instant `ms` milliseconds after the epoch, two digits each, every field
followed by a colon (a time zone at a whole number of hours from UTC). -/
def formattedMinutesSeconds (millisSinceEpoch : ℤ) : String :=
  twoDigits (millisSinceEpoch / 60000 % 60) ++ ":"
    ++ twoDigits (millisSinceEpoch / 1000 % 60) ++ ":"

/-! ## `SamplerDisplayWithTimeline` -/

/-- The unit of the timeline ruler, `SamplerDisplayWithTimeline::TimeDomain`. -/
inductive TimeDomain where
  | Samples
  | Milliseconds
  | Seconds
  deriving DecidableEq, Repr

/-- The timeline properties, `SamplerDisplayWithTimeline::Properties`. -/
structure Properties where
  sampleRate : ℚ
  sampleLength : ℚ
  currentDomain : TimeDomain

/-- The loop `while (ms.length() < 3) ms = "0" + ms;` of `getText`. -/
def padMilliseconds (ms : String) : String :=
  if ms.length < 3 then padMilliseconds ("0" ++ ms) else ms
termination_by 3 - ms.length
decreasing_by
  simp only [String.length_append]
  have : ("0" : String).length = 1 := rfl
  omega

/-- The value `sampleValue` of `getText`. -/
def sampleValue (p : Properties) (normalisedX : ℚ) : ℤ :=
  toInt32 (roundToInt (toDouble (normalisedX * p.sampleLength)))

/-- The value `msValue` of `getText`. -/
def msValue (p : Properties) (normalisedX : ℚ) : ℚ :=
  toDouble (toDouble ((sampleValue p normalisedX : ℚ) / max 1 p.sampleRate) * 1000)

/-- The function `SamplerDisplayWithTimeline::getText`. -/
def getText (p : Properties) (normalisedX : ℚ) : String :=
  if p.sampleRate > 0 then
    if p.currentDomain = TimeDomain.Samples then
      intToString (roundToInt (sampleValue p normalisedX : ℚ))
    else if p.currentDomain = TimeDomain.Milliseconds then
      intToString (toInt32 (roundToInt (msValue p normalisedX))) ++ " ms"
    else
      formattedMinutesSeconds (truncToInt (msValue p normalisedX))
        ++ padMilliseconds
            (intToString (Int.tmod (toInt32 (roundToInt (msValue p normalisedX))) 1000))
  else
    ""

/-! ## Ranges and clamping -/

/-- Modelled from the spec: `juce::jlimit (lower, upper, value)` is not under
`src/`.  It clamps `value` to the range from `lower` to `upper`. -/
def jlimit (lowerLimit upperLimit valueToConstrain : ℤ) : ℤ :=
  if valueToConstrain < lowerLimit then lowerLimit
  else if upperLimit < valueToConstrain then upperLimit
  else valueToConstrain

/-- Modelled from the spec: `juce::Range<int>` is not under `src/`.  It is a
pair of a start and an end position. -/
structure Range where
  start : ℤ
  end_ : ℤ
  deriving DecidableEq, Repr

namespace Range

/-- The constructor `Range<int> (start, end)`: the end is never below the
start. -/
def make (startValue endValue : ℤ) : Range :=
  ⟨startValue, max startValue endValue⟩

/-- The accessor `Range::getStart`. -/
def getStart (r : Range) : ℤ := r.start

/-- The accessor `Range::getEnd`. -/
def getEnd (r : Range) : ℤ := r.end_

/-- The accessor `Range::getLength`: the difference of the ends, an `int`. -/
def getLength (r : Range) : ℤ := toInt32 (r.end_ - r.start)

/-- The operator `range + amount`: both ends moved by `amount`, in `int`
arithmetic. -/
def shift (r : Range) (amountToAdd : ℤ) : Range :=
  make (toInt32 (r.start + amountToAdd)) (toInt32 (r.end_ + amountToAdd))

/-- The function `Range::getUnionWith`. -/
def getUnionWith (r other : Range) : Range :=
  make (min r.start other.start) (max r.end_ other.end_)

/-- The function `Range::clipValue`. -/
def clipValue (r : Range) (value : ℤ) : ℤ :=
  jlimit r.start r.end_ value

end Range

/-! ## `SamplerSoundWaveform` -/

/-- The sample properties (`SampleIds::...`) this file reads or writes. -/
inductive SampleId where
  | SampleStart
  | SampleEnd
  | SampleStartMod
  | LoopStart
  | LoopEnd
  | LoopXFade
  | LoopEnabled
  | Volume
  deriving DecidableEq, Repr

/-- A `juce::Identifier` naming a sample property; `none` is the null
identifier `{}`, for which `isValid ()` is false. -/
abbrev Identifier := Option SampleId

/-- The regions of the sound editor, `AudioDisplayComponent::AreaTypes`. -/
inductive AreaTypes where
  | PlayArea
  | SampleStartArea
  | LoopArea
  | LoopCrossfadeArea
  | numAreas
  deriving DecidableEq, Repr

/-- What this file uses of a `ModulatorSamplerSound`. -/
structure ModulatorSamplerSound where
  /-- The function `getSampleProperty (id)`, converted to `int`. -/
  getSampleProperty : SampleId → ℤ
  /-- The function `getPropertyRange (id)`. -/
  getPropertyRange : SampleId → Range
  /-- The value `getReferenceToSound (0)->isReversed ()`. -/
  isReversed : Bool

/-- What this file sets on a `SampleArea`. -/
structure SampleArea where
  /-- The range passed to `setSampleRange`. -/
  range : Range
  /-- The first argument of `setAllowedPixelRanges`, in samples. -/
  leftDragRange : Range
  /-- The second argument of `setAllowedPixelRanges`, in samples. -/
  rightDragRange : Range
  /-- The flag passed to `setReversed`. -/
  reversed : Bool
  /-- The flag passed to `setVisible`. -/
  visible : Bool

/-- What the mouse handlers read of a `juce::MouseEvent`. -/
structure MouseEvent where
  /-- The value `e.getPosition ().getX ()`. -/
  x : ℤ
  /-- The value `e.mods.isAnyModifierKeyDown ()`. -/
  isAnyModifierKeyDown : Bool
  /-- The value `e.mods.isLeftButtonDown ()`. -/
  isLeftButtonDown : Bool
  /-- The value `e.mods.isRightButtonDown ()`. -/
  isRightButtonDown : Bool

/-- The state of a `SamplerSoundWaveform` that the modelled functions use. -/
structure SamplerSoundWaveform where
  onInterface : Bool
  zeroCrossing : Bool
  currentClickArea : AreaTypes
  /-- The displayed sound; `none` is the null pointer. -/
  currentSound : Option ModulatorSamplerSound
  /-- The four areas the constructor adds, by their area type. -/
  areas : AreaTypes → SampleArea
  timeProperties : Properties
  /-- The value `getWidth ()`. -/
  width : ℤ
  /-- The value `getTotalSampleAmount ()`. -/
  totalSampleAmount : ℤ
  /-- The function `getThumbnail ()->getNextZero`. -/
  getNextZero : ℤ → ℤ

/-- The element `areas[a]` of the owned array: the constructor adds one area
for each area type below `numAreas`, any other index gives the null pointer. -/
def SamplerSoundWaveform.areaAt (w : SamplerSoundWaveform) (a : AreaTypes) :
    Option SampleArea :=
  if a = AreaTypes.numAreas then none else some (w.areas a)

/-- The waveform with the area `a` replaced. -/
def SamplerSoundWaveform.withArea (w : SamplerSoundWaveform) (a : AreaTypes)
    (area : SampleArea) : SamplerSoundWaveform :=
  ⟨w.onInterface, w.zeroCrossing, w.currentClickArea, w.currentSound,
    Function.update w.areas a area, w.timeProperties, w.width, w.totalSampleAmount,
    w.getNextZero⟩

/-- The call `area->setSampleRange (r)`. -/
def SampleArea.setSampleRange (area : SampleArea) (r : Range) : SampleArea :=
  ⟨r, area.leftDragRange, area.rightDragRange, area.reversed, area.visible⟩

/-- The call `area->setAllowedPixelRanges (left, right)`. -/
def SampleArea.setAllowedPixelRanges (area : SampleArea) (left right : Range) : SampleArea :=
  ⟨area.range, left, right, area.reversed, area.visible⟩

/-- The call `area->setReversed (rev)`. -/
def SampleArea.setReversed (area : SampleArea) (rev : Bool) : SampleArea :=
  ⟨area.range, area.leftDragRange, area.rightDragRange, rev, area.visible⟩

/-- The call `area->setVisible (v)`. -/
def SampleArea.setVisible (area : SampleArea) (v : Bool) : SampleArea :=
  ⟨area.range, area.leftDragRange, area.rightDragRange, area.reversed, v⟩

/-- Modelled from the spec: `AudioDisplayComponent::refreshSampleAreaBounds` is
not under `src/`.  It lays out the pixel bounds of the areas from their sample
ranges; the embedding does not track pixel bounds. -/
def refreshSampleAreaBounds (w : SamplerSoundWaveform) : SamplerSoundWaveform :=
  w

/-- The function `SamplerSoundWaveform::updateRange`; `none` when it
dereferences a null `currentSound`. -/
def updateRange (w : SamplerSoundWaveform) (a : AreaTypes) (refreshBounds : Bool) :
    Option SamplerSoundWaveform :=
  let finish (w1 : SamplerSoundWaveform) : Option SamplerSoundWaveform :=
    some (if refreshBounds then refreshSampleAreaBounds w1 else w1)
  match a with
  | AreaTypes.PlayArea =>
    match w.currentSound with
    | none => none
    | some s =>
      finish (w.withArea a
        (((w.areas a).setSampleRange
            (Range.make (s.getSampleProperty SampleId.SampleStart)
              (s.getSampleProperty SampleId.SampleEnd))).setAllowedPixelRanges
          (s.getPropertyRange SampleId.SampleStart) (s.getPropertyRange SampleId.SampleEnd)))
  | AreaTypes.SampleStartArea =>
    match w.currentSound with
    | none => none
    | some s =>
      let isReversed := s.isReversed
      let startMod := s.getSampleProperty SampleId.SampleStartMod
      if isReversed then
        let offset := toInt32 (s.getSampleProperty SampleId.SampleEnd - startMod)
        let displayArea := Range.make offset (toInt32 (offset + startMod))
        let leftDragRange := Range.make 0 (toInt32 (offset + startMod))
        let rightDragRange := s.getPropertyRange SampleId.SampleEnd
        finish (w.withArea a
          (((w.areas a).setSampleRange displayArea).setAllowedPixelRanges
            leftDragRange rightDragRange))
      else
        let offset := s.getSampleProperty SampleId.SampleStart
        let displayArea := Range.make offset (toInt32 (offset + startMod))
        let leftDragRange := s.getPropertyRange SampleId.SampleStart
        let rightDragRange := (s.getPropertyRange SampleId.SampleStartMod).shift offset
        finish (w.withArea a
          (((w.areas a).setSampleRange displayArea).setAllowedPixelRanges
            leftDragRange rightDragRange))
  | AreaTypes.LoopArea =>
    match w.currentSound with
    | none => none
    | some s =>
      finish (w.withArea a
        ((((w.areas a).setVisible
              (decide (s.getSampleProperty SampleId.LoopEnabled ≠ 0))).setSampleRange
            (Range.make (s.getSampleProperty SampleId.LoopStart)
              (s.getSampleProperty SampleId.LoopEnd))).setAllowedPixelRanges
          (s.getPropertyRange SampleId.LoopStart) (s.getPropertyRange SampleId.LoopEnd)))
  | AreaTypes.LoopCrossfadeArea =>
    match w.currentSound with
    | none => none
    | some s =>
      let rev := s.isReversed
      let area := (w.areas a).setReversed rev
      let start :=
        if rev then s.getSampleProperty SampleId.LoopEnd
        else
          toInt32
            (s.getSampleProperty SampleId.LoopStart - s.getSampleProperty SampleId.LoopXFade)
      let end_ :=
        if rev then
          toInt32
            (s.getSampleProperty SampleId.LoopEnd + s.getSampleProperty SampleId.LoopXFade)
        else s.getSampleProperty SampleId.LoopStart
      finish (w.withArea a (area.setSampleRange (Range.make start end_)))
  | AreaTypes.numAreas => finish w

/-- The function `SamplerSoundWaveform::getAreaForModifiers`. -/
def getAreaForModifiers (w : SamplerSoundWaveform) (_e : MouseEvent) : AreaTypes :=
  w.currentClickArea

/-- The function `SamplerSoundWaveform::getSampleIdToChange`. -/
def getSampleIdToChange (w : SamplerSoundWaveform) (a : AreaTypes) (e : MouseEvent) :
    Identifier :=
  match w.areaAt a with
  | some _ =>
    let isEnd := e.isRightButtonDown || decide (a = AreaTypes.SampleStartArea)
    match a with
    | AreaTypes.PlayArea =>
      if isEnd then some SampleId.SampleEnd else some SampleId.SampleStart
    | AreaTypes.SampleStartArea => some SampleId.SampleStartMod
    | AreaTypes.LoopArea =>
      if isEnd then some SampleId.LoopEnd else some SampleId.LoopStart
    | _ => none
  | none => none

/-- What a call of `SamplerSoundWaveform::mouseDown` does to its surroundings. -/
inductive MouseDownEffect where
  /-- It returns without a call on the sound or the previewer. -/
  | nothing
  /-- The calls `setPreviewStart (start)` and `togglePreview ()`. -/
  | preview (start : ℤ)
  /-- A member access through the null `currentSound`. -/
  | nullSound
  /-- The one call `currentSound->setSampleProperty (id, value, true)`. -/
  | setSampleProperty (id : SampleId) (value : ℤ)
  deriving DecidableEq, Repr

/-- The sample position of the pixel column `x`, as `mouseDown` and
`mouseMove` compute it: `n = (double) x / (double) getWidth ()` and then
`roundToInt (timeProperties.sampleLength * n)`, each operation rounded to a
`double` and the result an `int`. -/
def clickedSample (w : SamplerSoundWaveform) (x : ℤ) : ℤ :=
  let n := toDouble ((x : ℚ) / (w.width : ℚ))
  toInt32 (roundToInt (toDouble (w.timeProperties.sampleLength * n)))

/-- The function `SamplerSoundWaveform::mouseDown`, in a build with
`USE_BACKEND`. -/
def mouseDown (w : SamplerSoundWaveform) (e : MouseEvent) : MouseDownEffect :=
  if w.onInterface then MouseDownEffect.nothing
  else if e.isAnyModifierKeyDown then
    let numSamples := w.totalSampleAmount
    let posNorm := toDouble ((e.x : ℚ) / (w.width : ℚ))
    let start := toInt32 (roundToInt (toDouble ((numSamples : ℚ) * posNorm)))
    MouseDownEffect.preview (w.getNextZero start)
  else
    let a := getAreaForModifiers w e
    match getSampleIdToChange w a e with
    | none => MouseDownEffect.nothing
    | some propId =>
      let value := clickedSample w e.x
      let value := if w.zeroCrossing then w.getNextZero value else value
      let adjusted : Option ℤ :=
        if propId = SampleId.SampleStartMod then
          match w.currentSound with
          | none => none
          | some s => some (toInt32 (value - s.getSampleProperty SampleId.SampleStart))
        else some value
      match adjusted with
      | none => MouseDownEffect.nullSound
      | some value =>
        match w.currentSound with
        | none => MouseDownEffect.nothing
        | some s =>
          let r := s.getPropertyRange propId
          let value := jlimit r.getStart r.getEnd value
          MouseDownEffect.setSampleProperty propId value

/-! ## `WaveformComponent` -/

/-- The interpolation modes of a waveform broadcaster. -/
inductive InterpolationMode where
  | Truncate
  | LinearInterpolation
  deriving DecidableEq, Repr

/-- What `rebuildPath` reads of a `WaveformComponent::Broadcaster`. -/
structure Broadcaster where
  interpolationMode : InterpolationMode
  scaleFunction : ℚ → ℚ

/-- A point of a `juce::Path`. -/
abbrev Point := ℚ × ℚ

/-- The state of a `WaveformComponent` that `rebuildPath` uses.  The path is
the list of the points of its one sub-path, in the order they were added. -/
structure WaveformComponent where
  bypassed : Bool
  /-- The broadcaster; `none` is the null pointer. -/
  broadcaster : Option Broadcaster
  /-- The buffer `tableValues` points to; `none` is the null pointer. -/
  tableValues : Option (List ℚ)
  tableLength : ℤ
  normalizeValue : ℚ
  /-- The value `getWidth ()`. -/
  width : ℤ
  /-- The value `getHeight ()`. -/
  height : ℤ
  path : List Point

/-- The read `tableValues[index]`; `none` when the index is outside the
buffer. -/
def readTable (values : List ℚ) (index : ℤ) : Option ℚ :=
  if 0 ≤ index then values[index.toNat]? else none

/-- The value `cycle` of `rebuildPath`, the `float` quotient
`tableLength / w` with `w = (float) getWidth ()`; the `int` `tableLength` is
converted to `float` for the division. -/
def cycle (c : WaveformComponent) : ℚ :=
  toFloat (toFloat (c.tableLength : ℚ) / toFloat (c.width : ℚ))

/-- The value `tableIndex` of `rebuildPath` in pixel column `i`, the `float`
product `(float) i * cycle`. -/
def tableIndex (c : WaveformComponent) (i : ℤ) : ℚ :=
  toFloat (toFloat (i : ℚ) * cycle c)

/-- The index `x1` of `rebuildPath` in pixel column `i`, the conversion
`(int) tableIndex`. -/
def x1 (c : WaveformComponent) (i : ℤ) : ℤ :=
  truncToInt (tableIndex c i)

/-- The index `x2` of `rebuildPath` in pixel column `i`, `(x1 + 1) % tableLength`
in `int` arithmetic. -/
def x2 (c : WaveformComponent) (i : ℤ) : ℤ :=
  Int.tmod (toInt32 (x1 c i + 1)) c.tableLength

/-- A sound of 1000 samples with a loop, used to evaluate the model. -/
def exampleSound (reversed : Bool) : ModulatorSamplerSound where
  getSampleProperty := fun id =>
    match id with
    | SampleId.SampleStart => 10
    | SampleId.SampleEnd => 900
    | SampleId.SampleStartMod => 20
    | SampleId.LoopStart => 100
    | SampleId.LoopEnd => 500
    | SampleId.LoopXFade => 30
    | SampleId.LoopEnabled => 1
    | SampleId.Volume => 0
  getPropertyRange := fun _ => ⟨0, 1000⟩
  isReversed := reversed

/-- An area with nothing set yet. -/
def emptyArea : SampleArea :=
  ⟨⟨0, 0⟩, ⟨0, 0⟩, ⟨0, 0⟩, false, true⟩

/-- A waveform 100 pixels wide that displays `exampleSound`, whose thumbnail
crosses zero at every multiple of 64 samples. -/
def exampleWaveform (zeroCrossing reversed : Bool) (clickArea : AreaTypes) :
    SamplerSoundWaveform where
  onInterface := false
  zeroCrossing := zeroCrossing
  currentClickArea := clickArea
  currentSound := some (exampleSound reversed)
  areas := fun _ => emptyArea
  timeProperties := ⟨44100, 1000, TimeDomain.Samples⟩
  width := 100
  totalSampleAmount := 1000
  getNextZero := fun position => (position + 63) / 64 * 64

/-- The example waveform, 400 pixels wide. -/
def wideWaveform (clickArea : AreaTypes) : SamplerSoundWaveform :=
  { exampleWaveform false false clickArea with width := 400 }

/-- A sound whose sample start and whose upper property limits are
2000000000. -/
def farSound (upperLimit : ℤ) : ModulatorSamplerSound where
  getSampleProperty := fun id =>
    match id with
    | SampleId.SampleStart => 2000000000
    | SampleId.SampleEnd => 2000000000
    | SampleId.SampleStartMod => 2000000000
    | SampleId.LoopStart => 0
    | SampleId.LoopEnd => 2000000000
    | SampleId.LoopXFade => 2000000000
    | SampleId.LoopEnabled => 1
    | SampleId.Volume => 0
  getPropertyRange := fun _ => ⟨0, upperLimit⟩
  isReversed := false

/-- A sound with the given sample start, sample end, start modulation, loop
start, loop end and loop crossfade, every property range `[0, 1000]`. -/
def customSound (sampleStart sampleEnd sampleStartMod loopStart loopEnd loopXFade : ℤ)
    (reversed : Bool) : ModulatorSamplerSound where
  getSampleProperty := fun id =>
    match id with
    | SampleId.SampleStart => sampleStart
    | SampleId.SampleEnd => sampleEnd
    | SampleId.SampleStartMod => sampleStartMod
    | SampleId.LoopStart => loopStart
    | SampleId.LoopEnd => loopEnd
    | SampleId.LoopXFade => loopXFade
    | SampleId.LoopEnabled => 1
    | SampleId.Volume => 0
  getPropertyRange := fun _ => ⟨0, 1000⟩
  isReversed := reversed

/-- A sound whose properties all have the value `sampleStart` and the range
`[lowerLimit, upperLimit]`. -/
def shiftedSound (sampleStart lowerLimit upperLimit : ℤ) : ModulatorSamplerSound where
  getSampleProperty := fun _ => sampleStart
  getPropertyRange := fun _ => ⟨lowerLimit, upperLimit⟩
  isReversed := false

/-- A waveform one pixel wide over `sampleLength` samples that displays
`sound`, no snapping to zero crossings. -/
def longWaveform (sampleLength : ℚ) (sound : ModulatorSamplerSound) (clickArea : AreaTypes) :
    SamplerSoundWaveform where
  onInterface := false
  zeroCrossing := false
  currentClickArea := clickArea
  currentSound := some sound
  areas := fun _ => emptyArea
  timeProperties := ⟨44100, sampleLength, TimeDomain.Samples⟩
  width := 1
  totalSampleAmount := 0
  getNextZero := fun position => position

/-- A click with the left button, no modifier key, at pixel column `x`. -/
def leftClickAt (x : ℤ) : MouseEvent :=
  ⟨x, false, true, false⟩

/-- A linearly interpolating broadcaster that maps table values from the unit
interval to `[-1, 1]`. -/
def exampleBroadcaster : Broadcaster :=
  ⟨InterpolationMode.LinearInterpolation, fun value => value * 2 - 1⟩

/-- A component 4 pixels wide and 10 pixels high that shows a table of two
values. -/
def exampleComponent : WaveformComponent where
  bypassed := false
  broadcaster := some exampleBroadcaster
  tableValues := some [0, 1]
  tableLength := 2
  normalizeValue := 1
  width := 4
  height := 10
  path := []

/-- A broadcaster that reads the table without interpolation and leaves the
values as they are. -/
def truncatingBroadcaster : Broadcaster :=
  ⟨InterpolationMode.Truncate, fun value => value⟩

/-- A component, not bypassed, that shows the table `values` of the length
`tableLength` through the broadcaster `b`, its values not scaled further. -/
def tableComponent (b : Broadcaster) (values : List ℚ) (tableLength width height : ℤ) :
    WaveformComponent where
  bypassed := false
  broadcaster := some b
  tableValues := some values
  tableLength := tableLength
  normalizeValue := 1
  width := width
  height := height
  path := []

/-! ## `SamplerSoundWaveform`: display state, timer and hover -/

/-- The bounds of a component, as passed to `setBounds (x, y, width, height)`. -/
structure Rectangle where
  x : ℤ
  y : ℤ
  width : ℤ
  height : ℤ
  deriving DecidableEq, Repr

/-- The mouse cursors the handlers of this file set; `PreviewIcon` is the
cursor built from the preview icon, `MouseCursor (icon, 15, 15)`. -/
inductive MouseCursor where
  | NormalCursor
  | CrosshairCursor
  | PreviewIcon
  deriving DecidableEq, Repr

/-- The name of a sample property, as `tt << propId` prints it. -/
def SampleId.name : SampleId → String
  | SampleId.SampleStart => "SampleStart"
  | SampleId.SampleEnd => "SampleEnd"
  | SampleId.SampleStartMod => "SampleStartMod"
  | SampleId.LoopStart => "LoopStart"
  | SampleId.LoopEnd => "LoopEnd"
  | SampleId.LoopXFade => "LoopXFade"
  | SampleId.LoopEnabled => "LoopEnabled"
  | SampleId.Volume => "Volume"

/-- The operator `range += amount`: both ends moved by `amount`, in `int`
arithmetic. -/
def Range.addAssign (r : Range) (amountToAdd : ℤ) : Range :=
  ⟨toInt32 (r.start + amountToAdd), toInt32 (r.end_ + amountToAdd)⟩

/-- Modelled from the spec: the functions of the host that `setSoundToDisplay`
and `getSampleRate` call are not under `src/`.  They are taken as given: what a
sound reports of its file, and the pixel bounds that
`refreshSampleAreaBounds` lays the areas out to. -/
structure Host where
  /-- The function `ModulatorSamplerSound::isMissing`. -/
  isMissing : ModulatorSamplerSound → Bool
  /-- The function `ModulatorSamplerSound::isPurged`. -/
  isPurged : ModulatorSamplerSound → Bool
  /-- The function `createAudioReader (multiMicIndex)`: the `lengthInSamples`
  of the reader, `none` for a null reader. -/
  createAudioReader : ModulatorSamplerSound → ℤ → Option ℤ
  /-- The value `getReferenceToSound (0)->getLengthInSamples ()`. -/
  getLengthInSamples : ModulatorSamplerSound → ℤ
  /-- The value `getSampleRate ()` of a sound. -/
  getSampleRate : ModulatorSamplerSound → ℚ
  /-- The bounds `refreshSampleAreaBounds` gives the areas. -/
  areaBounds : (AreaTypes → SampleArea) → AreaTypes → Rectangle

/-- A `SamplerSoundWaveform` with the further members that `setSoundToDisplay`,
`timerCallback`, `mouseMove` and `setIsSamplerWorkspacePreview` use. -/
structure WaveformState extends SamplerSoundWaveform where
  inWorkspace : Bool
  /-- The position `setPlaybackPosition` stores. -/
  playBackPosition : ℚ
  sampleStartPosition : ℚ
  lastActive : Bool
  numSamplesInCurrentSample : ℤ
  /-- The bounds of the four areas. -/
  areaBounds : AreaTypes → Rectangle
  /-- The visibility of `areas[a]->leftEdge`. -/
  leftEdgeVisible : AreaTypes → Bool
  /-- The visibility of `areas[a]->rightEdge`. -/
  rightEdgeVisible : AreaTypes → Bool
  /-- The length of the reader the thumbnail `preview` shows; `none` after
  `preview->clear ()`. -/
  previewReader : Option ℤ
  xPos : ℤ
  previewHover : Bool
  /-- The text `setTooltip` stores. -/
  tooltip : String
  /-- The cursor `setMouseCursor` stores. -/
  mouseCursor : MouseCursor

/-- The function `SamplerSoundWaveform::setIsSamplerWorkspacePreview`; the
settings of the thumbnail and the look and feel are not tracked. -/
def setIsSamplerWorkspacePreview (d : WaveformState) : WaveformState :=
  { d with inWorkspace := true, onInterface := false,
           mouseCursor := MouseCursor.NormalCursor }

/-- The function `SamplerSoundWaveform::updateRanges`; `none` when a null
`currentSound` is dereferenced. -/
def updateRanges (w : SamplerSoundWaveform) : Option SamplerSoundWaveform :=
  match w.currentSound with
  | some _ =>
    match updateRange w AreaTypes.PlayArea false with
    | none => none
    | some w1 =>
      match updateRange w1 AreaTypes.SampleStartArea false with
      | none => none
      | some w2 =>
        match updateRange w2 AreaTypes.LoopArea false with
        | none => none
        | some w3 => updateRange w3 AreaTypes.LoopCrossfadeArea true
  | none => some (refreshSampleAreaBounds w)

/-- The function `SamplerSoundWaveform::getSampleRate`. -/
def getSampleRate (host : Host) (w : SamplerSoundWaveform) : ℚ :=
  match w.currentSound with
  | some s => host.getSampleRate s
  | none => -1

/-- The four areas of the owned array `areas`, in index order. -/
def allAreas : List AreaTypes :=
  [AreaTypes.PlayArea, AreaTypes.SampleStartArea, AreaTypes.LoopArea,
    AreaTypes.LoopCrossfadeArea]

/-- The function `SamplerSoundWaveform::setSoundToDisplay`; `none` when a null
`currentSound` is dereferenced.  The callback of `gammaListener` and
`AudioDisplayComponent::refresh` change no member tracked here. -/
def setSoundToDisplay (host : Host) (d : WaveformState) (s : Option ModulatorSamplerSound)
    (multiMicIndex : ℤ) : Option WaveformState :=
  let d1 : WaveformState :=
    { d with playBackPosition := 0,
             timeProperties := ⟨0, 0, d.timeProperties.currentDomain⟩,
             currentSound := s }
  let usable : Option ModulatorSamplerSound :=
    match s with
    | some sound => if !host.isMissing sound && !host.isPurged sound then some sound else none
    | none => none
  match usable with
  | some sound =>
    let reversed := sound.isReversed
    let d2 : WaveformState :=
      { d1 with
        leftEdgeVisible :=
          Function.update
            (Function.update d1.leftEdgeVisible AreaTypes.SampleStartArea reversed)
            AreaTypes.LoopCrossfadeArea (!reversed),
        rightEdgeVisible :=
          Function.update
            (Function.update d1.rightEdgeVisible AreaTypes.LoopCrossfadeArea reversed)
            AreaTypes.SampleStartArea (!reversed) }
    match host.createAudioReader sound multiMicIndex with
    | some lengthInSamples =>
      let d3 : WaveformState :=
        { d2 with
          numSamplesInCurrentSample := lengthInSamples,
          previewReader := some lengthInSamples,
          timeProperties :=
            ⟨host.getSampleRate sound, (host.getLengthInSamples sound : ℚ),
              d2.timeProperties.currentDomain⟩ }
      match updateRanges d3.toSamplerSoundWaveform with
      | none => none
      | some w =>
        some { d3 with toSamplerSoundWaveform := w, areaBounds := host.areaBounds w.areas }
    | none => some d2
  | none =>
    some { d1 with
      currentSound := none,
      areaBounds :=
        allAreas.foldl (fun bounds a => Function.update bounds a ⟨0, 0, 0, 0⟩) d1.areaBounds,
      previewReader := none }

/-- The values `getSamplerDisplayValues ()` returns that `timerCallback`
reads. -/
structure SamplerDisplayValues where
  currentSamplePos : ℚ
  currentSampleStartPos : ℚ

/-- What `timerCallback` reads of a voice: whether the sound it plays,
`getCurrentlyPlayingSamplerSound ()`, is the pointer `currentSound.get ()`. -/
structure ModulatorSamplerVoice where
  playsCurrentSound : Bool

/-- What `timerCallback` reads of the `ModulatorSampler`. -/
structure ModulatorSampler where
  /-- The value `getMainController ()->getPreviewBufferPosition ()`. -/
  previewBufferPosition : ℤ
  /-- The voice `getLastStartedVoice ()`; `none` is the null pointer. -/
  lastStartedVoice : Option ModulatorSamplerVoice
  /-- The values `getSamplerDisplayValues ()`. -/
  samplerDisplayValues : SamplerDisplayValues

/-- Modelled from the spec: `AudioDisplayComponent::setPlaybackPosition` is not
under `src/`.  It stores the new playback position. -/
def setPlaybackPosition (d : WaveformState) (normalizedPlaybackPosition : ℚ) :
    WaveformState :=
  { d with playBackPosition := normalizedPlaybackPosition }

/-- The function `SamplerSoundWaveform::timerCallback`; `none` when a null
`currentSound` is dereferenced. -/
def timerCallback (d : WaveformState) (sampler : ModulatorSampler) : Option WaveformState :=
  let previewActive : Bool := decide (sampler.previewBufferPosition > 0)
  let d1 : WaveformState :=
    if d.lastActive ≠ previewActive then { d with lastActive := previewActive } else d
  if sampler.lastStartedVoice.isSome || previewActive then
    let displayed : Bool :=
      previewActive ||
        (match sampler.lastStartedVoice with
          | some voice => voice.playsCurrentSound
          | none => false)
    if displayed then
      match d1.currentSound with
      | none => none
      | some sound =>
        let dv := sampler.samplerDisplayValues
        let reversed := sound.isReversed
        let d2 : WaveformState :=
          { d1 with sampleStartPosition :=
              if reversed then toDouble (1 - dv.currentSampleStartPos)
              else dv.currentSampleStartPos }
        some (setPlaybackPosition d2 dv.currentSamplePos)
    else
      some (setPlaybackPosition d1 0)
  else
    some d1

/-- What a call of `SamplerSoundWaveform::mouseUp` does to the previewer. -/
inductive MouseUpEffect where
  /-- It returns without a call on the previewer. -/
  | nothing
  /-- The call `togglePreview ()`. -/
  | togglePreview
  deriving DecidableEq, Repr

/-- The function `SamplerSoundWaveform::mouseUp`, in a build with
`USE_BACKEND`. -/
def mouseUp (w : SamplerSoundWaveform) (e : MouseEvent) : MouseUpEffect :=
  if w.onInterface then MouseUpEffect.nothing
  else if e.isAnyModifierKeyDown then MouseUpEffect.togglePreview
  else MouseUpEffect.nothing

/-- The sample position `value` that `mouseMove` computes for the hover line of
the property `propId`, from the pixel column `xPos` of the event relative to
the waveform. -/
def hoverValue (w : SamplerSoundWaveform) (sound : ModulatorSamplerSound)
    (propId : SampleId) (xPos : ℤ) : ℤ :=
  let value := clickedSample w xPos
  let pr := sound.getPropertyRange propId
  let pr :=
    if propId = SampleId.SampleStartMod then
      pr.addAssign (sound.getSampleProperty SampleId.SampleStart)
    else pr
  let pr :=
    if propId = SampleId.LoopStart then
      pr.getUnionWith (sound.getPropertyRange SampleId.LoopEnd)
    else pr
  let pr :=
    if propId = SampleId.SampleStart then
      pr.getUnionWith (sound.getPropertyRange SampleId.SampleEnd)
    else pr
  let value := pr.clipValue value
  if w.zeroCrossing then w.getNextZero value else value

/-- The function `SamplerSoundWaveform::mouseMove`; `xRelative` is the value
`e.getEventRelativeTo (this).getPosition ().getX ()`.  The call of
`AudioDisplayComponent::mouseMove` and the repaints change no member tracked
here. -/
def mouseMove (d : WaveformState) (e : MouseEvent) (xRelative : ℤ) : WaveformState :=
  if d.onInterface then d
  else
    match d.currentSound with
    | none => d
    | some sound =>
      let n := toDouble ((e.x : ℚ) / (d.width : ℚ))
      let timeString := getText d.timeProperties (toFloat n)
      let d1 : WaveformState := { d with previewHover := e.isAnyModifierKeyDown }
      if d1.previewHover then
        { d1 with tooltip := "Click to preview from " ++ timeString,
                  mouseCursor := MouseCursor.PreviewIcon,
                  xPos := e.x }
      else
        let a := getAreaForModifiers d1.toSamplerSoundWaveform e
        match getSampleIdToChange d1.toSamplerSoundWaveform a e with
        | some propId =>
          let tt := "Set " ++ propId.name ++ " to " ++ timeString
          let value := hoverValue d1.toSamplerSoundWaveform sound propId xRelative
          let n := toDouble ((value : ℚ) / d1.timeProperties.sampleLength)
          { d1 with xPos := toInt32 (roundToInt (toDouble (n * (d1.width : ℚ)))),
                    tooltip := tt,
                    mouseCursor := MouseCursor.CrosshairCursor }
        | none =>
          { d1 with xPos := -1,
                    tooltip := timeString,
                    mouseCursor := MouseCursor.NormalCursor }

/-- A host whose sounds are all loaded, 1000 samples long at 44100 Hz. -/
def exampleHost : Host where
  isMissing := fun _ => false
  isPurged := fun _ => false
  createAudioReader := fun _ _ => some 1000
  getLengthInSamples := fun _ => 1000
  getSampleRate := fun _ => 44100
  areaBounds := fun _ _ => ⟨0, 0, 100, 50⟩

/-- An example state of the widget around the waveform `w`. -/
def exampleState (w : SamplerSoundWaveform) : WaveformState where
  toSamplerSoundWaveform := w
  inWorkspace := false
  playBackPosition := 1 / 4
  sampleStartPosition := -1
  lastActive := false
  numSamplesInCurrentSample := 1000
  areaBounds := fun _ => ⟨0, 0, 100, 50⟩
  leftEdgeVisible := fun _ => true
  rightEdgeVisible := fun _ => true
  previewReader := some 1000
  xPos := -1
  previewHover := false
  tooltip := ""
  mouseCursor := MouseCursor.NormalCursor

/-- The waveform of a widget right after its construction: nothing displayed,
not on an interface, the sample start area under the mouse. -/
def emptyWaveform : SamplerSoundWaveform where
  onInterface := false
  zeroCrossing := false
  currentClickArea := AreaTypes.SampleStartArea
  currentSound := none
  areas := fun _ => emptyArea
  timeProperties := ⟨0, 0, TimeDomain.Samples⟩
  width := 100
  totalSampleAmount := 0
  getNextZero := fun position => position

/-- A sampler with no voice started while the main controller plays a
preview. -/
def previewingSampler : ModulatorSampler :=
  ⟨100, none, ⟨1 / 2, 1 / 4⟩⟩

/-- The example waveform shown on an interface, the play area under the
mouse. -/
def interfaceWaveform : SamplerSoundWaveform where
  onInterface := true
  zeroCrossing := false
  currentClickArea := AreaTypes.PlayArea
  currentSound := some (exampleSound false)
  areas := fun _ => emptyArea
  timeProperties := ⟨44100, 1000, TimeDomain.Samples⟩
  width := 100
  totalSampleAmount := 1000
  getNextZero := fun position => position


/-! ## Facts about the library helpers -/

theorem roundToInt_intCast (n : ℤ) : roundToInt (n : ℚ) = n := by
  simp [roundToInt]

theorem roundToInt_nearest (v : ℚ) : |v - roundToInt v| ≤ 1 / 2 := by
  have h0 : (0 : ℚ) ≤ v - (⌊v⌋ : ℤ) := by linarith [Int.floor_le v]
  have h1 : v - (⌊v⌋ : ℤ) < 1 := by linarith [Int.lt_floor_add_one v]
  unfold roundToInt
  split_ifs with h2 h3 h4
  · rw [abs_le]; constructor <;> linarith
  · rw [abs_le]; push_cast; constructor <;> linarith
  · rw [abs_le]; constructor <;> linarith
  · rw [abs_le]; push_cast; constructor <;> linarith

theorem roundToInt_nonneg {v : ℚ} (h : 0 ≤ v) : 0 ≤ roundToInt v := by
  have hf : 0 ≤ ⌊v⌋ := Int.floor_nonneg.mpr h
  unfold roundToInt
  split_ifs <;> omega

/-! ## Facts about the rounding of integers and floating point numbers -/

theorem roundToInt_le_of_le_int {v : ℚ} {n : ℤ} (h : v ≤ n) : roundToInt v ≤ n := by
  have hf : ⌊v⌋ ≤ n := Int.floor_le_floor h |>.trans (by simp)
  by_cases hv : v = (⌊v⌋ : ℤ)
  · rw [hv, roundToInt_intCast]; exact hf
  · have hlt : (⌊v⌋ : ℚ) < v := lt_of_le_of_ne (Int.floor_le v) (Ne.symm hv)
    have h2 : ((⌊v⌋ : ℤ) : ℚ) < (n : ℚ) := lt_of_lt_of_le hlt h
    have h3 : ⌊v⌋ < n := by exact_mod_cast h2
    unfold roundToInt
    split_ifs <;> omega

theorem le_roundToInt_of_int_le {v : ℚ} {n : ℤ} (h : (n : ℚ) ≤ v) : n ≤ roundToInt v := by
  have hf : n ≤ ⌊v⌋ := Int.le_floor.mpr h
  unfold roundToInt
  split_ifs <;> omega

theorem roundToInt_neg (v : ℚ) : roundToInt (-v) = -roundToInt v := by
  by_cases hv : v = (⌊v⌋ : ℤ)
  · rw [hv, ← Int.cast_neg, roundToInt_intCast, roundToInt_intCast]
  · have hlt : (⌊v⌋ : ℚ) < v := lt_of_le_of_ne (Int.floor_le v) (Ne.symm hv)
    have hlt2 : v < (⌊v⌋ : ℚ) + 1 := Int.lt_floor_add_one v
    have hfl : ⌊-v⌋ = -⌊v⌋ - 1 := by
      rw [Int.floor_eq_iff]
      push_cast
      constructor <;> linarith
    unfold roundToInt
    rw [hfl]
    push_cast
    split_ifs <;> first | omega | (exfalso; linarith)


theorem two_zpow_pos (k : ℤ) : (0 : ℚ) < (2 : ℚ) ^ k := zpow_pos (by norm_num) k

theorem log_two_bounds {q : ℚ} (hq : 0 < q) :
    (2 : ℚ) ^ Int.log 2 q ≤ q ∧ q < (2 : ℚ) ^ (Int.log 2 q + 1) := by
  have h1 := @Int.zpow_log_le_self ℚ _ _ 2 q (by norm_num) hq
  have h2 := @Int.lt_zpow_succ_log_self ℚ _ _ 2 (by norm_num) q
  exact ⟨by exact_mod_cast h1, by exact_mod_cast h2⟩

theorem log_two_eq {q : ℚ} {e : ℤ} (h1 : (2 : ℚ) ^ e ≤ q) (h2 : q < (2 : ℚ) ^ (e + 1)) :
    Int.log 2 q = e := by
  have hq : 0 < q := lt_of_lt_of_le (two_zpow_pos e) h1
  have a : e ≤ Int.log 2 q := by
    have := (@Int.zpow_le_iff_le_log ℚ _ _ 2 (by norm_num) e q hq).mp (by exact_mod_cast h1)
    exact this
  have b : Int.log 2 q < e + 1 := by
    have := (@Int.lt_zpow_iff_log_lt ℚ _ _ 2 (by norm_num) (e + 1) q hq).mp
      (by exact_mod_cast h2)
    exact this
  omega


theorem roundToFormat_zero (p : ℕ) (emin : ℤ) : roundToFormat p emin 0 = 0 := by
  simp [roundToFormat, roundToInt]

theorem roundToFormat_neg (p : ℕ) (emin : ℤ) (q : ℚ) :
    roundToFormat p emin (-q) = -roundToFormat p emin q := by
  unfold roundToFormat ulpExponent
  rw [abs_neg, neg_div, roundToInt_neg]
  push_cast
  ring

theorem roundToFormat_nonneg (p : ℕ) (emin : ℤ) {q : ℚ} (hq : 0 ≤ q) :
    0 ≤ roundToFormat p emin q := by
  unfold roundToFormat
  have hB := two_zpow_pos (ulpExponent p emin q)
  have h1 : (0 : ℤ) ≤ roundToInt (q / (2 : ℚ) ^ ulpExponent p emin q) :=
    le_roundToInt_of_int_le (by
      have : (0 : ℚ) ≤ q / (2 : ℚ) ^ ulpExponent p emin q := div_nonneg hq (le_of_lt hB)
      simpa using this)
  have h2 : (0 : ℚ) ≤ (roundToInt (q / (2 : ℚ) ^ ulpExponent p emin q) : ℚ) := by
    exact_mod_cast h1
  exact mul_nonneg h2 (le_of_lt hB)

/-- A representable number whose exponent is below the unit in the last place
at a positive `q` lies below the binade of `q`. -/
theorem representable_lt_binade {p : ℕ} {emin : ℤ} {q : ℚ} (hq : 0 < q) {m k : ℤ}
    (hm : |m| < 2 ^ p) (hk : emin ≤ k) (hlt : k < ulpExponent p emin q) :
    ulpExponent p emin q = Int.log 2 q - ((p : ℤ) - 1)
      ∧ (m : ℚ) * (2 : ℚ) ^ k < (2 : ℚ) ^ Int.log 2 q := by
  have hE : ulpExponent p emin q = Int.log 2 q - ((p : ℤ) - 1) := by
    unfold ulpExponent at hlt ⊢
    rw [abs_of_pos hq] at hlt ⊢
    rcases le_total (Int.log 2 q - ((p : ℤ) - 1)) emin with h | h
    · rw [max_eq_right h] at hlt; omega
    · exact max_eq_left h
  refine ⟨hE, ?_⟩
  have hk2 : k + (p : ℤ) ≤ Int.log 2 q := by
    rw [hE] at hlt; omega
  have hm2 : (m : ℚ) < (2 : ℚ) ^ (p : ℤ) := by
    have h1 : m < 2 ^ p := lt_of_le_of_lt (le_abs_self m) hm
    have h2 : (m : ℚ) < ((2 ^ p : ℤ) : ℚ) := by exact_mod_cast h1
    simpa using h2
  calc (m : ℚ) * (2 : ℚ) ^ k < (2 : ℚ) ^ (p : ℤ) * (2 : ℚ) ^ k :=
        mul_lt_mul_of_pos_right hm2 (two_zpow_pos k)
    _ = (2 : ℚ) ^ ((p : ℤ) + k) := by rw [zpow_add₀ (by norm_num)]
    _ ≤ (2 : ℚ) ^ Int.log 2 q := zpow_le_zpow_right₀ (by norm_num) (by omega)

/-- A representable number whose exponent is not below the unit in the last
place is an integer multiple of it. -/
theorem representable_multiple {E k : ℤ} (m : ℤ) (h : E ≤ k) :
    (m : ℚ) * (2 : ℚ) ^ k = ((m * 2 ^ (k - E).toNat : ℤ) : ℚ) * (2 : ℚ) ^ E := by
  have hk : k = ((k - E).toNat : ℤ) + E := by omega
  push_cast
  conv_lhs => rw [hk, zpow_add₀ (by norm_num : (2 : ℚ) ≠ 0), zpow_natCast]
  ring


theorem roundToFormat_le_pos {p : ℕ} {emin : ℤ} {q : ℚ} (hq : 0 < q) {m k : ℤ}
    (hm : |m| < 2 ^ p) (hk : emin ≤ k) (hle : q ≤ (m : ℚ) * (2 : ℚ) ^ k) :
    roundToFormat p emin q ≤ (m : ℚ) * (2 : ℚ) ^ k := by
  have hB := two_zpow_pos (ulpExponent p emin q)
  by_cases hlt : k < ulpExponent p emin q
  · obtain ⟨-, h2⟩ := representable_lt_binade hq hm hk hlt
    have := (log_two_bounds hq).1
    linarith
  · rw [representable_multiple m (not_lt.mp hlt)] at hle ⊢
    unfold roundToFormat
    have h1 : q / (2 : ℚ) ^ ulpExponent p emin q
        ≤ ((m * 2 ^ (k - ulpExponent p emin q).toNat : ℤ) : ℚ) := by
      rw [div_le_iff₀ hB]; exact hle
    have h2 := roundToInt_le_of_le_int h1
    have h3 : (roundToInt (q / (2 : ℚ) ^ ulpExponent p emin q) : ℚ)
        ≤ ((m * 2 ^ (k - ulpExponent p emin q).toNat : ℤ) : ℚ) := by exact_mod_cast h2
    exact mul_le_mul_of_nonneg_right h3 (le_of_lt hB)

theorem le_roundToFormat_pos {p : ℕ} {emin : ℤ} (hp : 1 ≤ p) {q : ℚ} (hq : 0 < q) {m k : ℤ}
    (hm : |m| < 2 ^ p) (hk : emin ≤ k) (hle : (m : ℚ) * (2 : ℚ) ^ k ≤ q) :
    (m : ℚ) * (2 : ℚ) ^ k ≤ roundToFormat p emin q := by
  have hB := two_zpow_pos (ulpExponent p emin q)
  by_cases hlt : k < ulpExponent p emin q
  · obtain ⟨hE, h2⟩ := representable_lt_binade hq hm hk hlt
    have hmul : (2 : ℚ) ^ Int.log 2 q
        = ((2 ^ (p - 1) : ℤ) : ℚ) * (2 : ℚ) ^ ulpExponent p emin q := by
      rw [hE]
      push_cast
      rw [← zpow_natCast, ← zpow_add₀ (by norm_num : (2 : ℚ) ≠ 0)]
      congr 1
      have : ((p - 1 : ℕ) : ℤ) = (p : ℤ) - 1 := by omega
      omega
    have h1 : ((2 ^ (p - 1) : ℤ) : ℚ) ≤ q / (2 : ℚ) ^ ulpExponent p emin q := by
      rw [le_div_iff₀ hB, ← hmul]; exact (log_two_bounds hq).1
    have h3 : ((2 ^ (p - 1) : ℤ) : ℚ)
        ≤ (roundToInt (q / (2 : ℚ) ^ ulpExponent p emin q) : ℚ) := by
      exact_mod_cast le_roundToInt_of_int_le h1
    have h4 : (2 : ℚ) ^ Int.log 2 q ≤ roundToFormat p emin q := by
      rw [hmul]
      exact mul_le_mul_of_nonneg_right h3 (le_of_lt hB)
    linarith
  · rw [representable_multiple m (not_lt.mp hlt)] at hle ⊢
    unfold roundToFormat
    have h1 : ((m * 2 ^ (k - ulpExponent p emin q).toNat : ℤ) : ℚ)
        ≤ q / (2 : ℚ) ^ ulpExponent p emin q := by
      rw [le_div_iff₀ hB]; exact hle
    have h3 : ((m * 2 ^ (k - ulpExponent p emin q).toNat : ℤ) : ℚ)
        ≤ (roundToInt (q / (2 : ℚ) ^ ulpExponent p emin q) : ℚ) := by
      exact_mod_cast le_roundToInt_of_int_le h1
    exact mul_le_mul_of_nonneg_right h3 (le_of_lt hB)

theorem Representable.neg {p : ℕ} {emin : ℤ} {y : ℚ} (h : Representable p emin y) :
    Representable p emin (-y) := by
  obtain ⟨m, k, hm, hk, rfl⟩ := h
  exact ⟨-m, k, by rwa [abs_neg], hk, by push_cast; ring⟩

/-- Rounding does not pass a representable number above. -/
theorem roundToFormat_le {p : ℕ} {emin : ℤ} (hp : 1 ≤ p) {q y : ℚ}
    (hy : Representable p emin y) (hle : q ≤ y) : roundToFormat p emin q ≤ y := by
  rcases lt_trichotomy q 0 with hq | hq | hq
  · have hfl : roundToFormat p emin q ≤ 0 := by
      have := roundToFormat_nonneg p emin (le_of_lt (neg_pos.mpr hq))
      rw [roundToFormat_neg] at this
      linarith
    rcases le_or_lt 0 y with h0 | h0
    · linarith
    · obtain ⟨m, k, hm, hk, hyy⟩ := hy.neg
      have h1 : (m : ℚ) * (2 : ℚ) ^ k ≤ -q := by rw [← hyy]; linarith
      have h2 := le_roundToFormat_pos hp (neg_pos.mpr hq) hm hk h1
      rw [roundToFormat_neg, ← hyy] at h2
      linarith
  · rw [hq, roundToFormat_zero]; rw [hq] at hle; exact hle
  · obtain ⟨m, k, hm, hk, rfl⟩ := hy
    exact roundToFormat_le_pos hq hm hk hle

/-- Rounding does not pass a representable number below. -/
theorem le_roundToFormat {p : ℕ} {emin : ℤ} (hp : 1 ≤ p) {q y : ℚ}
    (hy : Representable p emin y) (hle : y ≤ q) : y ≤ roundToFormat p emin q := by
  have h := roundToFormat_le hp hy.neg (neg_le_neg hle)
  rw [roundToFormat_neg] at h
  linarith

/-- A representable number rounds to itself. -/
theorem roundToFormat_eq_self {p : ℕ} {emin : ℤ} (hp : 1 ≤ p) {y : ℚ}
    (hy : Representable p emin y) : roundToFormat p emin y = y :=
  le_antisymm (roundToFormat_le hp hy le_rfl) (le_roundToFormat hp hy le_rfl)


theorem ulpExponent_of_binade (p : ℕ) (emin : ℤ) {q : ℚ} {e : ℤ} (h1 : (2 : ℚ) ^ e ≤ |q|)
    (h2 : |q| < (2 : ℚ) ^ (e + 1)) :
    ulpExponent p emin q = max (e - ((p : ℤ) - 1)) emin := by
  unfold ulpExponent
  rw [log_two_eq h1 h2]

/-- The value of the rounding in a known binade. -/
theorem roundToFormat_of_binade (p : ℕ) (emin : ℤ) {q : ℚ} (e : ℤ) (h1 : (2 : ℚ) ^ e ≤ |q|)
    (h2 : |q| < (2 : ℚ) ^ (e + 1)) :
    roundToFormat p emin q
      = (roundToInt (q / (2 : ℚ) ^ max (e - ((p : ℤ) - 1)) emin) : ℚ)
        * (2 : ℚ) ^ max (e - ((p : ℤ) - 1)) emin := by
  unfold roundToFormat
  rw [ulpExponent_of_binade p emin h1 h2]

/-- The error of the rounding of a number in the normal range is at most
`2 ^ (-precision)` of it. -/
theorem roundToFormat_error {p : ℕ} {emin : ℤ} {q : ℚ}
    (hnormal : (2 : ℚ) ^ (emin + ((p : ℤ) - 1)) ≤ |q|) :
    |roundToFormat p emin q - q| ≤ |q| / (2 : ℚ) ^ p := by
  have hq : 0 < |q| := lt_of_lt_of_le (two_zpow_pos _) hnormal
  obtain ⟨hb1, -⟩ := log_two_bounds hq
  have hlog : emin + ((p : ℤ) - 1) ≤ Int.log 2 |q| := by
    have := (@Int.zpow_le_iff_le_log ℚ _ _ 2 (by norm_num) (emin + ((p : ℤ) - 1)) |q| hq).mp
      (by exact_mod_cast hnormal)
    exact this
  have hE : ulpExponent p emin q = Int.log 2 |q| - ((p : ℤ) - 1) := by
    unfold ulpExponent
    exact max_eq_left (by omega)
  have hB := two_zpow_pos (ulpExponent p emin q)
  have hnear := roundToInt_nearest (q / (2 : ℚ) ^ ulpExponent p emin q)
  have hdiff : roundToFormat p emin q - q
      = -(q / (2 : ℚ) ^ ulpExponent p emin q
          - (roundToInt (q / (2 : ℚ) ^ ulpExponent p emin q) : ℚ))
        * (2 : ℚ) ^ ulpExponent p emin q := by
    unfold roundToFormat
    field_simp
    ring
  rw [hdiff, abs_mul, abs_neg, abs_of_pos hB]
  have hhalf : (2 : ℚ) ^ ulpExponent p emin q / 2 = (2 : ℚ) ^ Int.log 2 |q| / (2 : ℚ) ^ p := by
    rw [hE, ← zpow_natCast, ← zpow_sub₀ (by norm_num : (2 : ℚ) ≠ 0)]
    have h2 : Int.log 2 |q| - ((p : ℤ) - 1) = (Int.log 2 |q| - (p : ℤ)) + 1 := by omega
    rw [h2, zpow_add_one₀ (by norm_num : (2 : ℚ) ≠ 0)]
    ring
  calc |q / (2 : ℚ) ^ ulpExponent p emin q
          - (roundToInt (q / (2 : ℚ) ^ ulpExponent p emin q) : ℚ)|
        * (2 : ℚ) ^ ulpExponent p emin q
      ≤ 1 / 2 * (2 : ℚ) ^ ulpExponent p emin q :=
        mul_le_mul_of_nonneg_right hnear (le_of_lt hB)
    _ = (2 : ℚ) ^ Int.log 2 |q| / (2 : ℚ) ^ p := by rw [← hhalf]; ring
    _ ≤ |q| / (2 : ℚ) ^ p := by
        apply div_le_div_of_nonneg_right hb1
        positivity

theorem representable_int {p : ℕ} {emin : ℤ} (hemin : emin ≤ 0) (n : ℤ) (h : |n| < 2 ^ p) :
    Representable p emin (n : ℚ) :=
  ⟨n, 0, h, hemin, by simp⟩

theorem toInt32_of_mem {n : ℤ} (h1 : -2147483648 ≤ n) (h2 : n < 2147483648) : toInt32 n = n := by
  unfold toInt32
  omega

theorem toInt32_mem (n : ℤ) : -2147483648 ≤ toInt32 n ∧ toInt32 n < 2147483648 := by
  unfold toInt32
  omega


theorem roundToInt_eq_of_abs_lt {v : ℚ} {n : ℤ} (h : |v - n| < 1 / 2) : roundToInt v = n := by
  rw [abs_lt] at h
  have h1 : roundToInt v ≤ n := by
    by_contra hc
    have h2 : n + 1 ≤ roundToInt v := by omega
    have h3 := roundToInt_nearest v
    rw [abs_le] at h3
    have h4 : ((n + 1 : ℤ) : ℚ) ≤ (roundToInt v : ℚ) := by exact_mod_cast h2
    push_cast at h4
    linarith [h.1, h.2, h3.1, h3.2]
  have h5 : n ≤ roundToInt v := by
    by_contra hc
    have h2 : roundToInt v + 1 ≤ n := by omega
    have h3 := roundToInt_nearest v
    rw [abs_le] at h3
    have h4 : ((roundToInt v + 1 : ℤ) : ℚ) ≤ (n : ℚ) := by exact_mod_cast h2
    push_cast at h4
    linarith [h.1, h.2, h3.1, h3.2]
  omega

theorem roundToFormat_eq (p : ℕ) (emin : ℤ) {q : ℚ} (e E n : ℤ) (h1 : (2 : ℚ) ^ e ≤ |q|)
    (h2 : |q| < (2 : ℚ) ^ (e + 1)) (hE : E = max (e - ((p : ℤ) - 1)) emin)
    (hn : |q / (2 : ℚ) ^ E - n| < 1 / 2) :
    roundToFormat p emin q = (n : ℚ) * (2 : ℚ) ^ E := by
  rw [roundToFormat_of_binade p emin e h1 h2, ← hE, roundToInt_eq_of_abs_lt hn]

theorem roundToFormat_representable_pos {p : ℕ} {emin : ℤ} (hp : 1 ≤ p) {q : ℚ} (hq : 0 < q) :
    Representable p emin (roundToFormat p emin q) := by
  obtain ⟨-, hlog⟩ := log_two_bounds hq
  have hE1 : Int.log 2 q - ((p : ℤ) - 1) ≤ ulpExponent p emin q := by
    unfold ulpExponent
    rw [abs_of_pos hq]
    exact le_max_left _ _
  have hE2 : emin ≤ ulpExponent p emin q := le_max_right _ _
  have hB := two_zpow_pos (ulpExponent p emin q)
  have hv : q / (2 : ℚ) ^ ulpExponent p emin q ≤ (((2 : ℤ) ^ p : ℤ) : ℚ) := by
    rw [div_le_iff₀ hB]
    push_cast
    have e : ((2 : ℚ) ^ p) * (2 : ℚ) ^ ulpExponent p emin q
        = (2 : ℚ) ^ ((p : ℤ) + ulpExponent p emin q) := by
      rw [zpow_add₀ (by norm_num), zpow_natCast]
    rw [e]
    have : (2 : ℚ) ^ (Int.log 2 q + 1) ≤ (2 : ℚ) ^ ((p : ℤ) + ulpExponent p emin q) :=
      zpow_le_zpow_right₀ (by norm_num) (by omega)
    linarith
  have hn1 : roundToInt (q / (2 : ℚ) ^ ulpExponent p emin q) ≤ (2 : ℤ) ^ p :=
    roundToInt_le_of_le_int hv
  have hn0 : 0 ≤ roundToInt (q / (2 : ℚ) ^ ulpExponent p emin q) :=
    roundToInt_nonneg (div_nonneg (le_of_lt hq) (le_of_lt hB))
  rcases lt_or_eq_of_le hn1 with hlt | heq
  · exact ⟨_, ulpExponent p emin q, by rw [abs_of_nonneg hn0]; exact hlt, hE2, rfl⟩
  · refine ⟨(2 : ℤ) ^ (p - 1), ulpExponent p emin q + 1, ?_, by omega, ?_⟩
    · rw [abs_of_nonneg (by positivity)]
      exact pow_lt_pow_right₀ (by norm_num) (by omega)
    · unfold roundToFormat
      rw [heq, zpow_add_one₀ (by norm_num)]
      push_cast
      obtain ⟨m, rfl⟩ : ∃ m, p = m + 1 := ⟨p - 1, by omega⟩
      rw [Nat.add_sub_cancel, pow_succ]
      ring

theorem roundToFormat_representable {p : ℕ} {emin : ℤ} (hp : 1 ≤ p) (q : ℚ) :
    Representable p emin (roundToFormat p emin q) := by
  rcases lt_trichotomy q 0 with hq | hq | hq
  · have h := (@roundToFormat_representable_pos p emin hp (-q) (neg_pos.mpr hq)).neg
    rw [roundToFormat_neg, neg_neg] at h
    exact h
  · rw [hq, roundToFormat_zero]
    exact ⟨0, emin, by positivity, le_rfl, by simp⟩
  · exact roundToFormat_representable_pos hp hq

theorem toFloat_intCast (n : ℤ) (h : |n| < 2 ^ 24) : toFloat (n : ℚ) = n :=
  roundToFormat_eq_self (by norm_num) (representable_int (by norm_num) n h)

theorem toFloat_nonneg {q : ℚ} (h : 0 ≤ q) : 0 ≤ toFloat q :=
  roundToFormat_nonneg 24 (-149) h

/-- A `float` below the conversion of an integer to `float` is below the
integer. -/
theorem lt_intCast_of_lt_toFloat {t : ℚ} (ht : Representable 24 (-149) t) {n : ℤ}
    (h : t < toFloat (n : ℚ)) : t < (n : ℚ) := by
  by_contra hcon
  have := roundToFormat_le (by norm_num : 1 ≤ 24) ht (not_lt.mp hcon)
  exact absurd h (not_lt.mpr this)

/-- Rounding to `float` in the normal range adds at most the fraction `2 ^ -24`. -/
theorem toFloat_le_mul {q : ℚ} (h : (2 : ℚ) ^ (-126 : ℤ) ≤ q) :
    toFloat q ≤ q * (1 + 1 / 2 ^ 24) := by
  have hq : 0 < q := lt_of_lt_of_le (two_zpow_pos _) h
  have he := @roundToFormat_error 24 (-149) q (by rw [abs_of_pos hq]; exact_mod_cast h)
  rw [abs_of_pos hq] at he
  have := (abs_le.mp he).2
  unfold toFloat
  have e : q * (1 + 1 / 2 ^ 24) = q + q / 2 ^ 24 := by ring
  rw [e]
  linarith

theorem representable_two_zpow (k : ℤ) (hk : -149 ≤ k) : Representable 24 (-149) ((2 : ℚ) ^ k) :=
  ⟨1, k, by norm_num, hk, by simp⟩

/-! ## Facts about the decimal representation -/

theorem natRepr_data_lt_ten {n : ℕ} (h : n < 10) : (Nat.repr n).data = [Nat.digitChar n] := by
  have h1 : n / 10 = 0 := by omega
  have h2 : n % 10 = n := by omega
  simp [Nat.repr, Nat.toDigits, Nat.toDigitsCore, h1, h2, List.asString]

theorem natRepr_data_lt_hundred {n : ℕ} (h1 : 10 ≤ n) (h : n < 100) :
    (Nat.repr n).data = [Nat.digitChar (n / 10), Nat.digitChar (n % 10)] := by
  obtain ⟨m, rfl⟩ : ∃ m, n = m + 1 := ⟨n - 1, by omega⟩
  have h2 : (m + 1) / 10 ≠ 0 := by omega
  have h3 : (m + 1) / 10 / 10 = 0 := by omega
  have h4 : (m + 1) / 10 % 10 = (m + 1) / 10 := by omega
  simp [Nat.repr, Nat.toDigits, Nat.toDigitsCore, h2, h3, h4, List.asString]

theorem natRepr_data_lt_thousand {n : ℕ} (h1 : 100 ≤ n) (h : n < 1000) :
    (Nat.repr n).data = [Nat.digitChar (n / 100), Nat.digitChar (n / 10 % 10), Nat.digitChar (n % 10)] := by
  obtain ⟨m, rfl⟩ : ∃ m, n = m + 2 := ⟨n - 2, by omega⟩
  have h2 : (m + 2) / 10 ≠ 0 := by omega
  have h3 : (m + 2) / 10 / 10 ≠ 0 := by omega
  have h4 : (m + 2) / 10 / 10 / 10 = 0 := by omega
  have h5 : (m + 2) / 10 / 10 % 10 = (m + 2) / 100 := by omega
  simp [Nat.repr, Nat.toDigits, Nat.toDigitsCore, h2, h3, h4, h5, List.asString]

theorem toDigitsCore_length_ge (b f : ℕ) :
    ∀ (n : ℕ) (ds : List Char), ds.length ≤ (Nat.toDigitsCore b f n ds).length := by
  induction f with
  | zero => intro n ds; simp [Nat.toDigitsCore]
  | succ f ih =>
    intro n ds
    simp only [Nat.toDigitsCore]
    split_ifs
    · simp
    · exact le_trans (by simp) (ih _ _)

theorem natRepr_ne_empty (n : ℕ) : Nat.repr n ≠ "" := by
  intro h
  have h1 : (Nat.toDigitsCore 10 (n + 1) n []).length = 0 := by
    have := congrArg String.length h
    simpa [Nat.repr, Nat.toDigits, List.asString] using this
  have h2 : 1 ≤ (Nat.toDigitsCore 10 (n + 1) n []).length := by
    simp only [Nat.toDigitsCore]
    split_ifs
    · simp
    · exact le_trans (by simp) (toDigitsCore_length_ge _ _ _ _)
  omega

theorem intToString_ne_empty (n : ℤ) : intToString n ≠ "" := by
  cases n with
  | ofNat m => exact natRepr_ne_empty m
  | negSucc m =>
    intro h
    have := congrArg String.length h
    revert this
    show ("-" ++ Nat.repr (m + 1)).length = 0 → False
    rw [String.length_append]
    have : ("-" : String).length = 1 := rfl
    omega

theorem intToString_natCast (n : ℕ) : intToString (n : ℤ) = Nat.repr n := rfl

theorem padMilliseconds_natRepr {n : ℕ} (h : n < 1000) :
    padMilliseconds (Nat.repr n)
      = String.mk [Nat.digitChar (n / 100), Nat.digitChar (n / 10 % 10), Nat.digitChar (n % 10)] := by
  have hlen : ∀ s : String, s.length = s.data.length := fun s => rfl
  by_cases h10 : n < 10
  · have hd := natRepr_data_lt_ten h10
    have e1 : n / 100 = 0 := by omega
    have e2 : n / 10 % 10 = 0 := by omega
    have e3 : n % 10 = n := by omega
    rw [padMilliseconds, if_pos (by rw [hlen, hd]; simp)]
    rw [padMilliseconds, if_pos (by rw [hlen, String.data_append, hd]; simp)]
    rw [padMilliseconds, if_neg (by rw [hlen, String.data_append, String.data_append, hd]; simp)]
    apply String.ext
    rw [String.data_append, String.data_append, hd, e1, e2, e3]
    rfl
  · by_cases h100 : n < 100
    · have hd := natRepr_data_lt_hundred (by omega) h100
      have e1 : n / 100 = 0 := by omega
      have e2 : n / 10 % 10 = n / 10 := by omega
      rw [padMilliseconds, if_pos (by rw [hlen, hd]; simp)]
      rw [padMilliseconds, if_neg (by rw [hlen, String.data_append, hd]; simp)]
      apply String.ext
      rw [String.data_append, hd, e1, e2]
      rfl
    · have hd := natRepr_data_lt_thousand (by omega) h
      rw [padMilliseconds, if_neg (by rw [hlen, hd]; simp)]
      apply String.ext
      rw [hd]


theorem intToString_tmod_thousand {m : ℤ} (h : 0 ≤ m) :
    ∃ n : ℕ, (n : ℤ) = m % 1000 ∧ n < 1000 ∧ Int.tmod m 1000 = (n : ℤ) := by
  refine ⟨(m % 1000).toNat, ?_, ?_, ?_⟩
  · omega
  · omega
  · rw [Int.tmod_eq_emod h (by norm_num)]; omega

/-! ## The timeline text -/

theorem toDouble_intCast (n : ℤ) (h : |n| < 2 ^ 53) : toDouble (n : ℚ) = n :=
  roundToFormat_eq_self (by norm_num) (representable_int (by norm_num) n h)

theorem toDouble_nonneg {q : ℚ} (h : 0 ≤ q) : 0 ≤ toDouble q :=
  roundToFormat_nonneg 53 (-1074) h

theorem getText_samples_eq (p : Properties) (normalisedX : ℚ) (hRate : 0 < p.sampleRate)
    (hDomain : p.currentDomain = TimeDomain.Samples) :
    getText p normalisedX = intToString (sampleValue p normalisedX) := by
  unfold getText
  rw [if_pos hRate, if_pos hDomain, roundToInt_intCast]

/-- C1, as stated, fails.  With a length of 3000000000 samples the rounded
position does not fit the `int` that `roundToInt` returns, and the text is
`-1294967296`.  With a length of 1098907649 samples at the position
`16777215 / 16777216` the product computed in `double` is the tie
1098907583.5, which rounds to 1098907584, while the exact product rounds to
1098907583. -/
theorem getText_samples_counterexample :
    getText ⟨44100, 3000000000, TimeDomain.Samples⟩ 1 = "-1294967296"
      ∧ intToString (roundToInt ((1 : ℚ) * 3000000000)) = "3000000000"
      ∧ getText ⟨44100, 1098907649, TimeDomain.Samples⟩ (16777215 / 16777216) = "1098907584"
      ∧ intToString (roundToInt ((16777215 / 16777216 : ℚ) * 1098907649)) = "1098907583" := by
  refine ⟨?_, ?_, ?_, ?_⟩
  · rw [getText_samples_eq _ _ (by norm_num) rfl]
    have e1 : (1 : ℚ) * 3000000000 = ((3000000000 : ℤ) : ℚ) := by norm_num
    have e2 : sampleValue ⟨44100, 3000000000, TimeDomain.Samples⟩ 1 = -1294967296 := by
      simp only [sampleValue]
      rw [e1, toDouble_intCast _ (by norm_num), roundToInt_intCast]
      decide
    rw [e2]
    decide
  · have e1 : (1 : ℚ) * 3000000000 = ((3000000000 : ℤ) : ℚ) := by norm_num
    rw [e1, roundToInt_intCast]
    decide
  · rw [getText_samples_eq _ _ (by norm_num) rfl]
    have hd : toDouble (18436609892417535 / 16777216 : ℚ) = 2197815167 / 2 := by
      rw [toDouble, roundToFormat_eq 53 (-1074) (30) (-22) (4609152473104384)
        (by rw [le_abs]; left; norm_num) (by rw [abs_lt]; constructor <;> norm_num)
        (by norm_num) (by rw [abs_lt]; constructor <;> norm_num)]
      norm_num
    have e1 : (16777215 / 16777216 : ℚ) * 1098907649 = 18436609892417535 / 16777216 := by
      norm_num
    have e2 : roundToInt (2197815167 / 2 : ℚ) = 1098907584 := by
      have hf : ⌊(2197815167 / 2 : ℚ)⌋ = 1098907583 := by
        rw [Int.floor_eq_iff]; constructor <;> norm_num
      rw [roundToInt, hf, if_neg (by norm_num), if_neg (by norm_num), if_neg (by decide)]
      norm_num
    have e3 : sampleValue ⟨44100, 1098907649, TimeDomain.Samples⟩ (16777215 / 16777216)
        = 1098907584 := by
      simp only [sampleValue]
      rw [e1, hd, e2]
      decide
    rw [e3]
    decide
  · have e1 : roundToInt ((16777215 / 16777216 : ℚ) * 1098907649) = 1098907583 :=
      roundToInt_eq_of_abs_lt (by rw [abs_lt]; constructor <;> norm_num)
    rw [e1]
    decide

/-- C1, amended: in the Samples domain, with a positive sample rate, when the
product `normalisedX * sampleLength` computed in `double` rounds to an integer
that fits an `int`, the text is the decimal representation of that integer,
the one nearest to the `double` product (no suffix); and the text is the same
for every positive sample rate. -/
theorem getText_samples (p : Properties) (normalisedX : ℚ)
    (hRate : 0 < p.sampleRate) (hDomain : p.currentDomain = TimeDomain.Samples)
    (hLower : -2147483648 ≤ roundToInt (toDouble (normalisedX * p.sampleLength)))
    (hUpper : roundToInt (toDouble (normalisedX * p.sampleLength)) < 2147483648) :
    getText p normalisedX
        = intToString (roundToInt (toDouble (normalisedX * p.sampleLength)))
      ∧ |toDouble (normalisedX * p.sampleLength)
          - roundToInt (toDouble (normalisedX * p.sampleLength))| ≤ 1 / 2
      ∧ ∀ rate : ℚ, 0 < rate →
          getText ⟨rate, p.sampleLength, p.currentDomain⟩ normalisedX = getText p normalisedX := by
  refine ⟨?_, roundToInt_nearest _, ?_⟩
  · rw [getText_samples_eq p normalisedX hRate hDomain, sampleValue,
      toInt32_of_mem hLower hUpper]
  · intro rate hrate
    rw [getText_samples_eq p normalisedX hRate hDomain,
      getText_samples_eq ⟨rate, p.sampleLength, p.currentDomain⟩ normalisedX hrate hDomain]
    rfl

/-- At 44100 Hz and 88200 samples, the middle of the timeline reads `44100`. -/
theorem getText_samples_witness :
    (0 : ℚ) < 44100 ∧ getText ⟨44100, 88200, TimeDomain.Samples⟩ (1 / 2) = "44100" := by
  have e0 : (1 / 2 : ℚ) * 88200 = ((44100 : ℤ) : ℚ) := by norm_num
  have e : roundToInt (toDouble ((1 / 2 : ℚ) * 88200)) = 44100 := by
    rw [e0, toDouble_intCast _ (by norm_num), roundToInt_intCast]
  refine ⟨by norm_num, ?_⟩
  have h := (getText_samples ⟨44100, 88200, TimeDomain.Samples⟩ (1 / 2) (by norm_num) rfl
    (by rw [e]; norm_num) (by rw [e]; norm_num)).1
  rw [h, e]
  rfl

theorem sampleValue_eq (p : Properties) (normalisedX : ℚ)
    (hLower : -2147483648 ≤ roundToInt (toDouble (normalisedX * p.sampleLength)))
    (hUpper : roundToInt (toDouble (normalisedX * p.sampleLength)) < 2147483648) :
    sampleValue p normalisedX = roundToInt (toDouble (normalisedX * p.sampleLength)) := by
  rw [sampleValue, toInt32_of_mem hLower hUpper]

theorem sampleValue_of_int (p : Properties) (normalisedX : ℚ) (n : ℤ)
    (h : normalisedX * p.sampleLength = (n : ℚ)) (h1 : -2147483648 ≤ n) (h2 : n < 2147483648) :
    sampleValue p normalisedX = n := by
  have h3 : |n| < 2 ^ 53 := by rw [abs_lt]; constructor <;> omega
  rw [sampleValue, h, toDouble_intCast n h3, roundToInt_intCast, toInt32_of_mem h1 h2]

theorem getText_milliseconds_eq (p : Properties) (normalisedX : ℚ) (hRate : 0 < p.sampleRate)
    (hDomain : p.currentDomain = TimeDomain.Milliseconds) :
    getText p normalisedX
      = intToString (toInt32 (roundToInt (msValue p normalisedX))) ++ " ms" := by
  have hne : p.currentDomain ≠ TimeDomain.Samples := by rw [hDomain]; decide
  unfold getText
  rw [if_pos hRate, if_neg hne, if_pos hDomain]

theorem getText_seconds_eq (p : Properties) (normalisedX : ℚ) (hRate : 0 < p.sampleRate)
    (hDomain : p.currentDomain = TimeDomain.Seconds) :
    getText p normalisedX
      = formattedMinutesSeconds (truncToInt (msValue p normalisedX))
        ++ padMilliseconds
            (intToString (Int.tmod (toInt32 (roundToInt (msValue p normalisedX))) 1000)) := by
  have hne1 : p.currentDomain ≠ TimeDomain.Samples := by rw [hDomain]; decide
  have hne2 : p.currentDomain ≠ TimeDomain.Milliseconds := by rw [hDomain]; decide
  unfold getText
  rw [if_pos hRate, if_neg hne1, if_neg hne2]

theorem msValue_at_48000 :
    msValue ⟨48000, 24072, TimeDomain.Milliseconds⟩ 1 = 8822481301274623 / 17592186044416 := by
  have ha : toDouble (1003 / 2000 : ℚ) = 4517110426252607 / 9007199254740992 := by
    rw [toDouble, roundToFormat_eq 53 (-1074) (-1) (-53) (4517110426252607)
      (by rw [le_abs]; left; norm_num) (by rw [abs_lt]; constructor <;> norm_num)
      (by norm_num) (by rw [abs_lt]; constructor <;> norm_num)]
    norm_num
  have hb : toDouble (564638803281575875 / 1125899906842624 : ℚ) = 8822481301274623 / 17592186044416 := by
    rw [toDouble, roundToFormat_eq 53 (-1074) (8) (-44) (8822481301274623)
      (by rw [le_abs]; left; norm_num) (by rw [abs_lt]; constructor <;> norm_num)
      (by norm_num) (by rw [abs_lt]; constructor <;> norm_num)]
    norm_num
  have hs := sampleValue_of_int ⟨48000, 24072, TimeDomain.Milliseconds⟩ 1 24072
    (by norm_num) (by norm_num) (by norm_num)
  have e1 : ((24072 : ℤ) : ℚ) / max 1 (48000 : ℚ) = 1003 / 2000 := by
    rw [max_eq_right (by norm_num)]; norm_num
  have e2 : (4517110426252607 / 9007199254740992 : ℚ) * 1000 = 564638803281575875 / 1125899906842624 := by norm_num
  rw [msValue, hs, e1, ha, e2, hb]

theorem msValue_wrapping (domain : TimeDomain) :
    msValue ⟨1, 3000000, domain⟩ 1 = 3000000000 := by
  have hs := sampleValue_of_int ⟨1, 3000000, domain⟩ 1 3000000
    (by norm_num) (by norm_num) (by norm_num)
  have e1 : ((3000000 : ℤ) : ℚ) / max 1 (1 : ℚ) = ((3000000 : ℤ) : ℚ) := by
    rw [max_eq_right (by norm_num)]; norm_num
  have e2 : ((3000000 : ℤ) : ℚ) * 1000 = ((3000000000 : ℤ) : ℚ) := by norm_num
  rw [msValue, hs, e1, toDouble_intCast _ (by norm_num), e2, toDouble_intCast _ (by norm_num)]
  norm_num

theorem msValue_after_wrap (domain : TimeDomain) :
    msValue ⟨44100, 3000000000, domain⟩ 1 = -7882429401515805 / 268435456 := by
  have hc : toDouble (-6606976 / 225 : ℚ) = -1008950963394023 / 34359738368 := by
    rw [toDouble, roundToFormat_eq 53 (-1074) (14) (-38) (-8071607707152184)
      (by rw [le_abs]; right; norm_num) (by rw [abs_lt]; constructor <;> norm_num)
      (by norm_num) (by rw [abs_lt]; constructor <;> norm_num)]
    norm_num
  have hd : toDouble (-126118870424252875 / 4294967296 : ℚ) = -7882429401515805 / 268435456 := by
    rw [toDouble, roundToFormat_eq 53 (-1074) (24) (-28) (-7882429401515805)
      (by rw [le_abs]; right; norm_num) (by rw [abs_lt]; constructor <;> norm_num)
      (by norm_num) (by rw [abs_lt]; constructor <;> norm_num)]
    norm_num
  have e0 : (1 : ℚ) * 3000000000 = ((3000000000 : ℤ) : ℚ) := by norm_num
  have hs : sampleValue ⟨44100, 3000000000, domain⟩ 1 = -1294967296 := by
    simp only [sampleValue]
    rw [e0, toDouble_intCast _ (by norm_num), roundToInt_intCast]
    decide
  have e1 : ((-1294967296 : ℤ) : ℚ) / max 1 (44100 : ℚ) = -6606976 / 225 := by
    rw [max_eq_right (by norm_num)]; norm_num
  have e2 : (-1008950963394023 / 34359738368 : ℚ) * 1000 = -126118870424252875 / 4294967296 := by norm_num
  rw [msValue, hs, e1, hc, e2, hd]

/-- C2, as stated, fails.  At 48000 Hz the sample position 24072 is 501.5 ms;
computed in `double` as `24072 / 48000 * 1000` it is 501.49999999999994, and
the text is `501 ms` where `round (s * 1000 / sampleRate)` is 502.  At 1 Hz
the sample position 3000000 is 3000000000 ms, which does not fit the `int`
that `roundToInt` returns: the text is `-1294967296 ms`.  With a length of
3000000000 samples at 44100 Hz the sample position itself does not fit an
`int`: the text is `-29364338 ms`. -/
theorem getText_milliseconds_counterexample :
    getText ⟨48000, 24072, TimeDomain.Milliseconds⟩ 1 = "501 ms"
      ∧ intToString (roundToInt ((roundToInt ((1 : ℚ) * 24072) : ℚ) * 1000 / 48000)) ++ " ms"
          = "502 ms"
      ∧ getText ⟨1, 3000000, TimeDomain.Milliseconds⟩ 1 = "-1294967296 ms"
      ∧ intToString (roundToInt ((roundToInt ((1 : ℚ) * 3000000) : ℚ) * 1000 / 1)) ++ " ms"
          = "3000000000 ms"
      ∧ getText ⟨44100, 3000000000, TimeDomain.Milliseconds⟩ 1 = "-29364338 ms"
      ∧ intToString (roundToInt
            ((roundToInt ((1 : ℚ) * 3000000000) : ℚ) * 1000 / 44100)) ++ " ms"
          = "68027211 ms" := by
  refine ⟨?_, ?_, ?_, ?_, ?_, ?_⟩
  · rw [getText_milliseconds_eq _ _ (by norm_num) rfl, msValue_at_48000]
    have e : roundToInt (8822481301274623 / 17592186044416 : ℚ) = 501 :=
      roundToInt_eq_of_abs_lt (by rw [abs_lt]; constructor <;> norm_num)
    rw [e]
    decide
  · have e1 : (1 : ℚ) * 24072 = ((24072 : ℤ) : ℚ) := by norm_num
    have e2 : ((24072 : ℤ) : ℚ) * 1000 / 48000 = 1003 / 2 := by norm_num
    have hf : ⌊(1003 / 2 : ℚ)⌋ = 501 := by
      rw [Int.floor_eq_iff]; constructor <;> norm_num
    have e3 : roundToInt (1003 / 2 : ℚ) = 502 := by
      rw [roundToInt, hf, if_neg (by norm_num), if_neg (by norm_num), if_neg (by decide)]
      norm_num
    rw [e1, roundToInt_intCast, e2, e3]
    decide
  · rw [getText_milliseconds_eq _ _ (by norm_num) rfl, msValue_wrapping]
    have e : roundToInt (3000000000 : ℚ) = 3000000000 := by
      have := roundToInt_intCast 3000000000
      simpa using this
    rw [e]
    decide
  · have e1 : (1 : ℚ) * 3000000 = ((3000000 : ℤ) : ℚ) := by norm_num
    have e2 : ((3000000 : ℤ) : ℚ) * 1000 / 1 = ((3000000000 : ℤ) : ℚ) := by norm_num
    rw [e1, roundToInt_intCast, e2, roundToInt_intCast]
    decide
  · rw [getText_milliseconds_eq _ _ (by norm_num) rfl, msValue_after_wrap]
    have e : roundToInt (-7882429401515805 / 268435456 : ℚ) = -29364338 :=
      roundToInt_eq_of_abs_lt (by rw [abs_lt]; constructor <;> norm_num)
    rw [e]
    decide
  · have e1 : (1 : ℚ) * 3000000000 = ((3000000000 : ℤ) : ℚ) := by norm_num
    have e2 : roundToInt (((3000000000 : ℤ) : ℚ) * 1000 / 44100) = 68027211 :=
      roundToInt_eq_of_abs_lt (by rw [abs_lt]; constructor <;> norm_num)
    rw [e1, roundToInt_intCast, e2]
    decide

/-- C2, amended: in the Milliseconds domain, with a sample rate of at least 1,
when the sample position `s = round (normalisedX * sampleLength)` and the
rounded millisecond value both fit an `int`, the text is the decimal
representation of `round (s / sampleRate * 1000)`, the quotient and the
product computed in `double` in this order, followed by `" ms"`. -/
theorem getText_milliseconds (p : Properties) (normalisedX : ℚ)
    (hRate : 1 ≤ p.sampleRate) (hDomain : p.currentDomain = TimeDomain.Milliseconds)
    (hLower : -2147483648 ≤ roundToInt (toDouble (normalisedX * p.sampleLength)))
    (hUpper : roundToInt (toDouble (normalisedX * p.sampleLength)) < 2147483648)
    (hMsLower : -2147483648 ≤ roundToInt (msValue p normalisedX))
    (hMsUpper : roundToInt (msValue p normalisedX) < 2147483648) :
    getText p normalisedX
      = intToString (roundToInt
          (toDouble (toDouble
            ((roundToInt (toDouble (normalisedX * p.sampleLength)) : ℚ) / p.sampleRate)
            * 1000))) ++ " ms" := by
  have hpos : 0 < p.sampleRate := lt_of_lt_of_le one_pos hRate
  rw [getText_milliseconds_eq p normalisedX hpos hDomain, toInt32_of_mem hMsLower hMsUpper,
    msValue, sampleValue_eq p normalisedX hLower hUpper, max_eq_right hRate]

/-- At 44100 Hz and 88200 samples, a third of the timeline reads `667 ms`. -/
theorem getText_milliseconds_witness :
    (1 : ℚ) ≤ 44100 ∧ getText ⟨44100, 88200, TimeDomain.Milliseconds⟩ (1 / 3) = "667 ms" := by
  have hw1 : toDouble (2 / 3 : ℚ) = 6004799503160661 / 9007199254740992 := by
    rw [toDouble, roundToFormat_eq 53 (-1074) (-1) (-53) (6004799503160661)
      (by rw [le_abs]; left; norm_num) (by rw [abs_lt]; constructor <;> norm_num)
      (by norm_num) (by rw [abs_lt]; constructor <;> norm_num)]
    norm_num
  have hw2 : toDouble (750599937895082625 / 1125899906842624 : ℚ) = 5864062014805333 / 8796093022208 := by
    rw [toDouble, roundToFormat_eq 53 (-1074) (9) (-43) (5864062014805333)
      (by rw [le_abs]; left; norm_num) (by rw [abs_lt]; constructor <;> norm_num)
      (by norm_num) (by rw [abs_lt]; constructor <;> norm_num)]
    norm_num
  have hs := sampleValue_of_int ⟨44100, 88200, TimeDomain.Milliseconds⟩ (1 / 3) 29400
    (by norm_num) (by norm_num) (by norm_num)
  have e0 : roundToInt (toDouble ((1 / 3 : ℚ) * 88200)) = 29400 := by
    have e : (1 / 3 : ℚ) * 88200 = ((29400 : ℤ) : ℚ) := by norm_num
    rw [e, toDouble_intCast _ (by norm_num), roundToInt_intCast]
  have e1 : ((29400 : ℤ) : ℚ) / max 1 (44100 : ℚ) = 2 / 3 := by
    rw [max_eq_right (by norm_num)]; norm_num
  have e2 : (6004799503160661 / 9007199254740992 : ℚ) * 1000 = 750599937895082625 / 1125899906842624 := by norm_num
  have hm : msValue ⟨44100, 88200, TimeDomain.Milliseconds⟩ (1 / 3) = 5864062014805333 / 8796093022208 := by
    rw [msValue, hs, e1, hw1, e2, hw2]
  have e3 : roundToInt (5864062014805333 / 8796093022208 : ℚ) = 667 :=
    roundToInt_eq_of_abs_lt (by rw [abs_lt]; constructor <;> norm_num)
  refine ⟨by norm_num, ?_⟩
  rw [getText_milliseconds ⟨44100, 88200, TimeDomain.Milliseconds⟩ (1 / 3) (by norm_num) rfl
    (by rw [e0]; norm_num) (by rw [e0]; norm_num) (by rw [hm, e3]; norm_num)
    (by rw [hm, e3]; norm_num)]
  have e4 : toDouble (toDouble
      ((roundToInt (toDouble ((1 / 3 : ℚ) * 88200)) : ℚ) / (44100 : ℚ)) * 1000)
      = 5864062014805333 / 8796093022208 := by
    have e5 : ((29400 : ℤ) : ℚ) / (44100 : ℚ) = 2 / 3 := by norm_num
    rw [e0, e5, hw1, e2, hw2]
  show intToString (roundToInt (toDouble (toDouble
      ((roundToInt (toDouble ((1 / 3 : ℚ) * 88200)) : ℚ) / (44100 : ℚ)) * 1000))) ++ " ms"
    = "667 ms"
  rw [e4, e3]
  decide

theorem msValue_nonneg (p : Properties) (normalisedX : ℚ) (hX : 0 ≤ normalisedX)
    (hLength : 0 ≤ p.sampleLength)
    (hUpper : roundToInt (toDouble (normalisedX * p.sampleLength)) < 2147483648) :
    0 ≤ msValue p normalisedX := by
  have h0 : 0 ≤ roundToInt (toDouble (normalisedX * p.sampleLength)) :=
    roundToInt_nonneg (toDouble_nonneg (mul_nonneg hX hLength))
  have hs : sampleValue p normalisedX = roundToInt (toDouble (normalisedX * p.sampleLength)) :=
    sampleValue_eq p normalisedX (by omega) hUpper
  have h1 : (0 : ℚ) ≤ (sampleValue p normalisedX : ℚ) := by rw [hs]; exact_mod_cast h0
  have h2 : (0 : ℚ) < max 1 p.sampleRate := lt_of_lt_of_le one_pos (le_max_left _ _)
  unfold msValue
  exact toDouble_nonneg (mul_nonneg (toDouble_nonneg (div_nonneg h1 (le_of_lt h2)))
    (by norm_num))

theorem msValue_at_third :
    msValue ⟨44100, 88200, TimeDomain.Seconds⟩ (1 / 3) = 5864062014805333 / 8796093022208 := by
  have hw1 : toDouble (2 / 3 : ℚ) = 6004799503160661 / 9007199254740992 := by
    rw [toDouble, roundToFormat_eq 53 (-1074) (-1) (-53) (6004799503160661)
      (by rw [le_abs]; left; norm_num) (by rw [abs_lt]; constructor <;> norm_num)
      (by norm_num) (by rw [abs_lt]; constructor <;> norm_num)]
    norm_num
  have hw2 : toDouble (750599937895082625 / 1125899906842624 : ℚ) = 5864062014805333 / 8796093022208 := by
    rw [toDouble, roundToFormat_eq 53 (-1074) (9) (-43) (5864062014805333)
      (by rw [le_abs]; left; norm_num) (by rw [abs_lt]; constructor <;> norm_num)
      (by norm_num) (by rw [abs_lt]; constructor <;> norm_num)]
    norm_num
  have hs := sampleValue_of_int ⟨44100, 88200, TimeDomain.Seconds⟩ (1 / 3) 29400
    (by norm_num) (by norm_num) (by norm_num)
  have e1 : ((29400 : ℤ) : ℚ) / max 1 (44100 : ℚ) = 2 / 3 := by
    rw [max_eq_right (by norm_num)]; norm_num
  have e2 : (6004799503160661 / 9007199254740992 : ℚ) * 1000 = 750599937895082625 / 1125899906842624 := by norm_num
  rw [msValue, hs, e1, hw1, e2, hw2]

/-- C3, as stated, fails, in two ways.  With a length of 3000000000 samples
at 44100 Hz the end of the timeline (position 1) gives a sample position that
does not fit the `int` of `roundToInt`; the millisecond value is negative and
the field after the prefix is `-338`, four characters and no decimal number.
At 1 Hz the sample position 3000000 is 3000000000 ms, which does not fit an
`int` either: the field is `-296`. -/
theorem getText_seconds_field_counterexample :
    ((0 : ℚ) < 44100 ∧ (0 : ℚ) ≤ 1 ∧ (0 : ℚ) ≤ 3000000000
      ∧ getText ⟨44100, 3000000000, TimeDomain.Seconds⟩ 1
        = formattedMinutesSeconds
            (truncToInt (msValue ⟨44100, 3000000000, TimeDomain.Seconds⟩ 1)) ++ "-338")
    ∧ ((0 : ℚ) < 1 ∧ (0 : ℚ) ≤ 1 ∧ (0 : ℚ) ≤ 3000000
      ∧ getText ⟨1, 3000000, TimeDomain.Seconds⟩ 1
        = formattedMinutesSeconds
            (truncToInt (msValue ⟨1, 3000000, TimeDomain.Seconds⟩ 1)) ++ "-296") := by
  refine ⟨⟨by norm_num, by norm_num, by norm_num, ?_⟩,
    ⟨by norm_num, by norm_num, by norm_num, ?_⟩⟩
  · rw [getText_seconds_eq _ _ (by norm_num) rfl, msValue_after_wrap]
    have e : roundToInt (-7882429401515805 / 268435456 : ℚ) = -29364338 :=
      roundToInt_eq_of_abs_lt (by rw [abs_lt]; constructor <;> norm_num)
    have e1 : Int.tmod (toInt32 (-29364338)) 1000 = -338 := by decide
    have e2 : intToString (-338) = "-338" := by decide
    rw [e, e1, e2, padMilliseconds, if_neg (by decide)]
  · rw [getText_seconds_eq _ _ (by norm_num) rfl, msValue_wrapping]
    have e : roundToInt (3000000000 : ℚ) = 3000000000 := by
      have := roundToInt_intCast 3000000000
      simpa using this
    have e1 : Int.tmod (toInt32 3000000000) 1000 = -296 := by decide
    have e2 : intToString (-296) = "-296" := by decide
    rw [e, e1, e2, padMilliseconds, if_neg (by decide)]

/-- C3, amended: in the Seconds domain, with a positive sample rate and
non-negative position and length, when the sample position and the rounded
millisecond value both fit an `int`, the text is the `minutes:seconds:` prefix
followed by a field of exactly three decimal digits, the zero-padded value of
`round (msValue) mod 1000`. -/
theorem getText_seconds_field (p : Properties) (normalisedX : ℚ)
    (hRate : 0 < p.sampleRate) (hDomain : p.currentDomain = TimeDomain.Seconds)
    (hX : 0 ≤ normalisedX) (hLength : 0 ≤ p.sampleLength)
    (hUpper : roundToInt (toDouble (normalisedX * p.sampleLength)) < 2147483648)
    (hMsUpper : roundToInt (msValue p normalisedX) < 2147483648) :
    ∃ n : ℕ, (n : ℤ) = roundToInt (msValue p normalisedX) % 1000 ∧ n < 1000 ∧
      getText p normalisedX
        = formattedMinutesSeconds (truncToInt (msValue p normalisedX))
          ++ String.mk [Nat.digitChar (n / 100), Nat.digitChar (n / 10 % 10),
              Nat.digitChar (n % 10)] := by
  have hm : 0 ≤ msValue p normalisedX := msValue_nonneg p normalisedX hX hLength hUpper
  have hr : 0 ≤ roundToInt (msValue p normalisedX) := roundToInt_nonneg hm
  obtain ⟨n, hn, hlt, ht⟩ := intToString_tmod_thousand hr
  refine ⟨n, hn, hlt, ?_⟩
  rw [getText_seconds_eq p normalisedX hRate hDomain, toInt32_of_mem (by omega) hMsUpper, ht,
    intToString_natCast, padMilliseconds_natRepr hlt]

/-- At 44100 Hz and 88200 samples, a third of the timeline reads `00:00:667`. -/
theorem getText_seconds_field_witness :
    (0 : ℚ) < 44100 ∧ (0 : ℚ) ≤ 1 / 3 ∧ (0 : ℚ) ≤ 88200 ∧
      getText ⟨44100, 88200, TimeDomain.Seconds⟩ (1 / 3) = "00:00:667" := by
  refine ⟨by norm_num, by norm_num, by norm_num, ?_⟩
  have e0 : roundToInt (toDouble ((1 / 3 : ℚ) * 88200)) = 29400 := by
    have e : (1 / 3 : ℚ) * 88200 = ((29400 : ℤ) : ℚ) := by norm_num
    rw [e, toDouble_intCast _ (by norm_num), roundToInt_intCast]
  have e1 : roundToInt (5864062014805333 / 8796093022208 : ℚ) = 667 :=
    roundToInt_eq_of_abs_lt (by rw [abs_lt]; constructor <;> norm_num)
  have e2 : truncToInt (5864062014805333 / 8796093022208 : ℚ) = 666 := by
    have hf : ⌊(5864062014805333 / 8796093022208 : ℚ)⌋ = 666 := by
      rw [Int.floor_eq_iff]; constructor <;> norm_num
    rw [truncToInt, if_pos (by norm_num), hf]
  obtain ⟨n, hn, hlt, h⟩ :=
    getText_seconds_field ⟨44100, 88200, TimeDomain.Seconds⟩ (1 / 3) (by norm_num) rfl
      (by norm_num) (by norm_num) (by rw [e0]; norm_num)
      (by rw [msValue_at_third, e1]; norm_num)
  rw [msValue_at_third, e1] at hn
  rw [msValue_at_third, e2] at h
  have hn2 : n = 667 := by omega
  subst hn2
  rw [h]
  decide

/-- C4: the text is empty when the sample rate is not positive, whatever the
domain, length and position, and it is not empty when the sample rate is
positive. -/
theorem getText_empty_iff (p : Properties) (normalisedX : ℚ) :
    (p.sampleRate ≤ 0 → getText p normalisedX = "")
      ∧ (0 < p.sampleRate → getText p normalisedX ≠ "") := by
  constructor
  · intro h
    unfold getText
    rw [if_neg (not_lt.mpr h)]
  · intro h
    unfold getText
    rw [if_pos h]
    have happ : ∀ a b : String, b ≠ "" → a ++ b ≠ "" := by
      intro a b hb hab
      apply hb
      apply String.ext
      have := congrArg String.data hab
      rw [String.data_append] at this
      exact (List.append_eq_nil.mp this).2
    have happ2 : ∀ a b : String, a ≠ "" → a ++ b ≠ "" := by
      intro a b ha hab
      apply ha
      apply String.ext
      have := congrArg String.data hab
      rw [String.data_append] at this
      exact (List.append_eq_nil.mp this).1
    split_ifs
    · exact intToString_ne_empty _
    · exact happ2 _ _ (intToString_ne_empty _)
    · apply happ2
      unfold formattedMinutesSeconds
      exact happ _ _ (by decide)

/-- A sample rate of 0 gives the empty text, a sample rate of 44100 does not. -/
theorem getText_empty_iff_witness :
    getText ⟨0, 88200, TimeDomain.Seconds⟩ (1 / 3) = ""
      ∧ getText ⟨44100, 88200, TimeDomain.Samples⟩ (1 / 3) ≠ "" :=
  ⟨(getText_empty_iff ⟨0, 88200, TimeDomain.Seconds⟩ (1 / 3)).1 (by norm_num),
    (getText_empty_iff ⟨44100, 88200, TimeDomain.Samples⟩ (1 / 3)).2 (by norm_num)⟩

/-! ## Facts about ranges and clamping -/

theorem jlimit_mem {lower upper : ℤ} (h : lower ≤ upper) (value : ℤ) :
    lower ≤ jlimit lower upper value ∧ jlimit lower upper value ≤ upper := by
  unfold jlimit
  split_ifs <;> omega

theorem Range.make_of_le {a b : ℤ} (h : a ≤ b) : Range.make a b = ⟨a, b⟩ := by
  simp [Range.make, max_eq_right h]

theorem toInt32_of_isInt32 {n : ℤ} (h : IsInt32 n) : toInt32 n = n :=
  toInt32_of_mem h.1 h.2

theorem Range.shift_of_le {r : Range} (h : r.start ≤ r.end_) (amount : ℤ)
    (hStart : IsInt32 (r.start + amount)) (hEnd : IsInt32 (r.end_ + amount)) :
    r.shift amount = ⟨r.start + amount, r.end_ + amount⟩ := by
  unfold Range.shift
  rw [toInt32_of_isInt32 hStart, toInt32_of_isInt32 hEnd]
  exact Range.make_of_le (by omega)

/-! ## Mouse editing -/

/-- The effect of an editing click on a displayed sound: one call of
`setSampleProperty`, with the position (snapped when `zeroCrossing` is on) less
the sample start for `SampleStartMod`, clamped to the property range. -/
theorem mouseDown_edit (w : SamplerSoundWaveform) (e : MouseEvent)
    (s : ModulatorSamplerSound) (propId : SampleId)
    (hInterface : w.onInterface = false) (hMods : e.isAnyModifierKeyDown = false)
    (hSound : w.currentSound = some s)
    (hId : getSampleIdToChange w (getAreaForModifiers w e) e = some propId) :
    mouseDown w e = MouseDownEffect.setSampleProperty propId
      (jlimit (s.getPropertyRange propId).start (s.getPropertyRange propId).end_
        (if propId = SampleId.SampleStartMod then
          toInt32
            ((if w.zeroCrossing then w.getNextZero (clickedSample w e.x)
              else clickedSample w e.x) - s.getSampleProperty SampleId.SampleStart)
        else if w.zeroCrossing then w.getNextZero (clickedSample w e.x)
        else clickedSample w e.x)) := by
  unfold mouseDown
  simp only [hInterface, hMods, hId, hSound, Range.getStart, Range.getEnd]
  by_cases hp : propId = SampleId.SampleStartMod
  · simp [hp]
  · simp [hp]

theorem clickedSample_example (zeroCrossing reversed : Bool) (clickArea : AreaTypes) :
    clickedSample (exampleWaveform zeroCrossing reversed clickArea) (50) = 500 := by
  have h1 : toDouble (1 / 2 : ℚ) = 1 / 2 := by
    rw [toDouble, roundToFormat_eq 53 (-1074) (-1) (-53) (4503599627370496)
      (by rw [le_abs]; left; norm_num) (by rw [abs_lt]; constructor <;> norm_num)
      (by norm_num) (by rw [abs_lt]; constructor <;> norm_num)]
    norm_num
  have h2 : toDouble (500 : ℚ) = 500 := by
    rw [toDouble, roundToFormat_eq 53 (-1074) (8) (-44) (8796093022208000)
      (by rw [le_abs]; left; norm_num) (by rw [abs_lt]; constructor <;> norm_num)
      (by norm_num) (by rw [abs_lt]; constructor <;> norm_num)]
    norm_num
  have e1 : ((50 : ℤ) : ℚ) / ((100 : ℤ) : ℚ) = 1 / 2 := by norm_num
  have e2 : (1000 : ℚ) * (1 / 2) = 500 := by norm_num
  have e3 : roundToInt (500 : ℚ) = 500 :=
    roundToInt_eq_of_abs_lt (by rw [abs_lt]; constructor <;> norm_num)
  show toInt32 (roundToInt (toDouble ((1000 : ℚ) * toDouble (((50 : ℤ) : ℚ) / ((100 : ℤ) : ℚ)))))
    = 500
  rw [e1, h1, e2, h2, e3]
  decide

theorem clickedSample_wide (clickArea : AreaTypes) :
    clickedSample (wideWaveform clickArea) (203) = 507 := by
  have h1 : toDouble (203 / 400 : ℚ) = 4571153621781053 / 9007199254740992 := by
    rw [toDouble, roundToFormat_eq 53 (-1074) (-1) (-53) (4571153621781053)
      (by rw [le_abs]; left; norm_num) (by rw [abs_lt]; constructor <;> norm_num)
      (by norm_num) (by rw [abs_lt]; constructor <;> norm_num)]
    norm_num
  have h2 : toDouble (571394202722631625 / 1125899906842624 : ℚ) = 8928034417541119 / 17592186044416 := by
    rw [toDouble, roundToFormat_eq 53 (-1074) (8) (-44) (8928034417541119)
      (by rw [le_abs]; left; norm_num) (by rw [abs_lt]; constructor <;> norm_num)
      (by norm_num) (by rw [abs_lt]; constructor <;> norm_num)]
    norm_num
  have e1 : ((203 : ℤ) : ℚ) / ((400 : ℤ) : ℚ) = 203 / 400 := by norm_num
  have e2 : (1000 : ℚ) * (4571153621781053 / 9007199254740992) = 571394202722631625 / 1125899906842624 := by norm_num
  have e3 : roundToInt (8928034417541119 / 17592186044416 : ℚ) = 507 :=
    roundToInt_eq_of_abs_lt (by rw [abs_lt]; constructor <;> norm_num)
  show toInt32 (roundToInt (toDouble ((1000 : ℚ) * toDouble (((203 : ℤ) : ℚ) / ((400 : ℤ) : ℚ)))))
    = 507
  rw [e1, h1, e2, h2, e3]
  decide

theorem clickedSample_wrapping (sound : ModulatorSamplerSound) (clickArea : AreaTypes) :
    clickedSample (longWaveform 3000000000 sound clickArea) (1) = (-1294967296) := by
  have h1 : toDouble (1 : ℚ) = 1 := by
    rw [toDouble, roundToFormat_eq 53 (-1074) (0) (-52) (4503599627370496)
      (by rw [le_abs]; left; norm_num) (by rw [abs_lt]; constructor <;> norm_num)
      (by norm_num) (by rw [abs_lt]; constructor <;> norm_num)]
    norm_num
  have h2 : toDouble (3000000000 : ℚ) = 3000000000 := by
    rw [toDouble, roundToFormat_eq 53 (-1074) (31) (-21) (6291456000000000)
      (by rw [le_abs]; left; norm_num) (by rw [abs_lt]; constructor <;> norm_num)
      (by norm_num) (by rw [abs_lt]; constructor <;> norm_num)]
    norm_num
  have e1 : ((1 : ℤ) : ℚ) / ((1 : ℤ) : ℚ) = 1 := by norm_num
  have e2 : (3000000000 : ℚ) * (1) = 3000000000 := by norm_num
  have e3 : roundToInt (3000000000 : ℚ) = 3000000000 :=
    roundToInt_eq_of_abs_lt (by rw [abs_lt]; constructor <;> norm_num)
  show toInt32 (roundToInt (toDouble ((3000000000 : ℚ) * toDouble (((1 : ℤ) : ℚ) / ((1 : ℤ) : ℚ)))))
    = (-1294967296)
  rw [e1, h1, e2, h2, e3]
  decide

theorem clickedSample_left_of_origin (sound : ModulatorSamplerSound)
    (clickArea : AreaTypes) :
    clickedSample (longWaveform 2000000000 sound clickArea) ((-1)) = (-2000000000) := by
  have h1 : toDouble (-1 : ℚ) = -1 := by
    rw [toDouble, roundToFormat_eq 53 (-1074) (0) (-52) (-4503599627370496)
      (by rw [le_abs]; right; norm_num) (by rw [abs_lt]; constructor <;> norm_num)
      (by norm_num) (by rw [abs_lt]; constructor <;> norm_num)]
    norm_num
  have h2 : toDouble (-2000000000 : ℚ) = -2000000000 := by
    rw [toDouble, roundToFormat_eq 53 (-1074) (30) (-22) (-8388608000000000)
      (by rw [le_abs]; right; norm_num) (by rw [abs_lt]; constructor <;> norm_num)
      (by norm_num) (by rw [abs_lt]; constructor <;> norm_num)]
    norm_num
  have e1 : (((-1) : ℤ) : ℚ) / ((1 : ℤ) : ℚ) = -1 := by norm_num
  have e2 : (2000000000 : ℚ) * (-1) = -2000000000 := by norm_num
  have e3 : roundToInt (-2000000000 : ℚ) = (-2000000000) :=
    roundToInt_eq_of_abs_lt (by rw [abs_lt]; constructor <;> norm_num)
  show toInt32 (roundToInt (toDouble ((2000000000 : ℚ) * toDouble ((((-1) : ℤ) : ℚ) / ((1 : ℤ) : ℚ)))))
    = (-2000000000)
  rw [e1, h1, e2, h2, e3]
  decide

/-- C5, as stated, fails, in four ways.  With `zeroCrossing` on, a click at
column 50 of the example waveform writes the next zero crossing 512, not the
clicked position 500.  At width 400 and 1000 samples a click at column 203
writes 507, because `1000 * (203 / 400)` is `507.49999999999994` in `double`,
where `round (sampleLength * x / width)` is 508.  With 3000000000 samples
the position does not fit an `int` and 0 is written, not the upper limit
1000.  With a sample start of 2000000000 and the position -2000000000 the
difference does not fit an `int` and 1000 is written for `SampleStartMod`,
not the lower limit 0. -/
theorem mouseDown_clicked_position_counterexample :
    (mouseDown (exampleWaveform true false AreaTypes.PlayArea) (leftClickAt 50)
          = MouseDownEffect.setSampleProperty SampleId.SampleStart 512
        ∧ jlimit 0 1000 (roundToInt ((1000 : ℚ) * 50 / 100)) = 500)
      ∧ (mouseDown (wideWaveform AreaTypes.PlayArea) (leftClickAt 203)
          = MouseDownEffect.setSampleProperty SampleId.SampleStart 507
        ∧ jlimit 0 1000 (roundToInt ((1000 : ℚ) * 203 / 400)) = 508)
      ∧ (mouseDown (longWaveform 3000000000 (exampleSound false) AreaTypes.PlayArea)
            (leftClickAt 1)
          = MouseDownEffect.setSampleProperty SampleId.SampleStart 0
        ∧ jlimit 0 1000 (roundToInt ((3000000000 : ℚ) * 1 / 1)) = 1000)
      ∧ (mouseDown (longWaveform 2000000000 (farSound 1000) AreaTypes.SampleStartArea)
            (leftClickAt (-1))
          = MouseDownEffect.setSampleProperty SampleId.SampleStartMod 1000
        ∧ jlimit 0 1000 (roundToInt ((2000000000 : ℚ) * (-1) / 1) - 2000000000) = 0) := by
  have r1 : roundToInt ((1000 : ℚ) * 50 / 100) = 500 := by
    have e : (1000 : ℚ) * 50 / 100 = ((500 : ℤ) : ℚ) := by norm_num
    rw [e, roundToInt_intCast]
  have r2 : roundToInt ((1000 : ℚ) * 203 / 400) = 508 := by
    have hf : ⌊((1000 : ℚ) * 203 / 400)⌋ = 507 := by
      rw [Int.floor_eq_iff]; constructor <;> norm_num
    rw [roundToInt, hf, if_neg (by norm_num), if_neg (by norm_num), if_neg (by decide)]
    norm_num
  have r3 : roundToInt ((3000000000 : ℚ) * 1 / 1) = 3000000000 := by
    have e : (3000000000 : ℚ) * 1 / 1 = ((3000000000 : ℤ) : ℚ) := by norm_num
    rw [e, roundToInt_intCast]
  have r4 : roundToInt ((2000000000 : ℚ) * (-1) / 1) = -2000000000 := by
    have e : (2000000000 : ℚ) * (-1) / 1 = ((-2000000000 : ℤ) : ℚ) := by norm_num
    rw [e, roundToInt_intCast]
  refine ⟨⟨?_, ?_⟩, ⟨?_, ?_⟩, ⟨?_, ?_⟩, ⟨?_, ?_⟩⟩
  · rw [mouseDown_edit (exampleWaveform true false AreaTypes.PlayArea) (leftClickAt 50)
      (exampleSound false) SampleId.SampleStart rfl rfl rfl rfl]
    have hv := clickedSample_example true false AreaTypes.PlayArea
    rw [show (leftClickAt 50).x = 50 from rfl, hv]
    decide
  · rw [r1]; decide
  · rw [mouseDown_edit (wideWaveform AreaTypes.PlayArea) (leftClickAt 203)
      (exampleSound false) SampleId.SampleStart rfl rfl rfl rfl]
    have hv := clickedSample_wide AreaTypes.PlayArea
    rw [show (leftClickAt 203).x = 203 from rfl, hv]
    decide
  · rw [r2]; decide
  · rw [mouseDown_edit (longWaveform 3000000000 (exampleSound false) AreaTypes.PlayArea)
      (leftClickAt 1) (exampleSound false) SampleId.SampleStart rfl rfl rfl rfl]
    have hv := clickedSample_wrapping (exampleSound false) AreaTypes.PlayArea
    rw [show (leftClickAt 1).x = 1 from rfl, hv]
    decide
  · rw [r3]; decide
  · rw [mouseDown_edit (longWaveform 2000000000 (farSound 1000) AreaTypes.SampleStartArea)
      (leftClickAt (-1)) (farSound 1000) SampleId.SampleStartMod rfl rfl rfl rfl]
    have hv := clickedSample_left_of_origin (farSound 1000) AreaTypes.SampleStartArea
    rw [show (leftClickAt (-1)).x = -1 from rfl, hv]
    decide
  · rw [r4]; decide

/-- C5, amended: an editing click (not on an interface, no modifier key, a
displayed sound, a valid property id) makes exactly one `setSampleProperty`
call, for that id; the value lies in the property range and is the clicked
position as the program computes it, `clickedSample`, that is
`roundToInt (sampleLength * ((double) x / (double) width))` in `double`
arithmetic reduced to an `int`, moved to the next zero crossing when
`zeroCrossing` is on, less `SampleStart` in `int` arithmetic for
`SampleStartMod`, clamped to the range. -/
theorem mouseDown_sets_clamped_position (w : SamplerSoundWaveform) (e : MouseEvent)
    (s : ModulatorSamplerSound) (propId : SampleId)
    (hInterface : w.onInterface = false) (hMods : e.isAnyModifierKeyDown = false)
    (hSound : w.currentSound = some s)
    (hId : getSampleIdToChange w (getAreaForModifiers w e) e = some propId)
    (hRange : (s.getPropertyRange propId).start ≤ (s.getPropertyRange propId).end_) :
    ∃ value : ℤ, mouseDown w e = MouseDownEffect.setSampleProperty propId value
      ∧ (s.getPropertyRange propId).start ≤ value
      ∧ value ≤ (s.getPropertyRange propId).end_
      ∧ value = jlimit (s.getPropertyRange propId).start (s.getPropertyRange propId).end_
          (if propId = SampleId.SampleStartMod then
            toInt32
              ((if w.zeroCrossing then w.getNextZero (clickedSample w e.x)
                else clickedSample w e.x) - s.getSampleProperty SampleId.SampleStart)
          else if w.zeroCrossing then w.getNextZero (clickedSample w e.x)
          else clickedSample w e.x)
      ∧ clickedSample w e.x
        = toInt32 (roundToInt (toDouble
            (w.timeProperties.sampleLength * toDouble ((e.x : ℚ) / (w.width : ℚ))))) :=
  ⟨_, mouseDown_edit w e s propId hInterface hMods hSound hId,
    (jlimit_mem hRange _).1, (jlimit_mem hRange _).2, rfl, rfl⟩

/-- A click in the middle of the example waveform, snapping on, on the sample start area
writes 512 - 10 = 502 to `SampleStartMod`. -/
theorem mouseDown_sets_clamped_position_witness :
    (exampleWaveform true false AreaTypes.SampleStartArea).onInterface = false
      ∧ (leftClickAt 50).isAnyModifierKeyDown = false
      ∧ ((exampleSound false).getPropertyRange SampleId.SampleStartMod).start
          ≤ ((exampleSound false).getPropertyRange SampleId.SampleStartMod).end_
      ∧ mouseDown (exampleWaveform true false AreaTypes.SampleStartArea) (leftClickAt 50)
          = MouseDownEffect.setSampleProperty SampleId.SampleStartMod 502 := by
  refine ⟨rfl, rfl, by decide, ?_⟩
  obtain ⟨value, h, -, -, hv, -⟩ :=
    mouseDown_sets_clamped_position (exampleWaveform true false AreaTypes.SampleStartArea)
      (leftClickAt 50) (exampleSound false) SampleId.SampleStartMod rfl rfl rfl rfl
      (by decide)
  rw [show (leftClickAt 50).x = 50 from rfl,
    clickedSample_example true false AreaTypes.SampleStartArea] at hv
  rw [h, hv]
  decide

/-- C6: the property a click edits.  `PlayArea` gives `SampleEnd` when the right
button is down and `SampleStart` otherwise (the left button); `LoopArea` gives
`LoopEnd` when the right button is down and `LoopStart` otherwise;
`SampleStartArea` gives `SampleStartMod` whatever the button;
`LoopCrossfadeArea` and the remaining value `numAreas` give the null
identifier. -/
theorem getSampleIdToChange_table (w : SamplerSoundWaveform) (e : MouseEvent) :
    getSampleIdToChange w AreaTypes.PlayArea e
        = (if e.isRightButtonDown then some SampleId.SampleEnd else some SampleId.SampleStart)
      ∧ getSampleIdToChange w AreaTypes.LoopArea e
        = (if e.isRightButtonDown then some SampleId.LoopEnd else some SampleId.LoopStart)
      ∧ getSampleIdToChange w AreaTypes.SampleStartArea e = some SampleId.SampleStartMod
      ∧ getSampleIdToChange w AreaTypes.LoopCrossfadeArea e = none
      ∧ getSampleIdToChange w AreaTypes.numAreas e = none := by
  refine ⟨?_, ?_, ?_, ?_, ?_⟩ <;>
    simp [getSampleIdToChange, SamplerSoundWaveform.areaAt]

/-! ## Region arithmetic -/

theorem withArea_areas (w : SamplerSoundWaveform) (a : AreaTypes) (area : SampleArea) :
    (w.withArea a area).areas a = area := by
  simp [SamplerSoundWaveform.withArea]

theorem updateRange_sampleStartArea_eq (w : SamplerSoundWaveform) (s : ModulatorSamplerSound)
    (refreshBounds : Bool) (hSound : w.currentSound = some s) :
    updateRange w AreaTypes.SampleStartArea refreshBounds
      = some (w.withArea AreaTypes.SampleStartArea
          (if s.isReversed then
            ((w.areas AreaTypes.SampleStartArea).setSampleRange
              (Range.make
                (toInt32 (s.getSampleProperty SampleId.SampleEnd
                  - s.getSampleProperty SampleId.SampleStartMod))
                (toInt32 (toInt32 (s.getSampleProperty SampleId.SampleEnd
                  - s.getSampleProperty SampleId.SampleStartMod)
                  + s.getSampleProperty SampleId.SampleStartMod)))).setAllowedPixelRanges
              (Range.make 0
                (toInt32 (toInt32 (s.getSampleProperty SampleId.SampleEnd
                  - s.getSampleProperty SampleId.SampleStartMod)
                  + s.getSampleProperty SampleId.SampleStartMod)))
              (s.getPropertyRange SampleId.SampleEnd)
          else
            ((w.areas AreaTypes.SampleStartArea).setSampleRange
              (Range.make (s.getSampleProperty SampleId.SampleStart)
                (toInt32 (s.getSampleProperty SampleId.SampleStart
                  + s.getSampleProperty SampleId.SampleStartMod)))).setAllowedPixelRanges
              (s.getPropertyRange SampleId.SampleStart)
              ((s.getPropertyRange SampleId.SampleStartMod).shift
                (s.getSampleProperty SampleId.SampleStart)))) := by
  unfold updateRange
  simp only [hSound, refreshSampleAreaBounds, ite_self]
  split_ifs <;> rfl

theorem updateRange_loopCrossfadeArea_eq (w : SamplerSoundWaveform)
    (s : ModulatorSamplerSound) (refreshBounds : Bool) (hSound : w.currentSound = some s) :
    updateRange w AreaTypes.LoopCrossfadeArea refreshBounds
      = some (w.withArea AreaTypes.LoopCrossfadeArea
          (((w.areas AreaTypes.LoopCrossfadeArea).setReversed s.isReversed).setSampleRange
            (Range.make
              (if s.isReversed then s.getSampleProperty SampleId.LoopEnd
                else toInt32 (s.getSampleProperty SampleId.LoopStart
                  - s.getSampleProperty SampleId.LoopXFade))
              (if s.isReversed then
                toInt32 (s.getSampleProperty SampleId.LoopEnd
                  + s.getSampleProperty SampleId.LoopXFade)
                else s.getSampleProperty SampleId.LoopStart)))) := by
  unfold updateRange
  simp only [hSound, refreshSampleAreaBounds, ite_self]

/-- C7, as stated, fails, in three ways.  With `SampleStart = SampleStartMod =
2000000000` the sum does not fit an `int`, and the range of the area is
`[2000000000, 2000000000]`, of length 0 and not `M`.  With a reversed sound
whose `SampleEnd` is -5 and `M = 0` the left drag range is `[0, 0]`, not
`[0, SampleEnd]`.  With the `SampleStartMod` property range `[0, 2000000000]`
and `SampleStart = 2000000000` the upper end of the moved range does not fit
an `int`, and the right drag range is `[2000000000, 2000000000]`, not
`[2000000000, 4000000000]`. -/
theorem updateRange_sampleStartArea_counterexample :
    (0 ≤ (customSound 2000000000 2000000000 2000000000 0 0 0 false).getSampleProperty
          SampleId.SampleStartMod
        ∧ (updateRange
            (longWaveform 1000 (customSound 2000000000 2000000000 2000000000 0 0 0 false)
              AreaTypes.SampleStartArea)
            AreaTypes.SampleStartArea false).map
            (fun w1 => ((w1.areas AreaTypes.SampleStartArea).range,
              (w1.areas AreaTypes.SampleStartArea).range.getLength))
          = some (⟨2000000000, 2000000000⟩, 0))
      ∧ (0 ≤ (customSound 0 (-5) 0 0 0 0 true).getSampleProperty SampleId.SampleStartMod
        ∧ (updateRange
            (longWaveform 1000 (customSound 0 (-5) 0 0 0 0 true) AreaTypes.SampleStartArea)
            AreaTypes.SampleStartArea false).map
            (fun w1 => (w1.areas AreaTypes.SampleStartArea).leftDragRange)
          = some ⟨0, 0⟩)
      ∧ ((updateRange
            (longWaveform 1000 (farSound 2000000000) AreaTypes.SampleStartArea)
            AreaTypes.SampleStartArea false).map
            (fun w1 => (w1.areas AreaTypes.SampleStartArea).rightDragRange)
          = some ⟨2000000000, 2000000000⟩
        ∧ ((farSound 2000000000).getPropertyRange SampleId.SampleStartMod).start
            + (farSound 2000000000).getSampleProperty SampleId.SampleStart = 2000000000
        ∧ ((farSound 2000000000).getPropertyRange SampleId.SampleStartMod).end_
            + (farSound 2000000000).getSampleProperty SampleId.SampleStart = 4000000000) := by
  refine ⟨⟨by decide, ?_⟩, ⟨by decide, ?_⟩, ⟨?_, by decide, by decide⟩⟩
  · rw [updateRange_sampleStartArea_eq _ _ _ rfl, Option.map_some', withArea_areas]
    decide
  · rw [updateRange_sampleStartArea_eq _ _ _ rfl, Option.map_some', withArea_areas]
    decide
  · rw [updateRange_sampleStartArea_eq _ _ _ rfl, Option.map_some', withArea_areas]
    decide

/-- C7, amended: `updateRange (SampleStartArea)` on a displayed sound whose
`SampleStartMod` is an `int` `M ≥ 0`.  Not reversed, when `SampleStart + M`
fits an `int`: the range of the area has length `M`, it is
`[SampleStart, SampleStart + M]`, and the right drag range is the
`SampleStartMod` property range moved by `SampleStart` (both ends moved,
when they fit an `int`).  Reversed, when `SampleEnd` is an `int` that is not
negative: the range has length `M`, it is `[SampleEnd - M, SampleEnd]`, and the
left drag range is `[0, SampleEnd]`. -/
theorem updateRange_sampleStartArea (w : SamplerSoundWaveform) (s : ModulatorSamplerSound)
    (refreshBounds : Bool) (hSound : w.currentSound = some s)
    (hMod : 0 ≤ s.getSampleProperty SampleId.SampleStartMod)
    (hModInt : s.getSampleProperty SampleId.SampleStartMod < 2147483648) :
    ∃ w1 : SamplerSoundWaveform,
      updateRange w AreaTypes.SampleStartArea refreshBounds = some w1
      ∧ (s.isReversed = false →
          IsInt32 (s.getSampleProperty SampleId.SampleStart
            + s.getSampleProperty SampleId.SampleStartMod) →
          (w1.areas AreaTypes.SampleStartArea).range.getLength
              = s.getSampleProperty SampleId.SampleStartMod
            ∧ (w1.areas AreaTypes.SampleStartArea).range
              = ⟨s.getSampleProperty SampleId.SampleStart,
                  s.getSampleProperty SampleId.SampleStart
                    + s.getSampleProperty SampleId.SampleStartMod⟩
            ∧ (w1.areas AreaTypes.SampleStartArea).rightDragRange
              = (s.getPropertyRange SampleId.SampleStartMod).shift
                  (s.getSampleProperty SampleId.SampleStart)
            ∧ ((s.getPropertyRange SampleId.SampleStartMod).start
                  ≤ (s.getPropertyRange SampleId.SampleStartMod).end_ →
                IsInt32 ((s.getPropertyRange SampleId.SampleStartMod).start
                  + s.getSampleProperty SampleId.SampleStart) →
                IsInt32 ((s.getPropertyRange SampleId.SampleStartMod).end_
                  + s.getSampleProperty SampleId.SampleStart) →
                (w1.areas AreaTypes.SampleStartArea).rightDragRange
                  = ⟨(s.getPropertyRange SampleId.SampleStartMod).start
                      + s.getSampleProperty SampleId.SampleStart,
                    (s.getPropertyRange SampleId.SampleStartMod).end_
                      + s.getSampleProperty SampleId.SampleStart⟩))
      ∧ (s.isReversed = true →
          0 ≤ s.getSampleProperty SampleId.SampleEnd →
          s.getSampleProperty SampleId.SampleEnd < 2147483648 →
          (w1.areas AreaTypes.SampleStartArea).range.getLength
              = s.getSampleProperty SampleId.SampleStartMod
            ∧ (w1.areas AreaTypes.SampleStartArea).range
              = ⟨s.getSampleProperty SampleId.SampleEnd
                    - s.getSampleProperty SampleId.SampleStartMod,
                  s.getSampleProperty SampleId.SampleEnd⟩
            ∧ (w1.areas AreaTypes.SampleStartArea).leftDragRange
              = ⟨0, s.getSampleProperty SampleId.SampleEnd⟩) := by
  have hM : toInt32 (s.getSampleProperty SampleId.SampleStartMod)
      = s.getSampleProperty SampleId.SampleStartMod := toInt32_of_mem (by omega) hModInt
  refine ⟨_, updateRange_sampleStartArea_eq w s refreshBounds hSound, ?_, ?_⟩
  · intro hrev hSum
    rw [withArea_areas, if_neg (by simp [hrev]), toInt32_of_isInt32 hSum]
    have hr : Range.make (s.getSampleProperty SampleId.SampleStart)
        (s.getSampleProperty SampleId.SampleStart
          + s.getSampleProperty SampleId.SampleStartMod)
        = ⟨s.getSampleProperty SampleId.SampleStart,
            s.getSampleProperty SampleId.SampleStart
              + s.getSampleProperty SampleId.SampleStartMod⟩ :=
      Range.make_of_le (by omega)
    simp only [SampleArea.setAllowedPixelRanges, SampleArea.setSampleRange, hr]
    refine ⟨?_, ?_, ?_, ?_⟩
    · simp only [Range.getLength]
      rw [add_sub_cancel_left, hM]
    · first | rfl | trivial
    · first | rfl | trivial
    · intro hle h1 h2
      exact Range.shift_of_le hle _ h1 h2
  · intro hrev hEnd hEndInt
    rw [withArea_areas, if_pos hrev]
    have e1 : toInt32 (s.getSampleProperty SampleId.SampleEnd
        - s.getSampleProperty SampleId.SampleStartMod)
        = s.getSampleProperty SampleId.SampleEnd
          - s.getSampleProperty SampleId.SampleStartMod :=
      toInt32_of_mem (by omega) (by omega)
    have e2 : s.getSampleProperty SampleId.SampleEnd
        - s.getSampleProperty SampleId.SampleStartMod
        + s.getSampleProperty SampleId.SampleStartMod
        = s.getSampleProperty SampleId.SampleEnd := by ring
    have e3 : toInt32 (s.getSampleProperty SampleId.SampleEnd)
        = s.getSampleProperty SampleId.SampleEnd := toInt32_of_mem (by omega) hEndInt
    rw [e1, e2, e3]
    have hr : Range.make (s.getSampleProperty SampleId.SampleEnd
          - s.getSampleProperty SampleId.SampleStartMod)
        (s.getSampleProperty SampleId.SampleEnd)
        = ⟨s.getSampleProperty SampleId.SampleEnd
            - s.getSampleProperty SampleId.SampleStartMod,
            s.getSampleProperty SampleId.SampleEnd⟩ :=
      Range.make_of_le (by omega)
    have hl : Range.make 0 (s.getSampleProperty SampleId.SampleEnd)
        = ⟨0, s.getSampleProperty SampleId.SampleEnd⟩ := Range.make_of_le hEnd
    simp only [SampleArea.setAllowedPixelRanges, SampleArea.setSampleRange, hr, hl]
    refine ⟨?_, ?_, ?_⟩
    · simp only [Range.getLength]
      rw [sub_sub_cancel, hM]
    · first | rfl | trivial
    · first | rfl | trivial

/-- The reversed example sound (`SampleEnd = 900`, `SampleStartMod = 20`) gets the
range `[880, 900]` and the left drag range `[0, 900]`. -/
theorem updateRange_sampleStartArea_witness :
    0 ≤ (exampleSound true).getSampleProperty SampleId.SampleStartMod
      ∧ (exampleSound true).getSampleProperty SampleId.SampleStartMod < 2147483648
      ∧ ∃ w1 : SamplerSoundWaveform,
          updateRange (exampleWaveform false true AreaTypes.SampleStartArea)
              AreaTypes.SampleStartArea false = some w1
            ∧ (w1.areas AreaTypes.SampleStartArea).range.getLength = 20
            ∧ (w1.areas AreaTypes.SampleStartArea).range = ⟨880, 900⟩
            ∧ (w1.areas AreaTypes.SampleStartArea).leftDragRange = ⟨0, 900⟩ := by
  refine ⟨by decide, by decide, ?_⟩
  obtain ⟨w1, h1, -, h4⟩ :=
    updateRange_sampleStartArea (exampleWaveform false true AreaTypes.SampleStartArea)
      (exampleSound true) false rfl (by decide) (by decide)
  obtain ⟨h5, h6, h7⟩ := h4 rfl (by decide) (by decide)
  exact ⟨w1, h1, h5, h6, h7⟩

/-- C8, as stated, fails, in two ways.  With a reversed sound and
`LoopEnd = LoopXFade = 2000000000` the sum does not fit an `int`, and the
range of the area is `[2000000000, 2000000000]`, of length 0 and not `X`.
With `LoopStart = -2000000000` and `LoopXFade = 2000000000`, not reversed, the
difference does not fit an `int`, and the range is `[294967296, 294967296]`,
which has length 0 and does not touch `LoopStart`. -/
theorem updateRange_loopCrossfadeArea_counterexample :
    (0 ≤ (customSound 0 0 0 0 2000000000 2000000000 true).getSampleProperty
          SampleId.LoopXFade
        ∧ (updateRange
            (longWaveform 1000 (customSound 0 0 0 0 2000000000 2000000000 true)
              AreaTypes.LoopCrossfadeArea)
            AreaTypes.LoopCrossfadeArea false).map
            (fun w1 => ((w1.areas AreaTypes.LoopCrossfadeArea).range,
              (w1.areas AreaTypes.LoopCrossfadeArea).range.getLength))
          = some (⟨2000000000, 2000000000⟩, 0))
      ∧ (0 ≤ (customSound 0 0 0 (-2000000000) 0 2000000000 false).getSampleProperty
          SampleId.LoopXFade
        ∧ (updateRange
            (longWaveform 1000 (customSound 0 0 0 (-2000000000) 0 2000000000 false)
              AreaTypes.LoopCrossfadeArea)
            AreaTypes.LoopCrossfadeArea false).map
            (fun w1 => ((w1.areas AreaTypes.LoopCrossfadeArea).range,
              (w1.areas AreaTypes.LoopCrossfadeArea).range.getLength))
          = some (⟨294967296, 294967296⟩, 0)) := by
  refine ⟨⟨by decide, ?_⟩, ⟨by decide, ?_⟩⟩
  · rw [updateRange_loopCrossfadeArea_eq _ _ _ rfl, Option.map_some', withArea_areas]
    decide
  · rw [updateRange_loopCrossfadeArea_eq _ _ _ rfl, Option.map_some', withArea_areas]
    decide

/-- C8, amended: `updateRange (LoopCrossfadeArea)` on a displayed sound whose
`LoopXFade` is an `int` `X ≥ 0` sets the reversed flag of the area to that of
the sound.  Not reversed, when `LoopStart - X` fits an `int`: the range of the
area has length `X` and is `[LoopStart - X, LoopStart]`.  Reversed, when
`LoopEnd + X` fits an `int`: the range has length `X` and is
`[LoopEnd, LoopEnd + X]`. -/
theorem updateRange_loopCrossfadeArea (w : SamplerSoundWaveform) (s : ModulatorSamplerSound)
    (refreshBounds : Bool) (hSound : w.currentSound = some s)
    (hFade : 0 ≤ s.getSampleProperty SampleId.LoopXFade)
    (hFadeInt : s.getSampleProperty SampleId.LoopXFade < 2147483648) :
    ∃ w1 : SamplerSoundWaveform,
      updateRange w AreaTypes.LoopCrossfadeArea refreshBounds = some w1
      ∧ (s.isReversed = false →
          IsInt32 (s.getSampleProperty SampleId.LoopStart
            - s.getSampleProperty SampleId.LoopXFade) →
          (w1.areas AreaTypes.LoopCrossfadeArea).range.getLength
              = s.getSampleProperty SampleId.LoopXFade
            ∧ (w1.areas AreaTypes.LoopCrossfadeArea).range
              = ⟨s.getSampleProperty SampleId.LoopStart
                    - s.getSampleProperty SampleId.LoopXFade,
                  s.getSampleProperty SampleId.LoopStart⟩)
      ∧ (s.isReversed = true →
          IsInt32 (s.getSampleProperty SampleId.LoopEnd
            + s.getSampleProperty SampleId.LoopXFade) →
          (w1.areas AreaTypes.LoopCrossfadeArea).range.getLength
              = s.getSampleProperty SampleId.LoopXFade
            ∧ (w1.areas AreaTypes.LoopCrossfadeArea).range
              = ⟨s.getSampleProperty SampleId.LoopEnd,
                  s.getSampleProperty SampleId.LoopEnd
                    + s.getSampleProperty SampleId.LoopXFade⟩)
      ∧ (w1.areas AreaTypes.LoopCrossfadeArea).reversed = s.isReversed := by
  have hX : toInt32 (s.getSampleProperty SampleId.LoopXFade)
      = s.getSampleProperty SampleId.LoopXFade := toInt32_of_mem (by omega) hFadeInt
  refine ⟨_, updateRange_loopCrossfadeArea_eq w s refreshBounds hSound, ?_, ?_, ?_⟩
  · intro hrev hDiff
    rw [withArea_areas]
    simp only [SampleArea.setSampleRange, hrev, Bool.false_eq_true, if_false]
    rw [toInt32_of_isInt32 hDiff, Range.make_of_le (by omega)]
    refine ⟨?_, rfl⟩
    simp only [Range.getLength]
    rw [sub_sub_cancel, hX]
  · intro hrev hSum
    rw [withArea_areas]
    simp only [SampleArea.setSampleRange, hrev, if_true]
    rw [toInt32_of_isInt32 hSum, Range.make_of_le (by omega)]
    refine ⟨?_, rfl⟩
    simp only [Range.getLength]
    rw [add_sub_cancel_left, hX]
  · rw [withArea_areas]
    rfl

/-- The example sound (`LoopStart = 100`, `LoopXFade = 30`) gets the range
`[70, 100]`. -/
theorem updateRange_loopCrossfadeArea_witness :
    0 ≤ (exampleSound false).getSampleProperty SampleId.LoopXFade
      ∧ (exampleSound false).getSampleProperty SampleId.LoopXFade < 2147483648
      ∧ ∃ w1 : SamplerSoundWaveform,
          updateRange (exampleWaveform false false AreaTypes.LoopCrossfadeArea)
              AreaTypes.LoopCrossfadeArea true = some w1
            ∧ (w1.areas AreaTypes.LoopCrossfadeArea).range.getLength = 30
            ∧ (w1.areas AreaTypes.LoopCrossfadeArea).range = ⟨70, 100⟩
            ∧ (w1.areas AreaTypes.LoopCrossfadeArea).reversed = false := by
  refine ⟨by decide, by decide, ?_⟩
  obtain ⟨w1, h1, h3, -, h5⟩ :=
    updateRange_loopCrossfadeArea (exampleWaveform false false AreaTypes.LoopCrossfadeArea)
      (exampleSound false) true rfl (by decide) (by decide)
  obtain ⟨h6, h7⟩ := h3 rfl (by decide)
  exact ⟨w1, h1, h6, h7, h5⟩

/-! ## The display path -/

theorem truncToInt_of_nonneg {v : ℚ} (h : 0 ≤ v) : truncToInt v = ⌊v⌋ := by
  simp [truncToInt, h]

theorem tableIndex_bounds (c : WaveformComponent) (i : ℤ) (hWidth : 0 < c.width)
    (hWidthMax : c.width ≤ 8388608) (hLength : 0 < c.tableLength) (hLower : 0 ≤ i)
    (hUpper : i < c.width) :
    0 ≤ tableIndex c i ∧ tableIndex c i < toFloat (c.tableLength : ℚ) := by
  have hw : toFloat (c.width : ℚ) = c.width :=
    toFloat_intCast c.width (by rw [abs_of_pos hWidth]; omega)
  have hi : toFloat (i : ℚ) = i :=
    toFloat_intCast i (by rw [abs_of_nonneg hLower]; omega)
  have hwq : (0 : ℚ) < c.width := by exact_mod_cast hWidth
  have hwmax : (c.width : ℚ) ≤ 8388608 := by exact_mod_cast hWidthMax
  have hL1 : (1 : ℚ) ≤ toFloat (c.tableLength : ℚ) := by
    have h1 : Representable 24 (-149) (1 : ℚ) := ⟨1, 0, by norm_num, by norm_num, by simp⟩
    exact le_roundToFormat (by norm_num) h1 (by exact_mod_cast hLength)
  have hL0 : (0 : ℚ) < toFloat (c.tableLength : ℚ) := by linarith
  have hq1 : (2 : ℚ) ^ (-23 : ℤ) ≤ toFloat (c.tableLength : ℚ) / c.width := by
    rw [le_div_iff₀ hwq]
    have e : (2 : ℚ) ^ (-23 : ℤ) = 1 / 8388608 := by norm_num [zpow_neg]
    rw [e]
    have : 1 / 8388608 * (c.width : ℚ) ≤ 1 := by linarith
    linarith
  have hc0 : (2 : ℚ) ^ (-23 : ℤ) ≤ cycle c := by
    unfold cycle
    rw [hw]
    exact le_roundToFormat (by norm_num) (representable_two_zpow _ (by norm_num)) hq1
  have hc1 : cycle c ≤ toFloat (c.tableLength : ℚ) / c.width * (1 + 1 / 2 ^ 24) := by
    unfold cycle
    rw [hw]
    refine toFloat_le_mul (le_trans ?_ hq1)
    exact zpow_le_zpow_right₀ (by norm_num) (by norm_num)
  have hcpos : (0 : ℚ) < cycle c := lt_of_lt_of_le (two_zpow_pos _) hc0
  unfold tableIndex
  rw [hi]
  have hiq : (0 : ℚ) ≤ i := by exact_mod_cast hLower
  refine ⟨toFloat_nonneg (mul_nonneg hiq (le_of_lt hcpos)), ?_⟩
  rcases eq_or_lt_of_le hLower with h0 | hpos
  · rw [← h0]
    have : toFloat (((0 : ℤ) : ℚ) * cycle c) = 0 := by
      rw [Int.cast_zero, zero_mul]
      exact roundToFormat_zero 24 (-149)
    rw [this]
    exact hL0
  · have hi1 : (1 : ℚ) ≤ i := by exact_mod_cast hpos
    have hiw : (i : ℚ) ≤ c.width - 1 := by
      have : i ≤ c.width - 1 := by omega
      exact_mod_cast this
    have hq2 : (2 : ℚ) ^ (-126 : ℤ) ≤ (i : ℚ) * cycle c := by
      have h23 : (2 : ℚ) ^ (-126 : ℤ) ≤ (2 : ℚ) ^ (-23 : ℤ) :=
        zpow_le_zpow_right₀ (by norm_num) (by norm_num)
      nlinarith
    have ht := toFloat_le_mul hq2
    -- the product of the two rounding factors stays below the gap to the width
    have hu : (0 : ℚ) < 1 + 1 / 2 ^ 24 := by norm_num
    have hstep : (i : ℚ) * cycle c * (1 + 1 / 2 ^ 24)
        ≤ (c.width - 1) * (toFloat (c.tableLength : ℚ) / c.width * (1 + 1 / 2 ^ 24))
          * (1 + 1 / 2 ^ 24) := by
      have : (i : ℚ) * cycle c
          ≤ (c.width - 1) * (toFloat (c.tableLength : ℚ) / c.width * (1 + 1 / 2 ^ 24)) :=
        mul_le_mul hiw hc1 (le_of_lt hcpos) (by linarith)
      exact mul_le_mul_of_nonneg_right this (le_of_lt hu)
    have hfac : ((c.width : ℚ) - 1) * (1 + 1 / 2 ^ 24) * (1 + 1 / 2 ^ 24) < c.width := by
      have e : ((c.width : ℚ) - 1) * (1 + 1 / 2 ^ 24) * (1 + 1 / 2 ^ 24)
          = c.width - 1 + (c.width - 1) * (33554433 / 281474976710656) := by ring
      rw [e]
      have : ((c.width : ℚ) - 1) * (33554433 / 281474976710656)
          ≤ 8388607 * (33554433 / 281474976710656) :=
        mul_le_mul_of_nonneg_right (by linarith) (by norm_num)
      have h2 : (8388607 : ℚ) * (33554433 / 281474976710656) < 1 := by norm_num
      linarith
    have hfin : ((c.width : ℚ) - 1)
          * (toFloat (c.tableLength : ℚ) / c.width * (1 + 1 / 2 ^ 24)) * (1 + 1 / 2 ^ 24)
        < toFloat (c.tableLength : ℚ) := by
      have e : ((c.width : ℚ) - 1)
            * (toFloat (c.tableLength : ℚ) / c.width * (1 + 1 / 2 ^ 24)) * (1 + 1 / 2 ^ 24)
          = (((c.width : ℚ) - 1) * (1 + 1 / 2 ^ 24) * (1 + 1 / 2 ^ 24))
            * (toFloat (c.tableLength : ℚ) / c.width) := by ring
      rw [e]
      have hqpos : (0 : ℚ) < toFloat (c.tableLength : ℚ) / c.width := div_pos hL0 hwq
      calc (((c.width : ℚ) - 1) * (1 + 1 / 2 ^ 24) * (1 + 1 / 2 ^ 24))
            * (toFloat (c.tableLength : ℚ) / c.width)
          < (c.width : ℚ) * (toFloat (c.tableLength : ℚ) / c.width) :=
            mul_lt_mul_of_pos_right hfac hqpos
        _ = toFloat (c.tableLength : ℚ) := by field_simp
    linarith

theorem tableIndex_representable (c : WaveformComponent) (i : ℤ) :
    Representable 24 (-149) (tableIndex c i) :=
  roundToFormat_representable (by norm_num) _

theorem x1_bounds (c : WaveformComponent) (i : ℤ) (hWidth : 0 < c.width)
    (hWidthMax : c.width ≤ 8388608) (hLength : 0 < c.tableLength) (hLower : 0 ≤ i)
    (hUpper : i < c.width) :
    x1 c i = ⌊tableIndex c i⌋ ∧ 0 ≤ x1 c i ∧ x1 c i < c.tableLength := by
  obtain ⟨h0, h1⟩ := tableIndex_bounds c i hWidth hWidthMax hLength hLower hUpper
  have h2 : tableIndex c i < (c.tableLength : ℚ) :=
    lt_intCast_of_lt_toFloat (tableIndex_representable c i) h1
  have e : x1 c i = ⌊tableIndex c i⌋ := truncToInt_of_nonneg h0
  refine ⟨e, ?_, ?_⟩
  · rw [e]; exact Int.floor_nonneg.mpr h0
  · rw [e]; exact Int.floor_lt.mpr h2

theorem x2_bounds (c : WaveformComponent) (i : ℤ) (hWidth : 0 < c.width)
    (hWidthMax : c.width ≤ 8388608) (hLength : 0 < c.tableLength)
    (hLengthInt : c.tableLength < 2147483648) (hLower : 0 ≤ i) (hUpper : i < c.width) :
    x2 c i = (x1 c i + 1) % c.tableLength ∧ 0 ≤ x2 c i ∧ x2 c i < c.tableLength := by
  obtain ⟨-, h0, h1⟩ := x1_bounds c i hWidth hWidthMax hLength hLower hUpper
  have e : x2 c i = (x1 c i + 1) % c.tableLength := by
    unfold x2
    rw [toInt32_of_mem (by omega) (by omega)]
    exact Int.tmod_eq_emod (by omega) (by omega)
  refine ⟨e, ?_, ?_⟩
  · rw [e]; exact Int.emod_nonneg _ (by omega)
  · rw [e]; exact Int.emod_lt_of_pos _ hLength

theorem readTable_isSome (values : List ℚ) (index : ℤ) (h0 : 0 ≤ index)
    (h1 : index < values.length) : ∃ v, readTable values index = some v := by
  have h2 : index.toNat < values.length := by omega
  exact ⟨values[index.toNat], by simp [readTable, h0, List.getElem?_eq_getElem h2]⟩

theorem tableIndex_last_column (b : Broadcaster) (values : List ℚ) (height : ℤ) :
    tableIndex (tableComponent b values 5 9718272 height) 9718271 = 5 := by
  have t1 : ((9718271 : ℤ) : ℚ) = 9718271 := by norm_num
  have t2 : toFloat (9718271 : ℚ) = 9718271 := by
    rw [toFloat, roundToFormat_eq 24 (-149) (23) (0) (9718271)
      (by rw [le_abs]; left; norm_num [zpow_neg]) (by rw [abs_lt]; constructor <;> norm_num [zpow_neg])
      (by norm_num) (by rw [abs_lt]; constructor <;> norm_num [zpow_neg])]
    norm_num [zpow_neg]
  have t3 : ((5 : ℤ) : ℚ) = 5 := by norm_num
  have t4 : toFloat (5 : ℚ) = 5 := by
    rw [toFloat, roundToFormat_eq 24 (-149) (2) (-21) (10485760)
      (by rw [le_abs]; left; norm_num [zpow_neg]) (by rw [abs_lt]; constructor <;> norm_num [zpow_neg])
      (by norm_num) (by rw [abs_lt]; constructor <;> norm_num [zpow_neg])]
    norm_num [zpow_neg]
  have t5 : ((9718272 : ℤ) : ℚ) = 9718272 := by norm_num
  have t6 : toFloat (9718272 : ℚ) = 9718272 := by
    rw [toFloat, roundToFormat_eq 24 (-149) (23) (0) (9718272)
      (by rw [le_abs]; left; norm_num [zpow_neg]) (by rw [abs_lt]; constructor <;> norm_num [zpow_neg])
      (by norm_num) (by rw [abs_lt]; constructor <;> norm_num [zpow_neg])]
    norm_num [zpow_neg]
  have t7 : toFloat (5 / 9718272 : ℚ) = (565693 / 1099511627776) := by
    have e : (5 / 9718272 : ℚ) = (5 / 9718272) := by norm_num
    rw [e]
    rw [toFloat, roundToFormat_eq 24 (-149) (-21) (-44) (9051088)
      (by rw [le_abs]; left; norm_num [zpow_neg]) (by rw [abs_lt]; constructor <;> norm_num [zpow_neg])
      (by norm_num) (by rw [abs_lt]; constructor <;> norm_num [zpow_neg])]
    norm_num [zpow_neg]
  have t8 : toFloat (9718271 * (565693 / 1099511627776) : ℚ) = 5 := by
    have e : (9718271 * (565693 / 1099511627776) : ℚ) = (5497557876803 / 1099511627776) := by norm_num
    rw [e]
    rw [toFloat, roundToFormat_eq 24 (-149) (2) (-21) (10485760)
      (by rw [le_abs]; left; norm_num [zpow_neg]) (by rw [abs_lt]; constructor <;> norm_num [zpow_neg])
      (by norm_num) (by rw [abs_lt]; constructor <;> norm_num [zpow_neg])]
    norm_num [zpow_neg]
  show toFloat (toFloat (((9718271 : ℤ) : ℚ)) * toFloat (toFloat (((5 : ℤ) : ℚ)) / toFloat (((9718272 : ℤ) : ℚ)))) = 5
  rw [t1, t2, t3, t4, t5, t6, t7, t8]

theorem tableIndex_middle_column (b : Broadcaster) (values : List ℚ) (height : ℤ) :
    tableIndex (tableComponent b values 128 82 height) 41 = 16777215 / 262144 := by
  have t1 : ((41 : ℤ) : ℚ) = 41 := by norm_num
  have t2 : toFloat (41 : ℚ) = 41 := by
    rw [toFloat, roundToFormat_eq 24 (-149) (5) (-18) (10747904)
      (by rw [le_abs]; left; norm_num [zpow_neg]) (by rw [abs_lt]; constructor <;> norm_num [zpow_neg])
      (by norm_num) (by rw [abs_lt]; constructor <;> norm_num [zpow_neg])]
    norm_num [zpow_neg]
  have t3 : ((128 : ℤ) : ℚ) = 128 := by norm_num
  have t4 : toFloat (128 : ℚ) = 128 := by
    rw [toFloat, roundToFormat_eq 24 (-149) (7) (-16) (8388608)
      (by rw [le_abs]; left; norm_num [zpow_neg]) (by rw [abs_lt]; constructor <;> norm_num [zpow_neg])
      (by norm_num) (by rw [abs_lt]; constructor <;> norm_num [zpow_neg])]
    norm_num [zpow_neg]
  have t5 : ((82 : ℤ) : ℚ) = 82 := by norm_num
  have t6 : toFloat (82 : ℚ) = 82 := by
    rw [toFloat, roundToFormat_eq 24 (-149) (6) (-17) (10747904)
      (by rw [le_abs]; left; norm_num [zpow_neg]) (by rw [abs_lt]; constructor <;> norm_num [zpow_neg])
      (by norm_num) (by rw [abs_lt]; constructor <;> norm_num [zpow_neg])]
    norm_num [zpow_neg]
  have t7 : toFloat (128 / 82 : ℚ) = (3273603 / 2097152) := by
    have e : (128 / 82 : ℚ) = (64 / 41) := by norm_num
    rw [e]
    rw [toFloat, roundToFormat_eq 24 (-149) (0) (-23) (13094412)
      (by rw [le_abs]; left; norm_num [zpow_neg]) (by rw [abs_lt]; constructor <;> norm_num [zpow_neg])
      (by norm_num) (by rw [abs_lt]; constructor <;> norm_num [zpow_neg])]
    norm_num [zpow_neg]
  have t8 : toFloat (41 * (3273603 / 2097152) : ℚ) = (16777215 / 262144) := by
    have e : (41 * (3273603 / 2097152) : ℚ) = (134217723 / 2097152) := by norm_num
    rw [e]
    rw [toFloat, roundToFormat_eq 24 (-149) (5) (-18) (16777215)
      (by rw [le_abs]; left; norm_num [zpow_neg]) (by rw [abs_lt]; constructor <;> norm_num [zpow_neg])
      (by norm_num) (by rw [abs_lt]; constructor <;> norm_num [zpow_neg])]
    norm_num [zpow_neg]
  show toFloat (toFloat (((41 : ℤ) : ℚ)) * toFloat (toFloat (((128 : ℤ) : ℚ)) / toFloat (((82 : ℤ) : ℚ)))) = (16777215 / 262144)
  rw [t1, t2, t3, t4, t5, t6, t7, t8]

theorem tableIndex_exampleComponent :
    tableIndex (exampleComponent) 3 = 3 / 2 := by
  have t1 : ((3 : ℤ) : ℚ) = 3 := by norm_num
  have t2 : toFloat (3 : ℚ) = 3 := by
    rw [toFloat, roundToFormat_eq 24 (-149) (1) (-22) (12582912)
      (by rw [le_abs]; left; norm_num [zpow_neg]) (by rw [abs_lt]; constructor <;> norm_num [zpow_neg])
      (by norm_num) (by rw [abs_lt]; constructor <;> norm_num [zpow_neg])]
    norm_num [zpow_neg]
  have t3 : ((2 : ℤ) : ℚ) = 2 := by norm_num
  have t4 : toFloat (2 : ℚ) = 2 := by
    rw [toFloat, roundToFormat_eq 24 (-149) (1) (-22) (8388608)
      (by rw [le_abs]; left; norm_num [zpow_neg]) (by rw [abs_lt]; constructor <;> norm_num [zpow_neg])
      (by norm_num) (by rw [abs_lt]; constructor <;> norm_num [zpow_neg])]
    norm_num [zpow_neg]
  have t5 : ((4 : ℤ) : ℚ) = 4 := by norm_num
  have t6 : toFloat (4 : ℚ) = 4 := by
    rw [toFloat, roundToFormat_eq 24 (-149) (2) (-21) (8388608)
      (by rw [le_abs]; left; norm_num [zpow_neg]) (by rw [abs_lt]; constructor <;> norm_num [zpow_neg])
      (by norm_num) (by rw [abs_lt]; constructor <;> norm_num [zpow_neg])]
    norm_num [zpow_neg]
  have t7 : toFloat (2 / 4 : ℚ) = (1 / 2) := by
    have e : (2 / 4 : ℚ) = (1 / 2) := by norm_num
    rw [e]
    rw [toFloat, roundToFormat_eq 24 (-149) (-1) (-24) (8388608)
      (by rw [le_abs]; left; norm_num [zpow_neg]) (by rw [abs_lt]; constructor <;> norm_num [zpow_neg])
      (by norm_num) (by rw [abs_lt]; constructor <;> norm_num [zpow_neg])]
    norm_num [zpow_neg]
  have t8 : toFloat (3 * (1 / 2) : ℚ) = (3 / 2) := by
    have e : (3 * (1 / 2) : ℚ) = (3 / 2) := by norm_num
    rw [e]
    rw [toFloat, roundToFormat_eq 24 (-149) (0) (-23) (12582912)
      (by rw [le_abs]; left; norm_num [zpow_neg]) (by rw [abs_lt]; constructor <;> norm_num [zpow_neg])
      (by norm_num) (by rw [abs_lt]; constructor <;> norm_num [zpow_neg])]
    norm_num [zpow_neg]
  show toFloat (toFloat (((3 : ℤ) : ℚ)) * toFloat (toFloat (((2 : ℤ) : ℚ)) / toFloat (((4 : ℤ) : ℚ)))) = (3 / 2)
  rw [t1, t2, t3, t4, t5, t6, t7, t8]

theorem tableIndex_near_limit (b : Broadcaster) (values : List ℚ) (height : ℤ) :
    tableIndex (tableComponent b values 33 8565692 height) 8565691 = 33 := by
  have t1 : ((8565691 : ℤ) : ℚ) = 8565691 := by norm_num
  have t2 : toFloat (8565691 : ℚ) = 8565691 := by
    rw [toFloat, roundToFormat_eq 24 (-149) (23) (0) (8565691)
      (by rw [le_abs]; left; norm_num [zpow_neg]) (by rw [abs_lt]; constructor <;> norm_num [zpow_neg])
      (by norm_num) (by rw [abs_lt]; constructor <;> norm_num [zpow_neg])]
    norm_num [zpow_neg]
  have t3 : ((33 : ℤ) : ℚ) = 33 := by norm_num
  have t4 : toFloat (33 : ℚ) = 33 := by
    rw [toFloat, roundToFormat_eq 24 (-149) (5) (-18) (8650752)
      (by rw [le_abs]; left; norm_num [zpow_neg]) (by rw [abs_lt]; constructor <;> norm_num [zpow_neg])
      (by norm_num) (by rw [abs_lt]; constructor <;> norm_num [zpow_neg])]
    norm_num [zpow_neg]
  have t5 : ((8565692 : ℤ) : ℚ) = 8565692 := by norm_num
  have t6 : toFloat (8565692 : ℚ) = 8565692 := by
    rw [toFloat, roundToFormat_eq 24 (-149) (23) (0) (8565692)
      (by rw [le_abs]; left; norm_num [zpow_neg]) (by rw [abs_lt]; constructor <;> norm_num [zpow_neg])
      (by norm_num) (by rw [abs_lt]; constructor <;> norm_num [zpow_neg])]
    norm_num [zpow_neg]
  have t7 : toFloat (33 / 8565692 : ℚ) = (4235955 / 1099511627776) := by
    have e : (33 / 8565692 : ℚ) = (33 / 8565692) := by norm_num
    rw [e]
    rw [toFloat, roundToFormat_eq 24 (-149) (-18) (-41) (8471910)
      (by rw [le_abs]; left; norm_num [zpow_neg]) (by rw [abs_lt]; constructor <;> norm_num [zpow_neg])
      (by norm_num) (by rw [abs_lt]; constructor <;> norm_num [zpow_neg])]
    norm_num [zpow_neg]
  have t8 : toFloat (8565691 * (4235955 / 1099511627776) : ℚ) = 33 := by
    have e : (8565691 * (4235955 / 1099511627776) : ℚ) = (36283881619905 / 1099511627776) := by norm_num
    rw [e]
    rw [toFloat, roundToFormat_eq 24 (-149) (5) (-18) (8650752)
      (by rw [le_abs]; left; norm_num [zpow_neg]) (by rw [abs_lt]; constructor <;> norm_num [zpow_neg])
      (by norm_num) (by rw [abs_lt]; constructor <;> norm_num [zpow_neg])]
    norm_num [zpow_neg]
  show toFloat (toFloat (((8565691 : ℤ) : ℚ)) * toFloat (toFloat (((33 : ℤ) : ℚ)) / toFloat (((8565692 : ℤ) : ℚ)))) = 33
  rw [t1, t2, t3, t4, t5, t6, t7, t8]

/-- C9, as stated, fails, in two ways.  At the width 9718272 and the table
length 5 the table index of the last pixel column is 5 in `float` arithmetic,
not below the table length, and the read index `x1` is 5, past the last
entry; so it is at the width 8565692, not far above `2 ^ 23`, and the table
length 33, where the index is 33.  At the width 82 and the table length 128
the table index of column 41 is `63.999996` and `x1` is 63, where
`floor (i * L / w)` is 64. -/
theorem rebuildPath_table_index_counterexample :
    ((0 : ℤ) < 9718272 ∧ (0 : ℤ) < 5 ∧ (0 : ℤ) ≤ 9718271 ∧ (9718271 : ℤ) < 9718272
        ∧ tableIndex (tableComponent truncatingBroadcaster [0, 0, 0, 0, 0] 5 9718272 10)
            9718271 = 5
        ∧ x1 (tableComponent truncatingBroadcaster [0, 0, 0, 0, 0] 5 9718272 10) 9718271 = 5
        ∧ readTable [0, 0, 0, 0, 0]
            (x1 (tableComponent truncatingBroadcaster [0, 0, 0, 0, 0] 5 9718272 10) 9718271)
          = none)
      ∧ ((0 : ℤ) < 8565692 ∧ (0 : ℤ) < 33 ∧ (0 : ℤ) ≤ 8565691 ∧ (8565691 : ℤ) < 8565692
        ∧ tableIndex
            (tableComponent truncatingBroadcaster (List.replicate 33 0) 33 8565692 10)
            8565691 = 33
        ∧ x1 (tableComponent truncatingBroadcaster (List.replicate 33 0) 33 8565692 10)
            8565691 = 33)
      ∧ ((0 : ℤ) < 82 ∧ (0 : ℤ) < 128 ∧ (0 : ℤ) ≤ 41 ∧ (41 : ℤ) < 82
        ∧ tableIndex (tableComponent truncatingBroadcaster (List.replicate 128 0) 128 82 10) 41
          = 16777215 / 262144
        ∧ x1 (tableComponent truncatingBroadcaster (List.replicate 128 0) 128 82 10) 41 = 63
        ∧ ⌊((41 : ℤ) : ℚ) * ((128 : ℤ) : ℚ) / ((82 : ℤ) : ℚ)⌋ = 64) := by
  have ha : x1 (tableComponent truncatingBroadcaster [0, 0, 0, 0, 0] 5 9718272 10) 9718271
      = 5 := by
    rw [x1, tableIndex_last_column, truncToInt_of_nonneg (by norm_num)]
    exact Int.floor_intCast 5
  have hb : x1 (tableComponent truncatingBroadcaster (List.replicate 128 0) 128 82 10) 41
      = 63 := by
    rw [x1, tableIndex_middle_column, truncToInt_of_nonneg (by norm_num), Int.floor_eq_iff]
    constructor <;> norm_num
  have hc : x1 (tableComponent truncatingBroadcaster (List.replicate 33 0) 33 8565692 10)
      8565691 = 33 := by
    rw [x1, tableIndex_near_limit, truncToInt_of_nonneg (by norm_num)]
    exact Int.floor_intCast 33
  refine ⟨⟨by decide, by decide, by decide, by decide, tableIndex_last_column _ _ _, ha, ?_⟩,
    ⟨by decide, by decide, by decide, by decide, tableIndex_near_limit _ _ _, hc⟩,
    ⟨by decide, by decide, by decide, by decide, tableIndex_middle_column _ _ _, hb, ?_⟩⟩
  · rw [ha]
    decide
  · rw [Int.floor_eq_iff]
    constructor <;> norm_num

/-- C9, amended: for a width `0 < w ≤ 8388608` (`2 ^ 23`), a table length
`L > 0` that is an `int` and a pixel column `0 ≤ i < w`, the table index, the
`float` product `(float) i * (L / (float) w)`, is below `L` (the `jassert`
holds, also against `L` converted to `float`); the read index `x1`, its
floor, and the second index `x2 = (x1 + 1) mod L` (0 after the last entry) lie
in `[0, L)`, so both reads are inside a table of `L` values. -/
theorem rebuildPath_table_index_in_bounds (c : WaveformComponent) (i : ℤ)
    (hWidth : 0 < c.width) (hWidthMax : c.width ≤ 8388608) (hLength : 0 < c.tableLength)
    (hLengthInt : c.tableLength < 2147483648)
    (hLower : 0 ≤ i) (hUpper : i < c.width) :
    tableIndex c i = toFloat (toFloat (i : ℚ)
        * toFloat (toFloat (c.tableLength : ℚ) / toFloat (c.width : ℚ)))
      ∧ 0 ≤ tableIndex c i
      ∧ tableIndex c i < toFloat (c.tableLength : ℚ)
      ∧ tableIndex c i < c.tableLength
      ∧ x1 c i = ⌊tableIndex c i⌋
      ∧ 0 ≤ x1 c i ∧ x1 c i < c.tableLength
      ∧ x2 c i = (x1 c i + 1) % c.tableLength
      ∧ 0 ≤ x2 c i ∧ x2 c i < c.tableLength
      ∧ (x1 c i = c.tableLength - 1 → x2 c i = 0)
      ∧ ∀ values : List ℚ, c.tableLength = values.length →
          (∃ v, readTable values (x1 c i) = some v)
            ∧ (∃ v, readTable values (x2 c i) = some v)
            ∧ ∃ v, readTable values (truncToInt (tableIndex c i)) = some v := by
  obtain ⟨t0, t1⟩ := tableIndex_bounds c i hWidth hWidthMax hLength hLower hUpper
  obtain ⟨a1, a2, a3⟩ := x1_bounds c i hWidth hWidthMax hLength hLower hUpper
  obtain ⟨b1, b2, b3⟩ := x2_bounds c i hWidth hWidthMax hLength hLengthInt hLower hUpper
  refine ⟨rfl, t0, t1, lt_intCast_of_lt_toFloat (tableIndex_representable c i) t1,
    a1, a2, a3, b1, b2, b3, ?_, ?_⟩
  · intro h
    rw [b1, h]
    simp
  · intro values hv
    exact ⟨readTable_isSome values _ a2 (by omega), readTable_isSome values _ b2 (by omega),
      readTable_isSome values (truncToInt (tableIndex c i)) a2 (by unfold x1 at a3; omega)⟩

/-- Column 3 of the example component (width 4, table length 2) reads the entries
1 and 0. -/
theorem rebuildPath_table_index_in_bounds_witness :
    0 < exampleComponent.width ∧ exampleComponent.width ≤ 8388608
      ∧ 0 < exampleComponent.tableLength ∧ exampleComponent.tableLength < 2147483648
      ∧ (0 : ℤ) ≤ 3 ∧ 3 < exampleComponent.width
      ∧ tableIndex exampleComponent 3 = 3 / 2
      ∧ x1 exampleComponent 3 = 1 ∧ x2 exampleComponent 3 = 0 := by
  obtain ⟨-, -, -, -, h5, -, -, -, -, -, h11, -⟩ :=
    rebuildPath_table_index_in_bounds exampleComponent 3 (by decide) (by decide) (by decide)
      (by decide) (by decide) (by decide)
  have e2 : x1 exampleComponent 3 = 1 := by
    rw [h5, tableIndex_exampleComponent, Int.floor_eq_iff]
    constructor <;> norm_num
  exact ⟨by decide, by decide, by decide, by decide, by decide, by decide,
    tableIndex_exampleComponent, e2, h11 (by rw [e2]; rfl)⟩

theorem allAreas_foldl_bounds (bounds : AreaTypes → Rectangle) (a : AreaTypes)
    (h : a ≠ AreaTypes.numAreas) :
    (allAreas.foldl (fun b area => Function.update b area ⟨0, 0, 0, 0⟩) bounds) a
      = ⟨0, 0, 0, 0⟩ := by
  cases a <;> simp [allAreas, Function.update] at h ⊢

/-- C11: `setSoundToDisplay` with a sound that is null, missing or purged
returns and leaves the current sound null, the bounds of each of the four
areas `(0, 0, 0, 0)`, the playback position 0 and both `sampleLength` and
`sampleRate` of `timeProperties` 0, so `getSampleRate ()` is -1 and `getText`
of `timeProperties` is the empty text at every position. -/
theorem setSoundToDisplay_no_usable_sound (host : Host) (d : WaveformState)
    (s : Option ModulatorSamplerSound) (multiMicIndex : ℤ)
    (hUnusable : ∀ sound, s = some sound →
      host.isMissing sound = true ∨ host.isPurged sound = true) :
    ∃ d1 : WaveformState, setSoundToDisplay host d s multiMicIndex = some d1
      ∧ d1.currentSound = none
      ∧ (∀ a : AreaTypes, a ≠ AreaTypes.numAreas → d1.areaBounds a = ⟨0, 0, 0, 0⟩)
      ∧ d1.playBackPosition = 0
      ∧ d1.timeProperties.sampleLength = 0
      ∧ d1.timeProperties.sampleRate = 0
      ∧ getSampleRate host d1.toSamplerSoundWaveform = -1
      ∧ ∀ x : ℚ, getText d1.timeProperties x = "" := by
  have hnone : (match s with
      | some sound =>
        if (!host.isMissing sound && !host.isPurged sound) = true then some sound else none
      | none => none) = none := by
    cases s with
    | none => rfl
    | some sound =>
      rcases hUnusable sound rfl with h | h <;> simp [h]
  unfold setSoundToDisplay
  simp only [hnone]
  refine ⟨_, rfl, rfl, ?_, rfl, rfl, rfl, rfl, ?_⟩
  · intro a ha
    exact allAreas_foldl_bounds _ a ha
  · intro x
    simp [getText]

/-- Both a null argument and a purged sound leave the example widget without a
sound, with empty areas and an empty timeline text. -/
theorem setSoundToDisplay_no_usable_sound_witness :
    ∃ d1 : WaveformState,
      setSoundToDisplay exampleHost (exampleState (exampleWaveform false false AreaTypes.PlayArea))
          none 0 = some d1
        ∧ d1.currentSound = none
        ∧ d1.areaBounds AreaTypes.LoopArea = ⟨0, 0, 0, 0⟩
        ∧ d1.playBackPosition = 0
        ∧ getSampleRate exampleHost d1.toSamplerSoundWaveform = -1
        ∧ getText d1.timeProperties (1 / 2) = "" := by
  obtain ⟨d1, h1, h2, h3, h4, -, -, h7, h8⟩ :=
    setSoundToDisplay_no_usable_sound exampleHost
      (exampleState (exampleWaveform false false AreaTypes.PlayArea)) none 0
      (fun sound h => by cases h)
  exact ⟨d1, h1, h2, h3 AreaTypes.LoopArea (by decide), h4, h7, h8 (1 / 2)⟩

/-! ## The null guard of `mouseDown` -/

theorem getSampleIdToChange_startMod_iff (w : SamplerSoundWaveform) (a : AreaTypes)
    (e : MouseEvent) :
    getSampleIdToChange w a e = some SampleId.SampleStartMod ↔ a = AreaTypes.SampleStartArea := by
  cases a <;> cases h : e.isRightButtonDown <;>
    simp [getSampleIdToChange, SamplerSoundWaveform.areaAt, h]

/-- C12, the code at its failing inputs: with no sound displayed, not on an
interface and no modifier key, a click whose area is the sample start area
goes through the null `currentSound` (to read `SampleStart`) before the null
check is reached; a click on any other area returns without touching the
sound. -/
theorem mouseDown_without_sound (w : SamplerSoundWaveform) (e : MouseEvent)
    (hSound : w.currentSound = none) (hInterface : w.onInterface = false)
    (hMods : e.isAnyModifierKeyDown = false) :
    mouseDown w e
      = (if w.currentClickArea = AreaTypes.SampleStartArea then MouseDownEffect.nullSound
          else MouseDownEffect.nothing) := by
  have hid := getSampleIdToChange_startMod_iff w w.currentClickArea e
  unfold mouseDown
  simp only [hInterface, hMods, hSound, getAreaForModifiers]
  cases hId : getSampleIdToChange w w.currentClickArea e with
  | none =>
    have hne : w.currentClickArea ≠ AreaTypes.SampleStartArea := by
      intro h
      rw [hid.mpr h] at hId
      cases hId
    simp [hne]
  | some propId =>
    by_cases hp : propId = SampleId.SampleStartMod
    · have ha : w.currentClickArea = AreaTypes.SampleStartArea := hid.mp (by rw [hId, hp])
      simp [hp, ha]
    · have hne : w.currentClickArea ≠ AreaTypes.SampleStartArea := by
        intro h
        rw [hid.mpr h] at hId
        exact hp (Option.some.inj hId).symm
      simp [hp, hne]

/-- A left click on the sample start area of a widget that displays no sound
dereferences the null sound. -/
theorem mouseDown_without_sound_witness :
    emptyWaveform.currentSound = none ∧ emptyWaveform.onInterface = false
      ∧ (leftClickAt 50).isAnyModifierKeyDown = false
      ∧ mouseDown emptyWaveform (leftClickAt 50) = MouseDownEffect.nullSound :=
  ⟨rfl, rfl, rfl, mouseDown_without_sound emptyWaveform (leftClickAt 50) rfl rfl rfl⟩

/-! ## The timer -/

/-- The three cases of `timerCallback` as far as they go through: nothing
started and no preview leaves both positions as they are; a voice that plays
another sound, without a preview, sets the playback position to 0; with a
displayed sound that is playing, or a preview, the positions are those of the
sampler, the sample start mirrored for a reversed sound (the `double`
difference `1.0 - currentSampleStartPos`). -/
theorem timerCallback_refresh (d : WaveformState) (sampler : ModulatorSampler) :
    (sampler.lastStartedVoice = none → sampler.previewBufferPosition ≤ 0 →
        ∃ d1, timerCallback d sampler = some d1
          ∧ d1.playBackPosition = d.playBackPosition
          ∧ d1.sampleStartPosition = d.sampleStartPosition)
      ∧ (∀ voice, sampler.lastStartedVoice = some voice → voice.playsCurrentSound = false →
          sampler.previewBufferPosition ≤ 0 →
          ∃ d1, timerCallback d sampler = some d1 ∧ d1.playBackPosition = 0)
      ∧ (∀ sound, d.currentSound = some sound →
          (0 < sampler.previewBufferPosition
            ∨ ∃ voice, sampler.lastStartedVoice = some voice
                ∧ voice.playsCurrentSound = true) →
          ∃ d1, timerCallback d sampler = some d1
            ∧ d1.playBackPosition = sampler.samplerDisplayValues.currentSamplePos
            ∧ d1.sampleStartPosition =
                (if sound.isReversed then
                  toDouble (1 - sampler.samplerDisplayValues.currentSampleStartPos)
                else sampler.samplerDisplayValues.currentSampleStartPos)) := by
  refine ⟨?_, ?_, ?_⟩
  · intro hv hp
    have hp1 : ¬ (sampler.previewBufferPosition > 0) := not_lt.mpr hp
    unfold timerCallback
    simp only [hv, hp1, decide_False, Option.isSome_none, Bool.or_self, Bool.false_eq_true,
      if_false]
    split_ifs <;> exact ⟨_, rfl, rfl, rfl⟩
  · intro voice hv hplay hp
    have hp1 : ¬ (sampler.previewBufferPosition > 0) := not_lt.mpr hp
    unfold timerCallback
    simp only [hv, hp1, hplay, decide_False, Option.isSome_some, Bool.or_false,
      Bool.false_eq_true, Bool.or_self, if_true, if_false]
    split_ifs <;> exact ⟨_, rfl, rfl⟩
  · intro sound hs hdisp
    have hcond : (sampler.lastStartedVoice.isSome || decide (sampler.previewBufferPosition > 0))
        = true := by
      rcases hdisp with h | ⟨voice, hv, -⟩
      · simp [h]
      · simp [hv]
    have hdisplayed : (decide (sampler.previewBufferPosition > 0) ||
        (match sampler.lastStartedVoice with
          | some voice => voice.playsCurrentSound
          | none => false)) = true := by
      rcases hdisp with h | ⟨voice, hv, hplay⟩
      · simp [h]
      · simp [hv, hplay]
    unfold timerCallback
    simp only [hcond, hdisplayed, if_true]
    by_cases hl : d.lastActive ≠ decide (sampler.previewBufferPosition > 0)
    · rw [if_pos hl]
      simp only [hs]
      exact ⟨_, rfl, rfl, rfl⟩
    · rw [if_neg hl]
      simp only [hs]
      exact ⟨_, rfl, rfl, rfl⟩

/-- C13, the code at its failing inputs: on a tick with no sound displayed,
when a preview is active, or the sound of the last started voice compares
equal to the null `currentSound`, `timerCallback` goes through the null
`currentSound` (to read `isReversed`) and sets no position. -/
theorem timerCallback_without_sound (d : WaveformState) (sampler : ModulatorSampler)
    (hSound : d.currentSound = none)
    (hDisplayed : 0 < sampler.previewBufferPosition
      ∨ ∃ voice, sampler.lastStartedVoice = some voice ∧ voice.playsCurrentSound = true) :
    timerCallback d sampler = none := by
  have hcond : (sampler.lastStartedVoice.isSome || decide (sampler.previewBufferPosition > 0))
      = true := by
    rcases hDisplayed with h | ⟨voice, hv, -⟩
    · simp [h]
    · simp [hv]
  have hdisplayed : (decide (sampler.previewBufferPosition > 0) ||
      (match sampler.lastStartedVoice with
        | some voice => voice.playsCurrentSound
        | none => false)) = true := by
    rcases hDisplayed with h | ⟨voice, hv, hplay⟩
    · simp [h]
    · simp [hv, hplay]
  unfold timerCallback
  simp only [hcond, hdisplayed, if_true]
  split_ifs with hl
  · simp only [hSound]
  · simp only [hSound]

/-- A tick of the widget that displays no sound, while the main controller
plays a preview, dereferences the null sound. -/
theorem timerCallback_without_sound_witness :
    (exampleState emptyWaveform).currentSound = none
      ∧ 0 < previewingSampler.previewBufferPosition
      ∧ timerCallback (exampleState emptyWaveform) previewingSampler = none :=
  ⟨rfl, by decide,
    timerCallback_without_sound (exampleState emptyWaveform) previewingSampler rfl
      (Or.inl (by decide))⟩

/-! ## The fields of the Seconds text -/

/-- C14, the code at a failing input: at 44100 Hz the sample position 44099 is
999.977 ms; the prefix is printed from the truncated count 999 and the field
from the rounded count 1000, so the text is `00:00:000`, which denotes 0 ms and
not the 1000 ms that `round (msValue)` is. -/
theorem getText_seconds_carry :
    (1 : ℚ) ≤ 44100
      ∧ sampleValue ⟨44100, 44099, TimeDomain.Seconds⟩ 1 = 44099
      ∧ 0 ≤ msValue ⟨44100, 44099, TimeDomain.Seconds⟩ 1
      ∧ truncToInt (msValue ⟨44100, 44099, TimeDomain.Seconds⟩ 1) = 999
      ∧ roundToInt (msValue ⟨44100, 44099, TimeDomain.Seconds⟩ 1) = 1000
      ∧ getText ⟨44100, 44099, TimeDomain.Seconds⟩ 1 = "00:00:000"
      ∧ ((0 * 60 + 0) * 1000 + 0 : ℤ) % 3600000
          ≠ roundToInt (msValue ⟨44100, 44099, TimeDomain.Seconds⟩ 1) % 3600000 := by
  have e0 : sampleValue ⟨44100, 44099, TimeDomain.Seconds⟩ 1 = 44099 :=
    sampleValue_of_int ⟨44100, 44099, TimeDomain.Seconds⟩ 1 44099 (by norm_num) (by norm_num)
      (by norm_num)
  have h1 : toDouble (44099 / 44100 : ℚ) = 2251748752464983 / 2251799813685248 := by
    rw [toDouble, roundToFormat_eq 53 (-1074) (-1) (-53) (9006995009859932)
      (by rw [le_abs]; left; norm_num) (by rw [abs_lt]; constructor <;> norm_num)
      (by norm_num) (by rw [abs_lt]; constructor <;> norm_num)]
    norm_num
  have h2 : toDouble (281468594058122875 / 281474976710656 : ℚ) = 2198973391079085 / 2199023255552 := by
    rw [toDouble, roundToFormat_eq 53 (-1074) (9) (-43) (8795893564316340)
      (by rw [le_abs]; left; norm_num) (by rw [abs_lt]; constructor <;> norm_num)
      (by norm_num) (by rw [abs_lt]; constructor <;> norm_num)]
    norm_num
  have e : msValue ⟨44100, 44099, TimeDomain.Seconds⟩ 1 = 2198973391079085 / 2199023255552 := by
    have e3 : ((44099 : ℤ) : ℚ) / max 1 (44100 : ℚ) = 44099 / 44100 := by
      rw [max_eq_right (by norm_num)]; norm_num
    have e4 : (2251748752464983 / 2251799813685248 : ℚ) * 1000 = 281468594058122875 / 281474976710656 := by norm_num
    rw [msValue, e0, e3, h1, e4, h2]
  have f : ⌊(2198973391079085 / 2199023255552 : ℚ)⌋ = 999 := by
    rw [Int.floor_eq_iff]
    constructor <;> norm_num
  have e1 : truncToInt (2198973391079085 / 2199023255552 : ℚ) = 999 := by
    rw [truncToInt, if_pos (by norm_num), f]
  have e2 : roundToInt (2198973391079085 / 2199023255552 : ℚ) = 1000 :=
    roundToInt_eq_of_abs_lt (by rw [abs_lt]; constructor <;> norm_num)
  refine ⟨by norm_num, e0, ?_, ?_, ?_, ?_, ?_⟩
  · rw [e]; norm_num
  · rw [e, e1]
  · rw [e, e2]
  · rw [getText_seconds_eq _ _ (by norm_num) rfl, e, e1, e2]
    have h0 : Int.tmod (toInt32 1000) 1000 = ((0 : ℕ) : ℤ) := by decide
    rw [h0, intToString_natCast, padMilliseconds_natRepr (by norm_num)]
    decide
  · rw [e, e2]
    decide

/-! ## Hover and click -/

theorem jlimit_shift (a b v S : ℤ) : jlimit a b (v - S) + S = jlimit (a + S) (b + S) v := by
  unfold jlimit
  split_ifs <;> omega

theorem hoverValue_startMod (w : SamplerSoundWaveform) (sound : ModulatorSamplerSound)
    (xPos : ℤ) (hZero : w.zeroCrossing = false) :
    hoverValue w sound SampleId.SampleStartMod xPos
      = jlimit
          (toInt32 ((sound.getPropertyRange SampleId.SampleStartMod).start
            + sound.getSampleProperty SampleId.SampleStart))
          (toInt32 ((sound.getPropertyRange SampleId.SampleStartMod).end_
            + sound.getSampleProperty SampleId.SampleStart))
          (clickedSample w xPos) := by
  unfold hoverValue
  simp [hZero, Range.addAssign, Range.clipValue]

theorem mouseMove_xPos (d : WaveformState) (e : MouseEvent) (xRelative : ℤ)
    (sound : ModulatorSamplerSound) (propId : SampleId)
    (hInterface : d.onInterface = false) (hMods : e.isAnyModifierKeyDown = false)
    (hSound : d.currentSound = some sound)
    (hId : getSampleIdToChange d.toSamplerSoundWaveform d.currentClickArea e = some propId) :
    (mouseMove d e xRelative).xPos
      = toInt32 (roundToInt (toDouble
          (toDouble ((hoverValue d.toSamplerSoundWaveform sound propId xRelative : ℚ)
            / d.timeProperties.sampleLength) * d.width)))
      ∧ (mouseMove d e xRelative).mouseCursor = MouseCursor.CrosshairCursor := by
  unfold mouseMove
  simp only [hInterface, hSound, hMods, getAreaForModifiers]
  simp [hId]

theorem clickedSample_far (sound : ModulatorSamplerSound) (clickArea : AreaTypes) :
    clickedSample (longWaveform 2100000000 sound clickArea) (1) = 2100000000 := by
  have h1 : toDouble (1 : ℚ) = 1 := by
    rw [toDouble, roundToFormat_eq 53 (-1074) (0) (-52) (4503599627370496)
      (by rw [le_abs]; left; norm_num) (by rw [abs_lt]; constructor <;> norm_num)
      (by norm_num) (by rw [abs_lt]; constructor <;> norm_num)]
    norm_num
  have h2 : toDouble (2100000000 : ℚ) = 2100000000 := by
    rw [toDouble, roundToFormat_eq 53 (-1074) (30) (-22) (8808038400000000)
      (by rw [le_abs]; left; norm_num) (by rw [abs_lt]; constructor <;> norm_num)
      (by norm_num) (by rw [abs_lt]; constructor <;> norm_num)]
    norm_num
  have e1 : ((1 : ℤ) : ℚ) / ((1 : ℤ) : ℚ) = 1 := by norm_num
  have e2 : (2100000000 : ℚ) * (1) = 2100000000 := by norm_num
  have e3 : roundToInt (2100000000 : ℚ) = 2100000000 :=
    roundToInt_eq_of_abs_lt (by rw [abs_lt]; constructor <;> norm_num)
  show toInt32 (roundToInt (toDouble ((2100000000 : ℚ) * toDouble (((1 : ℤ) : ℚ) / ((1 : ℤ) : ℚ)))))
    = 2100000000
  rw [e1, h1, e2, h2, e3]
  decide

theorem clickedSample_origin (w : SamplerSoundWaveform) : clickedSample w 0 = 0 := by
  have h0 : toDouble 0 = 0 := roundToFormat_zero 53 (-1074)
  have h1 : roundToInt (0 : ℚ) = 0 := by simpa using roundToInt_intCast 0
  show toInt32 (roundToInt (toDouble
    (w.timeProperties.sampleLength * toDouble (((0 : ℤ) : ℚ) / (w.width : ℚ))))) = 0
  rw [Int.cast_zero, zero_div, h0, mul_zero, h0, h1]
  decide

/-- C15, as stated, fails when a sum or difference leaves the `int` range.
With `SampleStart = 2000000000`, the `SampleStartMod` range `[0, 1000]` and
the position -2000000000, the click stores 1000 (the difference wraps to
294967296) while the hover line stands at 2000000000, which is not
2000000000 + 1000.  With the `SampleStartMod` range `[0, 2000000000]` and the
position 2100000000, the click stores 100000000 while the hover line stands at
-294967296 (the upper end of the shifted range wraps), which is not
2000000000 + 100000000.  With `SampleStart = -2000000000`, the range
`[-1000000000, 0]` and the position 0, the click stores 0 while the hover line
stands at 1294967296 (the lower end of the shifted range wraps), which is not
-2000000000 + 0. -/
theorem hover_agrees_with_click_counterexample :
    (mouseDown (longWaveform 2000000000 (farSound 1000) AreaTypes.SampleStartArea)
          (leftClickAt (-1))
        = MouseDownEffect.setSampleProperty SampleId.SampleStartMod 1000
      ∧ hoverValue (longWaveform 2000000000 (farSound 1000) AreaTypes.SampleStartArea)
          (farSound 1000) SampleId.SampleStartMod (-1) = 2000000000
      ∧ (farSound 1000).getSampleProperty SampleId.SampleStart = 2000000000)
    ∧ (mouseDown (longWaveform 2100000000 (farSound 2000000000) AreaTypes.SampleStartArea)
          (leftClickAt 1)
        = MouseDownEffect.setSampleProperty SampleId.SampleStartMod 100000000
      ∧ hoverValue
          (longWaveform 2100000000 (farSound 2000000000) AreaTypes.SampleStartArea)
          (farSound 2000000000) SampleId.SampleStartMod 1 = -294967296
      ∧ (farSound 2000000000).getSampleProperty SampleId.SampleStart = 2000000000)
    ∧ (mouseDown
          (longWaveform 1000 (shiftedSound (-2000000000) (-1000000000) 0)
            AreaTypes.SampleStartArea)
          (leftClickAt 0)
        = MouseDownEffect.setSampleProperty SampleId.SampleStartMod 0
      ∧ hoverValue
          (longWaveform 1000 (shiftedSound (-2000000000) (-1000000000) 0)
            AreaTypes.SampleStartArea)
          (shiftedSound (-2000000000) (-1000000000) 0) SampleId.SampleStartMod 0
        = 1294967296
      ∧ (shiftedSound (-2000000000) (-1000000000) 0).getSampleProperty SampleId.SampleStart
        = -2000000000) := by
  refine ⟨⟨?_, ?_, rfl⟩, ⟨?_, ?_, rfl⟩, ⟨?_, ?_, rfl⟩⟩
  · rw [mouseDown_edit (longWaveform 2000000000 (farSound 1000) AreaTypes.SampleStartArea)
      (leftClickAt (-1)) (farSound 1000) SampleId.SampleStartMod rfl rfl rfl rfl]
    rw [show (leftClickAt (-1)).x = -1 from rfl,
      clickedSample_left_of_origin (farSound 1000) AreaTypes.SampleStartArea]
    decide
  · rw [hoverValue_startMod _ _ _ rfl,
      clickedSample_left_of_origin (farSound 1000) AreaTypes.SampleStartArea]
    decide
  · rw [mouseDown_edit
      (longWaveform 2100000000 (farSound 2000000000) AreaTypes.SampleStartArea)
      (leftClickAt 1) (farSound 2000000000) SampleId.SampleStartMod rfl rfl rfl rfl]
    rw [show (leftClickAt 1).x = 1 from rfl,
      clickedSample_far (farSound 2000000000) AreaTypes.SampleStartArea]
    decide
  · rw [hoverValue_startMod _ _ _ rfl,
      clickedSample_far (farSound 2000000000) AreaTypes.SampleStartArea]
    decide
  · rw [mouseDown_edit
      (longWaveform 1000 (shiftedSound (-2000000000) (-1000000000) 0)
        AreaTypes.SampleStartArea)
      (leftClickAt 0) (shiftedSound (-2000000000) (-1000000000) 0) SampleId.SampleStartMod
      rfl rfl rfl rfl]
    rw [show (leftClickAt 0).x = 0 from rfl, clickedSample_origin]
    decide
  · rw [hoverValue_startMod _ _ _ rfl, clickedSample_origin]
    decide

/-- C15, amended: for a displayed sound, zero-crossing snapping off and the
sample start area under the mouse, let `v` be the sample position of column
`x` as the program computes it (`clickedSample`), `S` the sample start and
`[a, b]` the `SampleStartMod` range.  When `v - S`, `a + S` and `b + S` fit an
`int`, an editing click at `x` stores `m = clamp (v - S, a, b)` in
`SampleStartMod`, and the hover line of `mouseMove` at the same `x` stands at
the sample position `clamp (v, a + S, b + S)`, which is `S + m`. -/
theorem hover_agrees_with_click (d : WaveformState) (e : MouseEvent)
    (sound : ModulatorSamplerSound)
    (hSound : d.currentSound = some sound) (hZero : d.zeroCrossing = false)
    (hArea : d.currentClickArea = AreaTypes.SampleStartArea)
    (hInterface : d.onInterface = false) (hMods : e.isAnyModifierKeyDown = false)
    (hDifference : IsInt32 (clickedSample d.toSamplerSoundWaveform e.x
      - sound.getSampleProperty SampleId.SampleStart))
    (hLower : IsInt32 ((sound.getPropertyRange SampleId.SampleStartMod).start
      + sound.getSampleProperty SampleId.SampleStart))
    (hUpper : IsInt32 ((sound.getPropertyRange SampleId.SampleStartMod).end_
      + sound.getSampleProperty SampleId.SampleStart)) :
    mouseDown d.toSamplerSoundWaveform e
        = MouseDownEffect.setSampleProperty SampleId.SampleStartMod
            (jlimit (sound.getPropertyRange SampleId.SampleStartMod).start
              (sound.getPropertyRange SampleId.SampleStartMod).end_
              (clickedSample d.toSamplerSoundWaveform e.x
                - sound.getSampleProperty SampleId.SampleStart))
      ∧ hoverValue d.toSamplerSoundWaveform sound SampleId.SampleStartMod e.x
        = jlimit
            ((sound.getPropertyRange SampleId.SampleStartMod).start
              + sound.getSampleProperty SampleId.SampleStart)
            ((sound.getPropertyRange SampleId.SampleStartMod).end_
              + sound.getSampleProperty SampleId.SampleStart)
            (clickedSample d.toSamplerSoundWaveform e.x)
      ∧ hoverValue d.toSamplerSoundWaveform sound SampleId.SampleStartMod e.x
        = sound.getSampleProperty SampleId.SampleStart
          + jlimit (sound.getPropertyRange SampleId.SampleStartMod).start
              (sound.getPropertyRange SampleId.SampleStartMod).end_
              (clickedSample d.toSamplerSoundWaveform e.x
                - sound.getSampleProperty SampleId.SampleStart)
      ∧ (mouseMove d e e.x).xPos
        = toInt32 (roundToInt (toDouble
            (toDouble
              ((hoverValue d.toSamplerSoundWaveform sound SampleId.SampleStartMod e.x : ℚ)
                / d.timeProperties.sampleLength) * d.width))) := by
  have hId : getSampleIdToChange d.toSamplerSoundWaveform d.currentClickArea e
      = some SampleId.SampleStartMod :=
    (getSampleIdToChange_startMod_iff d.toSamplerSoundWaveform d.currentClickArea e).mpr hArea
  have hDown := mouseDown_edit d.toSamplerSoundWaveform e sound SampleId.SampleStartMod
    hInterface hMods hSound hId
  have hHover := hoverValue_startMod d.toSamplerSoundWaveform sound e.x hZero
  rw [toInt32_of_isInt32 hLower, toInt32_of_isInt32 hUpper] at hHover
  refine ⟨?_, hHover, ?_, (mouseMove_xPos d e e.x sound SampleId.SampleStartMod hInterface hMods
    hSound hId).1⟩
  · rw [hDown, if_pos rfl, if_neg (by simp [hZero]), toInt32_of_isInt32 hDifference]
  · rw [hHover, ← jlimit_shift]
    ring

/-- On the example waveform at width 400 (1000 samples, `SampleStart = 10`,
range `[0, 1000]`) the column 203 is the sample 507; a click there stores 497
and the hover line stands at sample 507 = 10 + 497, pixel column 203. -/
theorem hover_agrees_with_click_witness :
    mouseDown (wideWaveform AreaTypes.SampleStartArea) (leftClickAt 203)
        = MouseDownEffect.setSampleProperty SampleId.SampleStartMod 497
      ∧ hoverValue (wideWaveform AreaTypes.SampleStartArea) (exampleSound false)
          SampleId.SampleStartMod 203 = 507
      ∧ (mouseMove (exampleState (wideWaveform AreaTypes.SampleStartArea))
          (leftClickAt 203) 203).xPos = 203 := by
  have hv : clickedSample
      (exampleState (wideWaveform AreaTypes.SampleStartArea)).toSamplerSoundWaveform
      (leftClickAt 203).x = 507 := clickedSample_wide AreaTypes.SampleStartArea
  obtain ⟨h1, h2, -, h4⟩ :=
    hover_agrees_with_click (exampleState (wideWaveform AreaTypes.SampleStartArea))
      (leftClickAt 203) (exampleSound false) rfl rfl rfl rfl rfl
      (by rw [hv]; decide) (by decide) (by decide)
  rw [hv] at h1 h2
  have h2a : hoverValue (wideWaveform AreaTypes.SampleStartArea)
      (exampleSound false) SampleId.SampleStartMod 203 = 507 := by
    rw [show (203 : ℤ) = (leftClickAt 203).x from rfl]
    exact h2.trans (by decide)
  refine ⟨h1.trans (by decide), h2a, ?_⟩
  refine Eq.trans h4 ?_
  show toInt32 (roundToInt (toDouble (toDouble
    (((hoverValue (wideWaveform AreaTypes.SampleStartArea)
        (exampleSound false) SampleId.SampleStartMod 203 : ℤ) : ℚ) / 1000)
      * ((400 : ℤ) : ℚ)))) = 203
  rw [h2a]
  have hn : toDouble (507 / 1000 : ℚ) = 4566650022153683 / 9007199254740992 := by
    rw [toDouble, roundToFormat_eq 53 (-1074) (-1) (-53) (4566650022153683)
      (by rw [le_abs]; left; norm_num) (by rw [abs_lt]; constructor <;> norm_num)
      (by norm_num) (by rw [abs_lt]; constructor <;> norm_num)]
    norm_num
  have hr : toDouble (114166250553842075 / 562949953421312 : ℚ) = 3567695329807565 / 17592186044416 := by
    rw [toDouble, roundToFormat_eq 53 (-1074) (7) (-45) (7135390659615130)
      (by rw [le_abs]; left; norm_num) (by rw [abs_lt]; constructor <;> norm_num)
      (by norm_num) (by rw [abs_lt]; constructor <;> norm_num)]
    norm_num
  have e1 : ((507 : ℤ) : ℚ) / 1000 = 507 / 1000 := by norm_num
  have e2 : (4566650022153683 / 9007199254740992 : ℚ) * ((400 : ℤ) : ℚ) = 114166250553842075 / 562949953421312 := by norm_num
  have e3 : roundToInt (3567695329807565 / 17592186044416 : ℚ) = 203 :=
    roundToInt_eq_of_abs_lt (by rw [abs_lt]; constructor <;> norm_num)
  rw [e1, hn, e2, hr, e3]
  decide

/-! ## A waveform on an interface -/

theorem clickedSample_interface : clickedSample ((setIsSamplerWorkspacePreview (exampleState interfaceWaveform)).toSamplerSoundWaveform) (50) = 500 := by
  have h1 : toDouble (1 / 2 : ℚ) = 1 / 2 := by
    rw [toDouble, roundToFormat_eq 53 (-1074) (-1) (-53) (4503599627370496)
      (by rw [le_abs]; left; norm_num) (by rw [abs_lt]; constructor <;> norm_num)
      (by norm_num) (by rw [abs_lt]; constructor <;> norm_num)]
    norm_num
  have h2 : toDouble (500 : ℚ) = 500 := by
    rw [toDouble, roundToFormat_eq 53 (-1074) (8) (-44) (8796093022208000)
      (by rw [le_abs]; left; norm_num) (by rw [abs_lt]; constructor <;> norm_num)
      (by norm_num) (by rw [abs_lt]; constructor <;> norm_num)]
    norm_num
  have e1 : ((50 : ℤ) : ℚ) / ((100 : ℤ) : ℚ) = 1 / 2 := by norm_num
  have e2 : (1000 : ℚ) * (1 / 2) = 500 := by norm_num
  have e3 : roundToInt (500 : ℚ) = 500 :=
    roundToInt_eq_of_abs_lt (by rw [abs_lt]; constructor <;> norm_num)
  show toInt32 (roundToInt (toDouble ((1000 : ℚ) * toDouble (((50 : ℤ) : ℚ) / ((100 : ℤ) : ℚ)))))
    = 500
  rw [e1, h1, e2, h2, e3]
  decide

/-- C16: while `onInterface` is true, `mouseDown` and `mouseUp` return without a
call on the sound or the previewer and `mouseMove` leaves the whole state
(hover position, tooltip, mouse cursor included) as it is; after
`setIsSamplerWorkspacePreview`, `onInterface` is false, the widget is in the
workspace, and an editing click on a displayed sound sets its property. -/
theorem onInterface_read_only (d : WaveformState) (e : MouseEvent) (xRelative : ℤ)
    (hInterface : d.onInterface = true) :
    mouseDown d.toSamplerSoundWaveform e = MouseDownEffect.nothing
      ∧ mouseUp d.toSamplerSoundWaveform e = MouseUpEffect.nothing
      ∧ mouseMove d e xRelative = d
      ∧ (setIsSamplerWorkspacePreview d).onInterface = false
      ∧ (setIsSamplerWorkspacePreview d).inWorkspace = true
      ∧ ∀ (sound : ModulatorSamplerSound) (propId : SampleId),
          d.currentSound = some sound → e.isAnyModifierKeyDown = false →
          getSampleIdToChange d.toSamplerSoundWaveform d.currentClickArea e = some propId →
          ∃ value : ℤ,
            mouseDown (setIsSamplerWorkspacePreview d).toSamplerSoundWaveform e
              = MouseDownEffect.setSampleProperty propId value := by
  refine ⟨?_, ?_, ?_, rfl, rfl, ?_⟩
  · unfold mouseDown
    rw [if_pos hInterface]
  · unfold mouseUp
    rw [if_pos hInterface]
  · unfold mouseMove
    rw [if_pos hInterface]
  · intro sound propId hSound hMods hId
    exact ⟨_, mouseDown_edit (setIsSamplerWorkspacePreview d).toSamplerSoundWaveform e sound
      propId rfl hMods hSound hId⟩

/-- On an interface neither a click with a modifier key nor a hover changes
anything of the example waveform; after `setIsSamplerWorkspacePreview` a plain
click at column 50 writes the clicked sample 500 to `SampleStart`. -/
theorem onInterface_read_only_witness :
    (exampleState interfaceWaveform).onInterface = true
      ∧ mouseDown (exampleState interfaceWaveform).toSamplerSoundWaveform ⟨50, true, true, false⟩
        = MouseDownEffect.nothing
      ∧ mouseUp (exampleState interfaceWaveform).toSamplerSoundWaveform ⟨50, true, true, false⟩
        = MouseUpEffect.nothing
      ∧ (mouseMove (exampleState interfaceWaveform) ⟨50, true, true, false⟩ 50).xPos = -1
      ∧ (mouseMove (exampleState interfaceWaveform) ⟨50, true, true, false⟩ 50).tooltip = ""
      ∧ (setIsSamplerWorkspacePreview (exampleState interfaceWaveform)).onInterface = false
      ∧ mouseDown (setIsSamplerWorkspacePreview
            (exampleState interfaceWaveform)).toSamplerSoundWaveform (leftClickAt 50)
        = MouseDownEffect.setSampleProperty SampleId.SampleStart 500 := by
  obtain ⟨h1, h2, h3, h4, -, -⟩ :=
    onInterface_read_only (exampleState interfaceWaveform) ⟨50, true, true, false⟩ 50 rfl
  refine ⟨rfl, h1, h2, ?_, ?_, h4, ?_⟩
  · rw [h3]; rfl
  · rw [h3]; rfl
  · have h5 := mouseDown_edit
      (setIsSamplerWorkspacePreview (exampleState interfaceWaveform)).toSamplerSoundWaveform
      (leftClickAt 50) (exampleSound false) SampleId.SampleStart rfl rfl rfl rfl
    rw [show (leftClickAt 50).x = 50 from rfl, clickedSample_interface] at h5
    exact h5.trans (by decide)

end hise
